import Mathlib

/-!
# Host datapath (`bpf/bpf_host.c`): shallow embedding and verified properties

The C functions of `bpf/bpf_host.c` are translated into pure Lean functions.

* Machine integers are `Nat` (for `__u32`) and `Int` (for `int`); the two
  conversions that matter (`u32_of_int`, `int_of_u32`) are explicit.
* Preprocessor symbols that select code (`#ifdef`) are the booleans of `Config`.
* Constants, macros and pure inline helpers that live in headers outside this
  file (`lib/common.h`, `lib/identity.h`, ...) are the fields of `Consts`.
* Maps and services the program calls (ipcache, conntrack, policy, NAT,
  encapsulation, ...) are the fields of `World`; they are arbitrary functions,
  so every theorem holds for every behaviour of those collaborators.
* Every call with an externally visible effect is recorded as an `Event`; a
  function returns its result together with the events it emitted, in order.
-/

namespace BpfHost

/-! ## Data model -/

/-- Direction argument of conntrack and policy calls
(`CT_EGRESS` / `CT_INGRESS`, `POLICY_EGRESS` / `POLICY_INGRESS`, `METRIC_*`). -/
inductive Dir where
  | egress
  | ingress
  deriving DecidableEq, Repr

/-- The fields of `struct iphdr` the program reads. -/
structure Iphdr where
  saddr : Nat := 0
  daddr : Nat := 0
  protocol : Nat := 0
  ihl : Nat := 5
  frag_off : Nat := 0
  deriving DecidableEq, Repr

/-- An IPv6 address as four 32-bit words (`union v6addr`, fields `p1..p4`). -/
structure V6Addr where
  p1 : Nat := 0
  p2 : Nat := 0
  p3 : Nat := 0
  p4 : Nat := 0
  deriving DecidableEq, Repr

/-- The fields of `struct ipv6hdr` the program reads. `word0` is the first
32-bit word of the header as the CPU loads it (`*(__u32 *) ip6`). -/
structure Ipv6hdr where
  word0 : Nat := 0
  nexthdr : Nat := 0
  saddr : V6Addr := {}
  daddr : V6Addr := {}
  deriving DecidableEq, Repr

/-- The packet context `struct __ctx_buff`. `ip4` / `ip6` are what
`revalidate_data` yields for the respective header type (`none` when the
header cannot be read), `h_proto` is the protocol field of the Ethernet
header. `cb_src_identity`, `cb_magic` and `cb_encrypt_identity` are the metadata
slots read with `ctx_load_meta` (`CB_SRC_IDENTITY`, `ENCRYPT_OR_PROXY_MAGIC`,
`CB_ENCRYPT_IDENTITY`). `payload` stands for every other byte of the frame. -/
structure Pkt where
  ip4 : Option Iphdr := none
  ip6 : Option Ipv6hdr := none
  h_proto : Nat := 0
  mark : Nat := 0
  cb_src_identity : Nat := 0
  cb_magic : Nat := 0
  cb_encrypt_identity : Nat := 0
  payload : Nat := 0
  deriving DecidableEq, Repr

/-- An ipcache value (`struct remote_endpoint_info`). -/
structure RemoteEndpointInfo where
  sec_label : Nat := 0
  tunnel_endpoint : Nat := 0
  key : Nat := 0
  deriving DecidableEq, Repr

/-- A local endpoint (`struct endpoint_info`). -/
structure EndpointInfo where
  flags : Nat := 0
  lxc_id : Nat := 0
  deriving DecidableEq, Repr

/-- Key of the tunnel map (`struct endpoint_key`). -/
structure EndpointKey where
  ip4 : Nat := 0
  ip6 : V6Addr := {}
  family : Nat := 0
  deriving DecidableEq, Repr

/-- Conntrack tuple for IPv4 (`struct ipv4_ct_tuple`). -/
structure Ipv4CtTuple where
  daddr : Nat := 0
  saddr : Nat := 0
  dport : Nat := 0
  sport : Nat := 0
  nexthdr : Nat := 0
  flags : Nat := 0
  deriving DecidableEq, Repr

/-- Conntrack tuple for IPv6 (`struct ipv6_ct_tuple`). -/
structure Ipv6CtTuple where
  daddr : V6Addr := {}
  saddr : V6Addr := {}
  dport : Nat := 0
  sport : Nat := 0
  nexthdr : Nat := 0
  flags : Nat := 0
  deriving DecidableEq, Repr

/-- Either kind of conntrack tuple, for the event log. -/
inductive CtTuple where
  | v4 (t : Ipv4CtTuple)
  | v6 (t : Ipv6CtTuple)
  deriving DecidableEq, Repr

/-- The fields of `struct ct_state` the program touches. -/
structure CtState where
  src_sec_id : Nat := 0
  node_port : Nat := 0
  deriving DecidableEq, Repr

/-- Outcome of `ct_lookup4`: return value and the out-parameters. -/
structure CtLookup4 where
  ret : Int
  tuple : Ipv4CtTuple
  ct_state : CtState := {}
  monitor : Nat := 0
  deriving DecidableEq, Repr

/-- Outcome of `ct_lookup6`: return value and the out-parameters. -/
structure CtLookup6 where
  ret : Int
  tuple : Ipv6CtTuple
  ct_state : CtState := {}
  monitor : Nat := 0
  deriving DecidableEq, Repr

/-- Outcome of a policy evaluation: the verdict and the two out-parameters
`policy_match_type` and `audited`. -/
structure PolicyOut where
  verdict : Int
  match_type : Nat := 0
  audited : Nat := 0
  deriving DecidableEq, Repr

/-- The two places where `handle_ipv4` / `handle_ipv6` look the destination up
in the ipcache: before tunnel encapsulation (`#ifdef ENCAP_IFINDEX`) and before
the final pass to the stack. -/
inductive LookupSite where
  | encap
  | route
  deriving DecidableEq, Repr

/-- Externally visible actions, in the order the program performs them. -/
inductive Event where
  /-- Call `cilium_dbg(ctx, info ? DBG_IP_ID_MAP_SUCCEED : DBG_IP_ID_MAP_FAILED, addr, id)` -/
  | dbg_ip_id_map (succeed : Bool) (is_ipv6 : Bool) (addr : Nat) (id : Nat)
  /-- Call `ct_lookup4` / `ct_lookup6`: the tuple as left by the call, and the result -/
  | ct_lookup (tuple : CtTuple) (dir : Dir) (ret : Int)
  /-- Call `policy_can_egress4` / `policy_can_egress6` -/
  | policy_can_egress (tuple : CtTuple) (srcID dstID : Nat) (out : PolicyOut)
  /-- Call `policy_can_access_ingress` -/
  | policy_can_access_ingress (srcID dstID dport proto : Nat) (is_fragment : Bool)
      (out : PolicyOut)
  /-- Call `send_policy_verdict_notify` -/
  | policy_verdict_notify (remoteID dport proto : Nat) (dir : Dir) (is_ipv6 : Bool)
      (verdict : Int) (match_type audited : Nat)
  /-- Call `ct_create4` / `ct_create6`, with the state and the last (boolean) argument -/
  | ct_create (tuple : CtTuple) (dir : Dir) (ct_state : CtState) (flag : Bool) (ret : Int)
  /-- Call `send_drop_notify_error(ctx, src, error, exitcode, direction)` -/
  | drop_notify_error (src : Nat) (error : Int) (exitcode : Int) (dir : Dir)
  /-- Call `nodeport_lb4` / `nodeport_lb6` -/
  | nodeport_lb (is_ipv6 : Bool) (secctx : Nat) (ret : Int)
  /-- Call `eth_store_daddr` in `rewrite_dmac_to_host` -/
  | eth_store_daddr (ret : Int)
  /-- Call `icmp6_host_handle` -/
  | icmp6_host_handle (nexthdr : Nat) (ret : Int)
  /-- Call `ipv4_local_delivery` / `ipv6_local_delivery` -/
  | local_delivery (is_ipv6 : Bool) (secctx : Nat) (ep : EndpointInfo) (from_host : Bool)
      (ret : Int)
  /-- Call `encap_and_redirect_with_nodeid` -/
  | encap_with_nodeid (tunnel_endpoint key secctx : Nat) (ret : Int)
  /-- Call `encap_and_redirect_netdev` -/
  | encap_netdev (key : EndpointKey) (secctx : Nat) (ret : Int)
  /-- Call `redirect(HOST_IFINDEX, BPF_F_INGRESS)` -/
  | redirect_host_ingress (ret : Int)
  /-- Call `set_encrypt_key_meta` -/
  | set_encrypt_key_meta (key : Nat)
  /-- Call `set_encrypt_dip` -/
  | set_encrypt_dip (tunnel_endpoint : Nat)
  /-- Call `set_identity_meta` -/
  | set_identity_meta (secctx : Nat)
  /-- Call `ep_tail_call(ctx, slot)`; `taken` tells whether control was transferred -/
  | ep_tail_call (slot : Nat) (taken : Bool)
  /-- Call `ipcache_lookup4` / `ipcache_lookup6` on the destination in `handle_ipv4` /
  `handle_ipv6`, at the given site, with the entry found -/
  | ipcache_lookup (site : LookupSite) (is_ipv6 : Bool) (info : Option RemoteEndpointInfo)
  /-- Call `send_trace_notify(ctx, obs_point, src, ...)` in `do_netdev` -/
  | trace_notify (obs_point : Nat) (src : Nat)
  /-- Call `do_netdev_encrypt(ctx, proto)` -/
  | netdev_encrypt (proto : Nat) (ret : Int)
  /-- Call `arp_validate` / `arp_respond` in `do_netdev` -/
  | arp (validated : Bool) (ret : Int)
  /-- Call `nodeport_nat_fwd(ctx, false)` in `to_netdev` -/
  | nodeport_nat_fwd (ret : Int)
  /-- Call `send_drop_notify(ctx, src, dst, dst_id, reason, exitcode, direction)` -/
  | drop_notify (src dst dst_id : Nat) (reason : Int) (exitcode : Int) (dir : Dir)
  /-- Call `set_identity_mark(ctx, identity)` in `to_host` -/
  | set_identity_mark (identity : Nat)
  /-- Call `ctx_redirect_to_proxy_first(ctx, port)` in `to_host` -/
  | redirect_to_proxy (port : Nat)
  deriving DecidableEq, Repr

/-- Result of a function returning `int`, with the events it emitted. -/
structure Result where
  ret : Int
  trace : List Event := []
  deriving DecidableEq, Repr

/-- Result of a function returning `int` that may also change the packet. -/
structure CtxResult where
  ret : Int
  ctx : Pkt
  trace : List Event := []
  deriving DecidableEq, Repr

/-- Result of a function returning an identity (`__u32`). -/
structure IdResult where
  id : Nat
  trace : List Event := []
  deriving DecidableEq, Repr

/-- Result of a host-policy stage: return value, the value left in `*srcID`
(the ingress stages take it by pointer; the egress stages leave it as passed),
and the events emitted. -/
structure StageResult where
  ret : Int
  srcID : Nat
  trace : List Event := []
  deriving DecidableEq, Repr

/-! ## Configuration, constants and collaborators -/

/-- Preprocessor symbols tested by `#ifdef` / `#if defined` in `bpf_host.c`. -/
structure Config where
  ENABLE_HOST_FIREWALL : Bool := false
  ENABLE_NODEPORT : Bool := false
  ENCAP_IFINDEX : Bool := false
  NO_REDIRECT : Bool := false
  HOST_REDIRECT_TO_INGRESS : Bool := false
  ENABLE_IPSEC : Bool := false
  IP_POOLS : Bool := false
  ENABLE_EXTRA_HOST_DEV : Bool := false
  ENABLE_SECCTX_FROM_IPCACHE : Bool := false
  IPV4_FRAGMENTS : Bool := false
  ENABLE_IPV4 : Bool := true
  ENABLE_IPV6 : Bool := true
  ENABLE_ARP_PASSTHROUGH : Bool := false
  ENABLE_ARP_RESPONDER : Bool := false
  ENABLE_DSR : Bool := false
  ENABLE_DSR_HYBRID : Bool := false
  deriving DecidableEq, Repr

/-- Constants, macros and pure inline helpers defined in headers outside
`bpf_host.c`. They are parameters of the model: a theorem assumes about them
only what its hypotheses state. -/
structure Consts where
  HOST_ID : Nat
  WORLD_ID : Nat
  CTX_ACT_OK : Int
  CTX_ACT_DROP : Int
  CT_NEW : Int
  CT_ESTABLISHED : Int
  CT_REPLY : Int
  CT_RELATED : Int
  DROP_INVALID : Int
  DROP_UNKNOWN_CT : Int
  DROP_UNROUTABLE : Int
  DROP_INVALID_IDENTITY : Int
  DROP_WRITE_ERROR : Int
  DROP_NO_TUNNEL_ENDPOINT : Int
  DROP_MISSED_TAIL_CALL : Int
  DROP_UNKNOWN_L3 : Int
  DROP_UNSUPPORTED_L2 : Int
  IPSEC_ENDPOINT : Int
  ENDPOINT_F_HOST : Nat
  ENDPOINT_KEY_IPV4 : Nat
  ENDPOINT_KEY_IPV6 : Nat
  ETH_HLEN : Int
  XFER_PKT_NO_SVC : Nat
  IPV4_MASK : Nat
  IPV6_FLOWLABEL_MASK : Nat
  ROUTER_IP : V6Addr
  CILIUM_CALL_IPV4_FROM_HOST : Nat
  CILIUM_CALL_IPV4_FROM_LXC : Nat
  CILIUM_CALL_IPV6_FROM_HOST : Nat
  CILIUM_CALL_IPV6_FROM_LXC : Nat
  ETH_P_IP : Nat
  ETH_P_IPV6 : Nat
  ETH_P_ARP : Nat
  MARK_MAGIC_HOST_MASK : Nat
  MARK_MAGIC_ENCRYPT : Nat
  MARK_MAGIC_SNAT_DONE : Nat
  TRACE_FROM_HOST : Nat
  TRACE_FROM_PROXY : Nat
  TRACE_FROM_STACK : Nat
  TRACE_TO_STACK : Nat
  MARK_MAGIC_TO_PROXY : Nat
  SECLABEL : Nat
  /-- The macro `IS_ERR(x)`. -/
  IS_ERR : Int → Bool
  /-- The helper `identity_is_reserved` of `lib/identity.h`. -/
  identity_is_reserved : Nat → Bool
  /-- The helper `ipv4_hdrlen` of `lib/ipv4.h`. -/
  ipv4_hdrlen : Iphdr → Int
  /-- The helper `ipv4_is_fragment` of `lib/ipv4.h`. -/
  ipv4_is_fragment : Iphdr → Bool
  /-- The helper `ipv6_match_prefix_64` of `lib/ipv6.h`. -/
  ipv6_match_prefix_64 : V6Addr → V6Addr → Bool
  /-- The byte-order macro `bpf_ntohl`. -/
  bpf_ntohl : Nat → Nat
  /-- The helper `get_min_encrypt_key`. -/
  get_min_encrypt_key : Nat → Nat

/-- Maps and services called by the program. Each field is the function the
program calls, applied to the arguments that can influence its answer. -/
structure World where
  /-- Call `lookup_ip4_remote_endpoint(addr)` -/
  lookup_ip4_remote_endpoint : Nat → Option RemoteEndpointInfo
  /-- Call `lookup_ip6_remote_endpoint(addr)` -/
  lookup_ip6_remote_endpoint : V6Addr → Option RemoteEndpointInfo
  /-- Call `ipcache_lookup4(&IPCACHE_MAP, addr, V4_CACHE_KEY_LEN)` -/
  ipcache_lookup4 : Nat → Option RemoteEndpointInfo
  /-- Call `ipcache_lookup6(&IPCACHE_MAP, addr, V6_CACHE_KEY_LEN)` -/
  ipcache_lookup6 : V6Addr → Option RemoteEndpointInfo
  /-- Call `lookup_ip4_endpoint(ip4)` -/
  lookup_ip4_endpoint : Iphdr → Option EndpointInfo
  /-- Call `lookup_ip6_endpoint(ip6)` -/
  lookup_ip6_endpoint : Ipv6hdr → Option EndpointInfo
  /-- Call `ct_lookup4(get_ct_map4(&tuple), &tuple, ctx, l4_off, dir, &ct_state, &monitor)` -/
  ct_lookup4 : Pkt → Ipv4CtTuple → Int → Dir → CtLookup4
  /-- Call `ct_lookup6(get_ct_map6(&tuple), &tuple, ctx, l4_off, dir, &ct_state, &monitor)` -/
  ct_lookup6 : Pkt → Ipv6CtTuple → Int → Dir → CtLookup6
  /-- Call `ct_create4(get_ct_map4(&tuple), &CT_MAP_ANY4, &tuple, ctx, dir, &ct_state_new, flag)` -/
  ct_create4 : Pkt → Ipv4CtTuple → Dir → CtState → Bool → Int
  /-- Call `ct_create6(get_ct_map6(&tuple), &CT_MAP_ANY6, &tuple, ctx, dir, &ct_state_new, flag)` -/
  ct_create6 : Pkt → Ipv6CtTuple → Dir → CtState → Bool → Int
  /-- Call `policy_can_egress4(ctx, &tuple, srcID, dstID, &policy_match_type, &audited)` -/
  policy_can_egress4 : Pkt → Ipv4CtTuple → Nat → Nat → PolicyOut
  /-- Call `policy_can_egress6(ctx, &tuple, srcID, dstID, &policy_match_type, &audited)` -/
  policy_can_egress6 : Pkt → Ipv6CtTuple → Nat → Nat → PolicyOut
  /-- Call `policy_can_access_ingress(ctx, srcID, dstID, dport, proto, is_fragment, ...)` -/
  policy_can_access_ingress : Pkt → Nat → Nat → Nat → Nat → Bool → PolicyOut
  /-- Call `ipv6_hdrlen(ctx, l3_off, &nexthdr)`: the result and the updated `nexthdr` -/
  ipv6_hdrlen : Pkt → Int → Nat → Int × Nat
  /-- Call `ctx_get_xfer(ctx)` -/
  ctx_get_xfer : Pkt → Nat
  /-- Call `bpf_skip_nodeport(ctx)` -/
  bpf_skip_nodeport : Pkt → Bool
  /-- Call `nodeport_lb4(ctx, secctx)`: the result and the packet it leaves -/
  nodeport_lb4 : Pkt → Nat → Int × Pkt
  /-- Call `nodeport_lb6(ctx, secctx)`: the result and the packet it leaves -/
  nodeport_lb6 : Pkt → Nat → Int × Pkt
  /-- Call `eth_store_daddr(ctx, mac, 0)`: the result and the packet it leaves -/
  eth_store_daddr : Pkt → Int × Pkt
  /-- Call `icmp6_host_handle(ctx, nexthdr)` -/
  icmp6_host_handle : Pkt → Nat → Int
  /-- Call `ipv4_local_delivery(ctx, ETH_HLEN, secctx, ip4, ep, METRIC_INGRESS, from_host)` -/
  ipv4_local_delivery : Pkt → Nat → Iphdr → EndpointInfo → Bool → Int
  /-- Call `ipv6_local_delivery(ctx, l3_off, secctx, ep, METRIC_INGRESS, from_host)` -/
  ipv6_local_delivery : Pkt → Nat → EndpointInfo → Bool → Int
  /-- Call `encap_and_redirect_with_nodeid(ctx, tunnel_endpoint, key, secctx, TRACE_PAYLOAD_LEN)` -/
  encap_and_redirect_with_nodeid : Pkt → Nat → Nat → Nat → Int
  /-- Call `encap_and_redirect_netdev(ctx, &key, secctx, TRACE_PAYLOAD_LEN)` -/
  encap_and_redirect_netdev : Pkt → EndpointKey → Nat → Int
  /-- Call `redirect(HOST_IFINDEX, BPF_F_INGRESS)` -/
  redirect_host_ingress : Pkt → Int
  /-- Call `send_drop_notify_error(ctx, src, error, exitcode, direction)` -/
  send_drop_notify_error : Nat → Int → Int → Dir → Int
  /-- Call `bpf_clear_meta(ctx)`: the packet it leaves -/
  bpf_clear_meta : Pkt → Pkt
  /-- Call `bpf_skip_nodeport_clear(ctx)`: the packet it leaves -/
  bpf_skip_nodeport_clear : Pkt → Pkt
  /-- Call `inherit_identity_from_host(ctx, &identity)`: the result `from_proxy`, the
  identity written and the packet it leaves -/
  inherit_identity_from_host : Pkt → Bool × Nat × Pkt
  /-- Call `do_netdev_encrypt(ctx, proto)`, the IPsec transmit path (lines 926-1081) -/
  do_netdev_encrypt : Pkt → Nat → Int
  /-- Call `arp_validate(ctx, &mac, &smac, &sip, &tip)` -/
  arp_validate : Pkt → Bool
  /-- Call `arp_respond(ctx, &mac, tip, &smac, sip, BPF_F_INGRESS)` -/
  arp_respond : Pkt → Int
  /-- Call `validate_ethertype(ctx, &proto)`: the result and the value left in `proto` -/
  validate_ethertype : Pkt → Bool × Nat
  /-- Call `policy_clear_mark(ctx)`: the packet it leaves -/
  policy_clear_mark : Pkt → Pkt
  /-- Call `nodeport_nat_fwd(ctx, false)` -/
  nodeport_nat_fwd : Pkt → Int
  /-- Whether `ep_tail_call(ctx, slot)` finds a program to transfer control to -/
  tail_call_present : Nat → Bool
  /-- Call `send_drop_notify(ctx, src, dst, dst_id, reason, exitcode, direction)` -/
  send_drop_notify : Nat → Nat → Nat → Int → Int → Dir → Int
  /-- Call `set_identity_mark(ctx, identity)`: the packet it leaves -/
  set_identity_mark : Pkt → Nat → Pkt
  /-- Call `ctx_redirect_to_proxy_first(ctx, port)`: the packet it leaves -/
  ctx_redirect_to_proxy_first : Pkt → Nat → Pkt

/-- Conversion of an `int` to `__u32` (used where a function declared to return
`__u32` returns a negative error code). -/
def u32_of_int (i : Int) : Nat := (i % 4294967296).toNat

/-- Conversion of a `__u32` to `int`. -/
def int_of_u32 (n : Nat) : Int :=
  if n % 4294967296 < 2147483648 then ((n % 4294967296 : Nat) : Int)
  else ((n % 4294967296 : Nat) : Int) - 4294967296

/-- The pattern `if (info != NULL && info->sec_label) id = info->sec_label;`:
the identity after the statement, given its value `id` before. -/
def sec_label_override (id : Nat) (info : Option RemoteEndpointInfo) : Nat :=
  match info with
  | some i => if i.sec_label ≠ 0 then i.sec_label else id
  | none => id

/-! ## Host-policy stages (`#ifdef ENABLE_HOST_FIREWALL`) -/

/-- Embedding of `ipv6_host_policy_egress` (lines 159-234). -/
def ipv6_host_policy_egress (k : Consts) (w : World) (ctx : Pkt) (srcID : Nat) :
    StageResult :=
  -- Only enforce host policies for packets from host IPs.
  if srcID ≠ k.HOST_ID then ⟨k.CTX_ACT_OK, srcID, []⟩
  else
  match ctx.ip6 with
  | none => ⟨k.DROP_INVALID, srcID, []⟩
  | some ip6 =>
    let orig_dip := ip6.daddr
    let h := w.ipv6_hdrlen ctx k.ETH_HLEN ip6.nexthdr
    let hdrlen := h.1
    let tuple0 : Ipv6CtTuple := { nexthdr := h.2, daddr := ip6.daddr }
    if hdrlen < 0 then ⟨hdrlen, srcID, []⟩
    else
    let l4_off := k.ETH_HLEN + hdrlen
    let ct := w.ct_lookup6 ctx tuple0 l4_off Dir.egress
    let tuple := ct.tuple
    let tr1 := [Event.ct_lookup (CtTuple.v6 tuple) Dir.egress ct.ret]
    if ct.ret < 0 then ⟨ct.ret, srcID, tr1⟩
    else
    -- Retrieve destination identity.
    let info := w.lookup_ip6_remote_endpoint orig_dip
    let dstID := sec_label_override 0 info
    let tr2 := tr1 ++ [Event.dbg_ip_id_map info.isSome true orig_dip.p4 dstID]
    -- Perform policy lookup.
    let pol := w.policy_can_egress6 ctx tuple srcID dstID
    let verdict := pol.verdict
    let tr3 := tr2 ++ [Event.policy_can_egress (CtTuple.v6 tuple) srcID dstID pol]
    let notify := Event.policy_verdict_notify dstID tuple.dport tuple.nexthdr Dir.egress true
      verdict pol.match_type pol.audited
    -- Reply traffic and related are allowed regardless of policy verdict.
    if ct.ret ≠ k.CT_REPLY ∧ ct.ret ≠ k.CT_RELATED ∧ verdict < 0 then
      ⟨verdict, srcID, tr3 ++ [notify]⟩
    else if ct.ret = k.CT_NEW then
      let ct_state_new : CtState := { src_sec_id := k.HOST_ID }
      let flag := decide (verdict > 0)
      let cr := w.ct_create6 ctx tuple Dir.egress ct_state_new flag
      let tr5 := tr3 ++ [notify, Event.ct_create (CtTuple.v6 tuple) Dir.egress ct_state_new flag cr]
      if k.IS_ERR cr then ⟨cr, srcID, tr5⟩ else ⟨k.CTX_ACT_OK, srcID, tr5⟩
    else if ct.ret = k.CT_ESTABLISHED ∨ ct.ret = k.CT_RELATED ∨ ct.ret = k.CT_REPLY then
      ⟨k.CTX_ACT_OK, srcID, tr3⟩
    else ⟨k.DROP_UNKNOWN_CT, srcID, tr3⟩

/-- Embedding of `ipv6_host_policy_ingress` (lines 236-322); `srcID` is the
value of `*srcID` at entry. -/
def ipv6_host_policy_ingress (k : Consts) (w : World) (ctx : Pkt) (srcID : Nat) :
    StageResult :=
  match ctx.ip6 with
  | none => ⟨k.DROP_INVALID, srcID, []⟩
  | some ip6 =>
    -- Retrieve destination identity.
    let info := w.lookup_ip6_remote_endpoint ip6.daddr
    let dstID := sec_label_override k.WORLD_ID info
    let tr0 := [Event.dbg_ip_id_map info.isSome true ip6.daddr.p4 dstID]
    -- Only enforce host policies for packets to host IPs.
    if dstID ≠ k.HOST_ID then ⟨k.CTX_ACT_OK, srcID, tr0⟩
    else
    -- Lookup connection in conntrack map.
    let orig_sip := ip6.saddr
    let h := w.ipv6_hdrlen ctx k.ETH_HLEN ip6.nexthdr
    let hdrlen := h.1
    let tuple0 : Ipv6CtTuple := { nexthdr := h.2, daddr := ip6.daddr, saddr := ip6.saddr }
    if hdrlen < 0 then ⟨hdrlen, srcID, tr0⟩
    else
    let l4_off := k.ETH_HLEN + hdrlen
    let ct := w.ct_lookup6 ctx tuple0 l4_off Dir.ingress
    let tuple := ct.tuple
    let tr1 := tr0 ++ [Event.ct_lookup (CtTuple.v6 tuple) Dir.ingress ct.ret]
    if ct.ret < 0 then ⟨ct.ret, srcID, tr1⟩
    else
    -- Retrieve source identity.
    let info2 := w.lookup_ip6_remote_endpoint orig_sip
    let srcID1 := sec_label_override srcID info2
    let tr2 := tr1 ++ [Event.dbg_ip_id_map info2.isSome true orig_sip.p4 srcID1]
    -- Perform policy lookup
    let pol := w.policy_can_access_ingress ctx srcID1 dstID tuple.dport tuple.nexthdr false
    let verdict := pol.verdict
    let tr3 := tr2 ++
      [Event.policy_can_access_ingress srcID1 dstID tuple.dport tuple.nexthdr false pol]
    let notify := Event.policy_verdict_notify srcID1 tuple.dport tuple.nexthdr Dir.ingress true
      verdict pol.match_type pol.audited
    -- Reply traffic and related are allowed regardless of policy verdict.
    if ct.ret ≠ k.CT_REPLY ∧ ct.ret ≠ k.CT_RELATED ∧ verdict < 0 then
      ⟨verdict, srcID1, tr3 ++ [notify]⟩
    else if ct.ret = k.CT_NEW then
      -- Create new entry for connection in conntrack map.
      let ct_state_new : CtState := { src_sec_id := srcID1, node_port := ct.ct_state.node_port }
      let flag := decide (verdict > 0)
      let cr := w.ct_create6 ctx tuple Dir.ingress ct_state_new flag
      let tr5 := tr3 ++
        [notify, Event.ct_create (CtTuple.v6 tuple) Dir.ingress ct_state_new flag cr]
      if k.IS_ERR cr then ⟨cr, srcID1, tr5⟩ else ⟨k.CTX_ACT_OK, srcID1, tr5⟩
    else if ct.ret = k.CT_ESTABLISHED ∨ ct.ret = k.CT_RELATED ∨ ct.ret = k.CT_REPLY then
      ⟨k.CTX_ACT_OK, srcID1, tr3⟩
    else ⟨k.DROP_UNKNOWN_CT, srcID1, tr3⟩

/-- Embedding of `ipv4_host_policy_egress` (lines 586-657). -/
def ipv4_host_policy_egress (k : Consts) (w : World) (ctx : Pkt) (srcID : Nat) :
    StageResult :=
  -- Only enforce host policies for packets from host IPs.
  if srcID ≠ k.HOST_ID then ⟨k.CTX_ACT_OK, srcID, []⟩
  else
  match ctx.ip4 with
  | none => ⟨k.DROP_INVALID, srcID, []⟩
  | some ip4 =>
    -- Lookup connection in conntrack map.
    let tuple0 : Ipv4CtTuple :=
      { nexthdr := ip4.protocol, daddr := ip4.daddr, saddr := ip4.saddr }
    let l4_off := k.ETH_HLEN + k.ipv4_hdrlen ip4
    let ct := w.ct_lookup4 ctx tuple0 l4_off Dir.egress
    let tuple := ct.tuple
    let tr1 := [Event.ct_lookup (CtTuple.v4 tuple) Dir.egress ct.ret]
    if ct.ret < 0 then ⟨ct.ret, srcID, tr1⟩
    else
    -- Retrieve destination identity.
    let info := w.lookup_ip4_remote_endpoint ip4.daddr
    let dstID := sec_label_override 0 info
    let tr2 := tr1 ++ [Event.dbg_ip_id_map info.isSome false ip4.daddr dstID]
    -- Perform policy lookup.
    let pol := w.policy_can_egress4 ctx tuple srcID dstID
    let verdict := pol.verdict
    let tr3 := tr2 ++ [Event.policy_can_egress (CtTuple.v4 tuple) srcID dstID pol]
    let notify := Event.policy_verdict_notify dstID tuple.dport tuple.nexthdr Dir.egress false
      verdict pol.match_type pol.audited
    -- Reply traffic and related are allowed regardless of policy verdict.
    if ct.ret ≠ k.CT_REPLY ∧ ct.ret ≠ k.CT_RELATED ∧ verdict < 0 then
      ⟨verdict, srcID, tr3 ++ [notify]⟩
    else if ct.ret = k.CT_NEW then
      let ct_state_new : CtState := { src_sec_id := k.HOST_ID }
      let flag := decide (verdict > 0)
      let cr := w.ct_create4 ctx tuple Dir.egress ct_state_new flag
      let tr5 := tr3 ++ [notify, Event.ct_create (CtTuple.v4 tuple) Dir.egress ct_state_new flag cr]
      if k.IS_ERR cr then ⟨cr, srcID, tr5⟩ else ⟨k.CTX_ACT_OK, srcID, tr5⟩
    else if ct.ret = k.CT_ESTABLISHED ∨ ct.ret = k.CT_RELATED ∨ ct.ret = k.CT_REPLY then
      ⟨k.CTX_ACT_OK, srcID, tr3⟩
    else ⟨k.DROP_UNKNOWN_CT, srcID, tr3⟩

/-- Embedding of `ipv4_host_policy_ingress` (lines 659-748); `srcID` is the
value of `*srcID` at entry. -/
def ipv4_host_policy_ingress (cfg : Config) (k : Consts) (w : World) (ctx : Pkt)
    (srcID : Nat) : StageResult :=
  match ctx.ip4 with
  | none => ⟨k.DROP_INVALID, srcID, []⟩
  | some ip4 =>
    -- Retrieve destination identity.
    let info := w.lookup_ip4_remote_endpoint ip4.daddr
    let dstID := sec_label_override k.WORLD_ID info
    let tr0 := [Event.dbg_ip_id_map info.isSome false ip4.daddr dstID]
    -- Only enforce host policies for packets to host IPs.
    if dstID ≠ k.HOST_ID then ⟨k.CTX_ACT_OK, srcID, tr0⟩
    else
    -- Lookup connection in conntrack map.
    let tuple0 : Ipv4CtTuple :=
      { nexthdr := ip4.protocol, daddr := ip4.daddr, saddr := ip4.saddr }
    let l4_off := k.ETH_HLEN + k.ipv4_hdrlen ip4
    -- #ifndef IPV4_FRAGMENTS
    let is_untracked_fragment :=
      if cfg.IPV4_FRAGMENTS then false else k.ipv4_is_fragment ip4
    let ct := w.ct_lookup4 ctx tuple0 l4_off Dir.ingress
    let tuple := ct.tuple
    let tr1 := tr0 ++ [Event.ct_lookup (CtTuple.v4 tuple) Dir.ingress ct.ret]
    if ct.ret < 0 then ⟨ct.ret, srcID, tr1⟩
    else
    -- Retrieve source identity.
    let info2 := w.lookup_ip4_remote_endpoint ip4.saddr
    let srcID1 := sec_label_override srcID info2
    let tr2 := tr1 ++ [Event.dbg_ip_id_map info2.isSome false ip4.saddr srcID1]
    -- Perform policy lookup
    let pol := w.policy_can_access_ingress ctx srcID1 dstID tuple.dport tuple.nexthdr
      is_untracked_fragment
    let verdict := pol.verdict
    let tr3 := tr2 ++ [Event.policy_can_access_ingress srcID1 dstID tuple.dport tuple.nexthdr
      is_untracked_fragment pol]
    let notify := Event.policy_verdict_notify srcID1 tuple.dport tuple.nexthdr Dir.ingress false
      verdict pol.match_type pol.audited
    -- Reply traffic and related are allowed regardless of policy verdict.
    if ct.ret ≠ k.CT_REPLY ∧ ct.ret ≠ k.CT_RELATED ∧ verdict < 0 then
      ⟨verdict, srcID1, tr3 ++ [notify]⟩
    else if ct.ret = k.CT_NEW then
      -- Create new entry for connection in conntrack map.
      let ct_state_new : CtState := { src_sec_id := srcID1, node_port := ct.ct_state.node_port }
      let flag := decide (verdict > 0)
      let cr := w.ct_create4 ctx tuple Dir.ingress ct_state_new flag
      let tr5 := tr3 ++
        [notify, Event.ct_create (CtTuple.v4 tuple) Dir.ingress ct_state_new flag cr]
      if k.IS_ERR cr then ⟨cr, srcID1, tr5⟩ else ⟨k.CTX_ACT_OK, srcID1, tr5⟩
    else if ct.ret = k.CT_ESTABLISHED ∨ ct.ret = k.CT_RELATED ∨ ct.ret = k.CT_REPLY then
      ⟨k.CTX_ACT_OK, srcID1, tr3⟩
    else ⟨k.DROP_UNKNOWN_CT, srcID1, tr3⟩

/-! ## Identity resolution -/

/-- Embedding of `derive_src_id` (lines 72-87): the `__u32` return value and
the value left in `*identity`. -/
def derive_src_id (k : Consts) (node_ip : V6Addr) (ip6 : Ipv6hdr) (identity : Nat) :
    Nat × Nat :=
  if k.ipv6_match_prefix_64 ip6.saddr node_ip then
    -- Read initial 4 bytes of header and then extract flowlabel
    let identity1 := k.bpf_ntohl (ip6.word0 &&& k.IPV6_FLOWLABEL_MASK)
    if identity1 = k.HOST_ID then (u32_of_int k.DROP_INVALID_IDENTITY, identity1)
    else (0, identity1)
  else (0, identity)

/-- Embedding of `ipcache_lookup_srcid6` (lines 90-108). -/
def ipcache_lookup_srcid6 (k : Consts) (w : World) (ctx : Pkt) : IdResult :=
  match ctx.ip6 with
  | none => ⟨u32_of_int k.DROP_INVALID, []⟩
  | some ip6 =>
    let info := w.lookup_ip6_remote_endpoint ip6.saddr
    let srcid := match info with
      | some i => i.sec_label
      | none => 0
    ⟨srcid, [Event.dbg_ip_id_map info.isSome true ip6.saddr.p4 srcid]⟩

/-- Embedding of `resolve_srcid_ipv6` (lines 111-156). -/
def resolve_srcid_ipv6 (cfg : Config) (k : Consts) (w : World) (ctx : Pkt)
    (srcid_from_proxy : Nat) (from_host : Bool) : IdResult :=
  match ctx.ip6 with
  | none => ⟨u32_of_int k.DROP_INVALID, []⟩
  | some ip6 =>
    let d := if from_host then (0, k.WORLD_ID) else derive_src_id k k.ROUTER_IP ip6 k.WORLD_ID
    let ret := int_of_u32 d.1
    if !from_host && k.IS_ERR ret then ⟨u32_of_int ret, []⟩
    else
    let src_id := d.2
    -- Packets from the proxy will already have a real identity.
    let info := w.lookup_ip6_remote_endpoint ip6.saddr
    let srcid_from_ipcache :=
      if k.identity_is_reserved srcid_from_proxy then sec_label_override srcid_from_proxy info
      else srcid_from_proxy
    let tr :=
      if k.identity_is_reserved srcid_from_proxy then
        [Event.dbg_ip_id_map info.isSome true ip6.saddr.p4 srcid_from_ipcache]
      else []
    if from_host then ⟨srcid_from_ipcache, tr⟩
    else if cfg.ENABLE_SECCTX_FROM_IPCACHE ∧ src_id = k.WORLD_ID ∧
        k.identity_is_reserved srcid_from_ipcache = false then
      ⟨srcid_from_ipcache, tr⟩
    else ⟨src_id, tr⟩

/-- Embedding of `ipcache_lookup_srcid4` (lines 513-531). -/
def ipcache_lookup_srcid4 (k : Consts) (w : World) (ctx : Pkt) : IdResult :=
  match ctx.ip4 with
  | none => ⟨u32_of_int k.DROP_INVALID, []⟩
  | some ip4 =>
    let info := w.lookup_ip4_remote_endpoint ip4.saddr
    let srcid := match info with
      | some i => i.sec_label
      | none => 0
    ⟨srcid, [Event.dbg_ip_id_map info.isSome false ip4.saddr srcid]⟩

/-- Embedding of `resolve_srcid_ipv4` (lines 534-583). -/
def resolve_srcid_ipv4 (cfg : Config) (k : Consts) (w : World) (ctx : Pkt)
    (srcid_from_proxy : Nat) (from_host : Bool) : IdResult :=
  match ctx.ip4 with
  | none => ⟨u32_of_int k.DROP_INVALID, []⟩
  | some ip4 =>
    let src_id := k.WORLD_ID
    -- Packets from the proxy will already have a real identity.
    let info := w.lookup_ip4_remote_endpoint ip4.saddr
    let srcid_from_ipcache :=
      if k.identity_is_reserved srcid_from_proxy then
        match info with
        | some i =>
          let sec_label := i.sec_label
          if sec_label ≠ 0 then
            -- #ifndef ENABLE_EXTRA_HOST_DEV: if (from_host && sec_label != HOST_ID)
            if cfg.ENABLE_EXTRA_HOST_DEV then sec_label
            else if from_host = true ∧ sec_label ≠ k.HOST_ID then sec_label
            else srcid_from_proxy
          else srcid_from_proxy
        | none => srcid_from_proxy
      else srcid_from_proxy
    let tr :=
      if k.identity_is_reserved srcid_from_proxy then
        [Event.dbg_ip_id_map info.isSome false ip4.saddr srcid_from_ipcache]
      else []
    if from_host then ⟨srcid_from_ipcache, tr⟩
    else if cfg.ENABLE_SECCTX_FROM_IPCACHE ∧
        k.identity_is_reserved srcid_from_ipcache = false then
      ⟨srcid_from_ipcache, tr⟩
    else ⟨src_id, tr⟩

/-! ## Per-protocol handlers -/

/-- Embedding of `rewrite_dmac_to_host` (lines 54-68). -/
def rewrite_dmac_to_host (k : Consts) (w : World) (ctx : Pkt) (src_identity : Nat) :
    CtxResult :=
  let r := w.eth_store_daddr ctx
  if r.1 < 0 then
    ⟨w.send_drop_notify_error src_identity k.DROP_WRITE_ERROR k.CTX_ACT_OK Dir.ingress, r.2,
      [Event.eth_store_daddr r.1,
        Event.drop_notify_error src_identity k.DROP_WRITE_ERROR k.CTX_ACT_OK Dir.ingress]⟩
  else ⟨k.CTX_ACT_OK, r.2, [Event.eth_store_daddr r.1]⟩

/-- The `#ifdef ENABLE_IPSEC` block that ends `handle_ipv4` and `handle_ipv6`
(lines 882-893 and 445-456): the metadata writes it performs. -/
def set_encrypt_meta (cfg : Config) (k : Consts) (info : Option RemoteEndpointInfo)
    (secctx : Nat) : List Event :=
  if cfg.ENABLE_IPSEC then
    match info with
    | some i =>
      if i.key ≠ 0 ∧ i.tunnel_endpoint ≠ 0 then
        [Event.set_encrypt_key_meta (k.get_min_encrypt_key i.key),
          if cfg.IP_POOLS then Event.set_encrypt_dip i.tunnel_endpoint
          else Event.set_identity_meta secctx]
      else []
    | none => []
  else []

/-- The test `info == NULL || info->sec_label == WORLD_ID` of lines 870 and 441. -/
def unknown_destination (k : Consts) (info : Option RemoteEndpointInfo) : Bool :=
  match info with
  | none => true
  | some i => decide (i.sec_label = k.WORLD_ID)

/-- Last part of `handle_ipv4` (lines 865-895): pass to the stack, unless the
packet comes from the host and its destination is unknown to the ipcache. -/
def handle_ipv4_route (cfg : Config) (k : Consts) (w : World) (ctx : Pkt) (ip4 : Iphdr)
    (secctx : Nat) (from_host : Bool) : Result :=
  if cfg.HOST_REDIRECT_TO_INGRESS then
    ⟨w.redirect_host_ingress ctx, [Event.redirect_host_ingress (w.redirect_host_ingress ctx)]⟩
  else
    let info := w.ipcache_lookup4 ip4.daddr
    let tr := [Event.ipcache_lookup LookupSite.route false info]
    if from_host = true ∧ unknown_destination k info = true then
      -- We have received a packet for which no ipcache entry exists, drop it.
      ⟨k.DROP_UNROUTABLE, tr⟩
    else ⟨k.CTX_ACT_OK, tr ++ set_encrypt_meta cfg k info secctx⟩

/-- The `#ifdef ENCAP_IFINDEX` block of `handle_ipv4` (lines 838-863), followed
by the rest of the function when the block does not return. -/
def handle_ipv4_encap (cfg : Config) (k : Consts) (w : World) (ctx : Pkt) (ip4 : Iphdr)
    (secctx : Nat) (from_host : Bool) : Result :=
  if cfg.ENCAP_IFINDEX then
    let info := w.ipcache_lookup4 ip4.daddr
    let tr := [Event.ipcache_lookup LookupSite.encap false info]
    let tunnel := match info with
      | some i => if i.tunnel_endpoint ≠ 0 then some i else none
      | none => none
    match tunnel with
    | some i =>
      let ret := w.encap_and_redirect_with_nodeid ctx i.tunnel_endpoint i.key secctx
      let tr1 := tr ++ [Event.encap_with_nodeid i.tunnel_endpoint i.key secctx ret]
      if ret = k.IPSEC_ENDPOINT then ⟨k.CTX_ACT_OK, tr1⟩ else ⟨ret, tr1⟩
    | none =>
      -- IPv4 lookup key: daddr & IPV4_MASK
      let key : EndpointKey := { ip4 := ip4.daddr &&& k.IPV4_MASK, family := k.ENDPOINT_KEY_IPV4 }
      let ret := w.encap_and_redirect_netdev ctx key secctx
      let tr1 := tr ++ [Event.encap_netdev key secctx ret]
      if ret = k.IPSEC_ENDPOINT then ⟨k.CTX_ACT_OK, tr1⟩
      else if ret ≠ k.DROP_NO_TUNNEL_ENDPOINT then ⟨ret, tr1⟩
      else
        let r := handle_ipv4_route cfg k w ctx ip4 secctx from_host
        ⟨r.ret, tr1 ++ r.trace⟩
  else handle_ipv4_route cfg k w ctx ip4 secctx from_host

/-- Forwarding part of `handle_ipv4` (lines 822-895), entered with the header
`ip4` read by the last `revalidate_data`. -/
def handle_ipv4_forward (cfg : Config) (k : Consts) (w : World) (ctx : Pkt) (ip4 : Iphdr)
    (secctx : Nat) (from_host : Bool) : Result :=
  -- Lookup IPv4 address in list of local endpoints and host IPs
  match w.lookup_ip4_endpoint ip4 with
  | some ep =>
    -- Let through packets to the node-ip so they are processed by the local ip stack
    if ep.flags &&& k.ENDPOINT_F_HOST ≠ 0 then
      if cfg.HOST_REDIRECT_TO_INGRESS then
        ⟨w.redirect_host_ingress ctx, [Event.redirect_host_ingress (w.redirect_host_ingress ctx)]⟩
      else ⟨k.CTX_ACT_OK, []⟩
    else
      let ret := w.ipv4_local_delivery ctx secctx ip4 ep from_host
      ⟨ret, [Event.local_delivery false secctx ep from_host ret]⟩
  | none => handle_ipv4_encap cfg k w ctx ip4 secctx from_host

/-- Host-firewall part of `handle_ipv4` (lines 806-820) followed by the
forwarding part. -/
def handle_ipv4_policy (cfg : Config) (k : Consts) (w : World) (ctx : Pkt) (ip4 : Iphdr)
    (secctx : Nat) (from_host : Bool) (skip_redirect : Bool) : Result :=
  if cfg.ENABLE_HOST_FIREWALL then
    let remoteID := 0
    let st :=
      if from_host then
        -- We're on the egress path of cilium_host.
        ipv4_host_policy_egress k w ctx secctx
      else
        -- We're on the ingress path of the native device.
        ipv4_host_policy_ingress cfg k w ctx remoteID
    if k.IS_ERR st.ret then ⟨st.ret, st.trace⟩
    else if skip_redirect then ⟨k.CTX_ACT_OK, st.trace⟩
    else
      match ctx.ip4 with
      | none => ⟨k.DROP_INVALID, st.trace⟩
      | some ip4 =>
        let r := handle_ipv4_forward cfg k w ctx ip4 secctx from_host
        ⟨r.ret, st.trace ++ r.trace⟩
  else handle_ipv4_forward cfg k w ctx ip4 secctx from_host

/-- Part of `handle_ipv4` from the MAC rewrite on (lines 792-896). -/
def handle_ipv4_dmac (cfg : Config) (k : Consts) (w : World) (ctx : Pkt) (ip4 : Iphdr)
    (secctx : Nat) (from_host : Bool) (skip_redirect : Bool) : Result :=
  if from_host = true ∧ skip_redirect = false then
    -- rewrite the destination mac address to the MAC of cilium_net
    let m := rewrite_dmac_to_host k w ctx secctx
    if k.IS_ERR m.ret then ⟨m.ret, m.trace⟩
    else
      match m.ctx.ip4 with
      | none => ⟨k.DROP_INVALID, m.trace⟩
      | some ip4 =>
        let r := handle_ipv4_policy cfg k w m.ctx ip4 secctx from_host skip_redirect
        ⟨r.ret, m.trace ++ r.trace⟩
  else handle_ipv4_policy cfg k w ctx ip4 secctx from_host skip_redirect

/-- Embedding of `handle_ipv4` (lines 751-896). -/
def handle_ipv4 (cfg : Config) (k : Consts) (w : World) (ctx : Pkt) (secctx : Nat)
    (from_host : Bool) : Result :=
  match ctx.ip4 with
  | none => ⟨k.DROP_INVALID, []⟩
  | some ip4 =>
    if cfg.ENABLE_NODEPORT = true ∧ from_host = false then
      let call_lb := decide (w.ctx_get_xfer ctx ≠ k.XFER_PKT_NO_SVC) && !w.bpf_skip_nodeport ctx
      let lb := w.nodeport_lb4 ctx secctx
      let tr := if call_lb then [Event.nodeport_lb false secctx lb.1] else []
      let ctx1 := if call_lb then lb.2 else ctx
      if call_lb = true ∧ lb.1 < 0 then ⟨lb.1, tr⟩
      else if (cfg.ENCAP_IFINDEX || cfg.NO_REDIRECT) && !cfg.ENABLE_HOST_FIREWALL then
        ⟨k.CTX_ACT_OK, tr⟩
      else
        let skip_redirect := cfg.ENCAP_IFINDEX || cfg.NO_REDIRECT
        -- Verifier workaround: modified ctx access.
        match ctx1.ip4 with
        | none => ⟨k.DROP_INVALID, tr⟩
        | some ip4 =>
          let r := handle_ipv4_dmac cfg k w ctx1 ip4 secctx from_host skip_redirect
          ⟨r.ret, tr ++ r.trace⟩
    else handle_ipv4_dmac cfg k w ctx ip4 secctx from_host false

/-- Embedding of `tail_handle_ipv4` (lines 898-911). -/
def tail_handle_ipv4 (cfg : Config) (k : Consts) (w : World) (ctx : Pkt) (from_host : Bool) :
    Result :=
  let proxy_identity := ctx.cb_src_identity
  let ctx1 := { ctx with cb_src_identity := 0 }
  let r := handle_ipv4 cfg k w ctx1 proxy_identity from_host
  if k.IS_ERR r.ret then
    ⟨w.send_drop_notify_error proxy_identity r.ret k.CTX_ACT_DROP Dir.ingress,
      r.trace ++ [Event.drop_notify_error proxy_identity r.ret k.CTX_ACT_DROP Dir.ingress]⟩
  else r

/-- Last part of `handle_ipv6` (lines 439-457). -/
def handle_ipv6_route (cfg : Config) (k : Consts) (w : World) (ip6 : Ipv6hdr)
    (secctx : Nat) (from_host : Bool) : Result :=
  let info := w.ipcache_lookup6 ip6.daddr
  let tr := [Event.ipcache_lookup LookupSite.route true info]
  if from_host = true ∧ unknown_destination k info = true then
    -- See IPv4 comment.
    ⟨k.DROP_UNROUTABLE, tr⟩
  else ⟨k.CTX_ACT_OK, tr ++ set_encrypt_meta cfg k info secctx⟩

/-- The `#ifdef ENCAP_IFINDEX` block of `handle_ipv6` (lines 404-437), followed
by the rest of the function when the block does not return. -/
def handle_ipv6_encap (cfg : Config) (k : Consts) (w : World) (ctx : Pkt) (ip6 : Ipv6hdr)
    (secctx : Nat) (from_host : Bool) : Result :=
  if cfg.ENCAP_IFINDEX then
    let info := w.ipcache_lookup6 ip6.daddr
    let tr := [Event.ipcache_lookup LookupSite.encap true info]
    let tunnel := match info with
      | some i => if i.tunnel_endpoint ≠ 0 then some i else none
      | none => none
    match tunnel with
    | some i =>
      let ret := w.encap_and_redirect_with_nodeid ctx i.tunnel_endpoint i.key secctx
      let tr1 := tr ++ [Event.encap_with_nodeid i.tunnel_endpoint i.key secctx ret]
      -- If IPSEC is needed recirc through ingress to use xfrm stack
      if ret = k.IPSEC_ENDPOINT then ⟨k.CTX_ACT_OK, tr1⟩ else ⟨ret, tr1⟩
    | none =>
      -- IPv6 lookup key: daddr/96
      let dst := ip6.daddr
      let key : EndpointKey :=
        { ip6 := { p1 := dst.p1, p2 := dst.p2, p3 := dst.p3, p4 := 0 },
          family := k.ENDPOINT_KEY_IPV6 }
      let ret := w.encap_and_redirect_netdev ctx key secctx
      let tr1 := tr ++ [Event.encap_netdev key secctx ret]
      if ret = k.IPSEC_ENDPOINT then ⟨k.CTX_ACT_OK, tr1⟩
      else if ret ≠ k.DROP_NO_TUNNEL_ENDPOINT then ⟨ret, tr1⟩
      else
        let r := handle_ipv6_route cfg k w ip6 secctx from_host
        ⟨r.ret, tr1 ++ r.trace⟩
  else handle_ipv6_route cfg k w ip6 secctx from_host

/-- Forwarding part of `handle_ipv6` (lines 393-457), entered with the header
`ip6` read by the last `revalidate_data`. -/
def handle_ipv6_forward (cfg : Config) (k : Consts) (w : World) (ctx : Pkt) (ip6 : Ipv6hdr)
    (secctx : Nat) (from_host : Bool) : Result :=
  match w.lookup_ip6_endpoint ip6 with
  | some ep =>
    -- Let through packets to the node-ip so they are processed by the local ip stack
    if ep.flags &&& k.ENDPOINT_F_HOST ≠ 0 then ⟨k.CTX_ACT_OK, []⟩
    else
      let ret := w.ipv6_local_delivery ctx secctx ep from_host
      ⟨ret, [Event.local_delivery true secctx ep from_host ret]⟩
  | none => handle_ipv6_encap cfg k w ctx ip6 secctx from_host

/-- Host-firewall part of `handle_ipv6` (lines 380-391) followed by the
forwarding part. -/
def handle_ipv6_policy (cfg : Config) (k : Consts) (w : World) (ctx : Pkt) (ip6 : Ipv6hdr)
    (secctx : Nat) (from_host : Bool) (skip_redirect : Bool) : Result :=
  if cfg.ENABLE_HOST_FIREWALL then
    let remoteID := k.WORLD_ID
    let st :=
      if from_host then ipv6_host_policy_egress k w ctx secctx
      else ipv6_host_policy_ingress k w ctx remoteID
    if k.IS_ERR st.ret then ⟨st.ret, st.trace⟩
    else if skip_redirect then ⟨k.CTX_ACT_OK, st.trace⟩
    else
      match ctx.ip6 with
      | none => ⟨k.DROP_INVALID, st.trace⟩
      | some ip6 =>
        let r := handle_ipv6_forward cfg k w ctx ip6 secctx from_host
        ⟨r.ret, st.trace ++ r.trace⟩
  else handle_ipv6_forward cfg k w ctx ip6 secctx from_host

/-- Part of `handle_ipv6` from the MAC rewrite on (lines 368-458). -/
def handle_ipv6_dmac (cfg : Config) (k : Consts) (w : World) (ctx : Pkt) (ip6 : Ipv6hdr)
    (secctx : Nat) (from_host : Bool) (skip_redirect : Bool) : Result :=
  if from_host = true ∧ skip_redirect = false then
    let m := rewrite_dmac_to_host k w ctx secctx
    if k.IS_ERR m.ret then ⟨m.ret, m.trace⟩
    else
      match m.ctx.ip6 with
      | none => ⟨k.DROP_INVALID, m.trace⟩
      | some ip6 =>
        let r := handle_ipv6_policy cfg k w m.ctx ip6 secctx from_host skip_redirect
        ⟨r.ret, m.trace ++ r.trace⟩
  else handle_ipv6_policy cfg k w ctx ip6 secctx from_host skip_redirect

/-- Part of `handle_ipv6` from the ICMPv6 handling on (lines 362-458). -/
def handle_ipv6_icmp (cfg : Config) (k : Consts) (w : World) (ctx : Pkt) (ip6 : Ipv6hdr)
    (secctx : Nat) (from_host : Bool) (skip_redirect : Bool) : Result :=
  if skip_redirect = false then
    let ret := w.icmp6_host_handle ctx ip6.nexthdr
    let tr := [Event.icmp6_host_handle ip6.nexthdr ret]
    if ret ≠ 0 then ⟨ret, tr⟩
    else
      let r := handle_ipv6_dmac cfg k w ctx ip6 secctx from_host skip_redirect
      ⟨r.ret, tr ++ r.trace⟩
  else handle_ipv6_dmac cfg k w ctx ip6 secctx from_host skip_redirect

/-- Embedding of `handle_ipv6` (lines 325-458). -/
def handle_ipv6 (cfg : Config) (k : Consts) (w : World) (ctx : Pkt) (secctx : Nat)
    (from_host : Bool) : Result :=
  match ctx.ip6 with
  | none => ⟨k.DROP_INVALID, []⟩
  | some ip6 =>
    if cfg.ENABLE_NODEPORT = true ∧ from_host = false then
      let call_lb := decide (w.ctx_get_xfer ctx ≠ k.XFER_PKT_NO_SVC) && !w.bpf_skip_nodeport ctx
      let lb := w.nodeport_lb6 ctx secctx
      let tr := if call_lb then [Event.nodeport_lb true secctx lb.1] else []
      let ctx1 := if call_lb then lb.2 else ctx
      if call_lb = true ∧ lb.1 < 0 then ⟨lb.1, tr⟩
      else if (cfg.ENCAP_IFINDEX || cfg.NO_REDIRECT) && !cfg.ENABLE_HOST_FIREWALL then
        ⟨k.CTX_ACT_OK, tr⟩
      else
        let skip_redirect := cfg.ENCAP_IFINDEX || cfg.NO_REDIRECT
        -- Verifier workaround: modified ctx access.
        match ctx1.ip6 with
        | none => ⟨k.DROP_INVALID, tr⟩
        | some ip6 =>
          let r := handle_ipv6_icmp cfg k w ctx1 ip6 secctx from_host skip_redirect
          ⟨r.ret, tr ++ r.trace⟩
    else handle_ipv6_icmp cfg k w ctx ip6 secctx from_host false

/-- Embedding of `tail_handle_ipv6` (lines 460-473). -/
def tail_handle_ipv6 (cfg : Config) (k : Consts) (w : World) (ctx : Pkt) (from_host : Bool) :
    Result :=
  let proxy_identity := ctx.cb_src_identity
  let ctx1 := { ctx with cb_src_identity := 0 }
  let r := handle_ipv6 cfg k w ctx1 proxy_identity from_host
  if k.IS_ERR r.ret then
    ⟨w.send_drop_notify_error proxy_identity r.ret k.CTX_ACT_DROP Dir.ingress,
      r.trace ++ [Event.drop_notify_error proxy_identity r.ret k.CTX_ACT_DROP Dir.ingress]⟩
  else r

/-! ## Entry from a network device -/

/-- The IPv6 case of the `switch (proto)` of `do_netdev` (lines 1137-1146):
resolve the identity, store it in `CB_SRC_IDENTITY` and tail-call the handler
(`tail_handle_ipv6_from_host` or `tail_handle_ipv6_from_netdev`); when the tail
call is not taken, notify and return. -/
def do_netdev_ipv6 (cfg : Config) (k : Consts) (w : World) (ctx : Pkt) (identity : Nat)
    (from_host : Bool) : Result :=
  let r := resolve_srcid_ipv6 cfg k w ctx identity from_host
  let identity := r.id
  let ctx1 := { ctx with cb_src_identity := identity }
  let slot := if from_host then k.CILIUM_CALL_IPV6_FROM_HOST else k.CILIUM_CALL_IPV6_FROM_LXC
  if w.tail_call_present slot then
    let t := tail_handle_ipv6 cfg k w ctx1 from_host
    ⟨t.ret, r.trace ++ [Event.ep_tail_call slot true] ++ t.trace⟩
  else
    ⟨w.send_drop_notify_error identity k.DROP_MISSED_TAIL_CALL k.CTX_ACT_OK Dir.ingress,
      r.trace ++ [Event.ep_tail_call slot false,
        Event.drop_notify_error identity k.DROP_MISSED_TAIL_CALL k.CTX_ACT_OK Dir.ingress]⟩

/-- The IPv4 case of the `switch (proto)` of `do_netdev` (lines 1149-1162). -/
def do_netdev_ipv4 (cfg : Config) (k : Consts) (w : World) (ctx : Pkt) (identity : Nat)
    (from_host : Bool) : Result :=
  let r := resolve_srcid_ipv4 cfg k w ctx identity from_host
  let identity := r.id
  let ctx1 := { ctx with cb_src_identity := identity }
  let slot := if from_host then k.CILIUM_CALL_IPV4_FROM_HOST else k.CILIUM_CALL_IPV4_FROM_LXC
  if w.tail_call_present slot then
    let t := tail_handle_ipv4 cfg k w ctx1 from_host
    ⟨t.ret, r.trace ++ [Event.ep_tail_call slot true] ++ t.trace⟩
  else
    -- We are not returning an error here to always allow traffic to the stack
    -- in case maps have become unavailable.
    ⟨w.send_drop_notify_error identity k.DROP_MISSED_TAIL_CALL k.CTX_ACT_OK Dir.ingress,
      r.trace ++ [Event.ep_tail_call slot false,
        Event.drop_notify_error identity k.DROP_MISSED_TAIL_CALL k.CTX_ACT_OK Dir.ingress]⟩

/-- The `switch (proto)` of `do_netdev` (lines 1130-1174). -/
def do_netdev_switch (cfg : Config) (k : Consts) (w : World) (ctx : Pkt) (proto : Nat)
    (identity : Nat) (from_host : Bool) : Result :=
  if (cfg.ENABLE_ARP_PASSTHROUGH || cfg.ENABLE_ARP_RESPONDER) = true ∧ proto = k.ETH_P_ARP then
    ⟨k.CTX_ACT_OK, []⟩
  else if cfg.ENABLE_IPV6 = true ∧ proto = k.ETH_P_IPV6 then
    do_netdev_ipv6 cfg k w ctx identity from_host
  else if cfg.ENABLE_IPV4 = true ∧ proto = k.ETH_P_IP then
    do_netdev_ipv4 cfg k w ctx identity from_host
  else if cfg.ENABLE_HOST_FIREWALL then
    ⟨w.send_drop_notify_error identity k.DROP_UNKNOWN_L3 k.CTX_ACT_DROP Dir.ingress,
      [Event.drop_notify_error identity k.DROP_UNKNOWN_L3 k.CTX_ACT_DROP Dir.ingress]⟩
  else
    -- Pass unknown traffic to the stack
    ⟨k.CTX_ACT_OK, []⟩

/-- Embedding of `do_netdev` (lines 1083-1175). The IPsec transmit path
`do_netdev_encrypt` and the ARP responder are collaborators (`World`). -/
def do_netdev (cfg : Config) (k : Consts) (w : World) (ctx : Pkt) (proto : Nat)
    (from_host : Bool) : Result :=
  if cfg.ENABLE_IPSEC = true ∧ ctx.mark &&& k.MARK_MAGIC_HOST_MASK = k.MARK_MAGIC_ENCRYPT then
    ⟨w.do_netdev_encrypt ctx proto, [Event.netdev_encrypt proto (w.do_netdev_encrypt ctx proto)]⟩
  else
    let ctx1 := w.bpf_clear_meta ctx
    if from_host then
      if cfg.HOST_REDIRECT_TO_INGRESS = true ∧ proto = k.ETH_P_ARP then
        -- Pass any unknown ARP requests to the Linux stack
        if w.arp_validate ctx1 = false then ⟨k.CTX_ACT_OK, [Event.arp false k.CTX_ACT_OK]⟩
        else ⟨w.arp_respond ctx1, [Event.arp true (w.arp_respond ctx1)]⟩
      else
        let inh := w.inherit_identity_from_host ctx1
        let from_proxy := inh.1
        let identity := inh.2.1
        let trace := if from_proxy then k.TRACE_FROM_PROXY else k.TRACE_FROM_HOST
        let r := do_netdev_switch cfg k w inh.2.2 proto identity from_host
        ⟨r.ret, Event.trace_notify trace identity :: r.trace⟩
    else
      let ctx2 := w.bpf_skip_nodeport_clear ctx1
      let r := do_netdev_switch cfg k w ctx2 proto 0 from_host
      ⟨r.ret, Event.trace_notify k.TRACE_FROM_STACK 0 :: r.trace⟩

/-! ## Egress of the native device -/

/-- Embedding of `handle_to_netdev_ipv6` (lines 487-508). -/
def handle_to_netdev_ipv6 (k : Consts) (w : World) (ctx : Pkt) : Result :=
  match ctx.ip6 with
  | none => ⟨k.DROP_INVALID, []⟩
  | some ip6 =>
    let ret := w.icmp6_host_handle ctx ip6.nexthdr
    let tr := [Event.icmp6_host_handle ip6.nexthdr ret]
    if ret ≠ 0 then ⟨ret, tr⟩
    else
      -- to-netdev is attached to the egress path of the native device.
      let s := ipcache_lookup_srcid6 k w ctx
      let st := ipv6_host_policy_egress k w ctx s.id
      ⟨st.ret, tr ++ s.trace ++ st.trace⟩

/-- The `#ifdef ENABLE_HOST_FIREWALL` block of `to_netdev` up to the label
`out` (lines 1226-1255): the value of `ret`, the value of `srcID`, the packet
and the events. -/
def to_netdev_policy (k : Consts) (w : World) (cfg : Config) (ctx : Pkt) :
    Int × Nat × Pkt × List Event :=
  -- `proto` is 0 at this point, so `validate_ethertype` is always called
  let v := w.validate_ethertype ctx
  if v.1 = false then (k.DROP_UNSUPPORTED_L2, 0, ctx, [])
  else
    let proto := v.2
    let ctx1 := w.policy_clear_mark ctx
    if (cfg.ENABLE_ARP_PASSTHROUGH || cfg.ENABLE_ARP_RESPONDER) = true ∧ proto = k.ETH_P_ARP then
      (k.CTX_ACT_OK, 0, ctx1, [])
    else if cfg.ENABLE_IPV6 = true ∧ proto = k.ETH_P_IPV6 then
      let r := handle_to_netdev_ipv6 k w ctx1
      (r.ret, 0, ctx1, r.trace)
    else if cfg.ENABLE_IPV4 = true ∧ proto = k.ETH_P_IP then
      -- to-netdev is attached to the egress path of the native device.
      let s := ipcache_lookup_srcid4 k w ctx1
      let st := ipv4_host_policy_egress k w ctx1 s.id
      (st.ret, s.id, ctx1, s.trace ++ st.trace)
    else (k.DROP_UNKNOWN_L3, 0, ctx1, [])

/-- The NodePort block that ends `to_netdev` (lines 1265-1277), entered with
the current value of `ret`. -/
def to_netdev_nat (cfg : Config) (k : Consts) (w : World) (ctx : Pkt) (ret : Int) : Result :=
  if (cfg.ENABLE_NODEPORT && (!cfg.ENABLE_DSR || (cfg.ENABLE_DSR && cfg.ENABLE_DSR_HYBRID))) =
      true ∧ ctx.mark &&& k.MARK_MAGIC_SNAT_DONE ≠ k.MARK_MAGIC_SNAT_DONE then
    let r := w.nodeport_nat_fwd ctx
    if k.IS_ERR r then
      ⟨w.send_drop_notify_error 0 r k.CTX_ACT_DROP Dir.egress,
        [Event.nodeport_nat_fwd r, Event.drop_notify_error 0 r k.CTX_ACT_DROP Dir.egress]⟩
    else ⟨r, [Event.nodeport_nat_fwd r]⟩
  else ⟨ret, []⟩

/-- Embedding of `to_netdev` (lines 1218-1278). -/
def to_netdev (cfg : Config) (k : Consts) (w : World) (ctx : Pkt) : Result :=
  if cfg.ENABLE_HOST_FIREWALL then
    let p := to_netdev_policy k w cfg ctx
    let ret := p.1
    let srcID := p.2.1
    if k.IS_ERR ret then
      ⟨w.send_drop_notify_error srcID ret k.CTX_ACT_DROP Dir.egress,
        p.2.2.2 ++ [Event.drop_notify_error srcID ret k.CTX_ACT_DROP Dir.egress]⟩
    else
      let n := to_netdev_nat cfg k w p.2.2.1 ret
      ⟨n.ret, p.2.2.2 ++ n.trace⟩
  else to_netdev_nat cfg k w ctx k.CTX_ACT_OK

/-! ## Ingress of the host interface and entry from a device -/

/-- The `#ifdef ENABLE_HOST_FIREWALL` block of `to_host` up to the label `out`
(lines 1308-1333), entered with the current value of `srcID`: the value of
`ret`, the value left in `srcID` and the events. -/
def to_host_policy (cfg : Config) (k : Consts) (w : World) (ctx : Pkt) (srcID : Nat) :
    StageResult :=
  let v := w.validate_ethertype ctx
  if v.1 = false then ⟨k.DROP_UNSUPPORTED_L2, srcID, []⟩
  else
    let proto := v.2
    let ctx1 := w.policy_clear_mark ctx
    if (cfg.ENABLE_ARP_PASSTHROUGH || cfg.ENABLE_ARP_RESPONDER) = true ∧ proto = k.ETH_P_ARP then
      ⟨k.CTX_ACT_OK, srcID, []⟩
    else if cfg.ENABLE_IPV6 = true ∧ proto = k.ETH_P_IPV6 then
      ipv6_host_policy_ingress k w ctx1 srcID
    else if cfg.ENABLE_IPV4 = true ∧ proto = k.ETH_P_IP then
      ipv4_host_policy_ingress cfg k w ctx1 srcID
    else ⟨k.DROP_UNKNOWN_L3, srcID, []⟩

/-- The first part of `to_host` (lines 1284-1306): the value of `srcID`, the
packet and the events after the metadata word `ENCRYPT_OR_PROXY_MAGIC` has
been examined. -/
def to_host_mark (k : Consts) (w : World) (ctx : Pkt) : Nat × Pkt × List Event :=
  let magic := ctx.cb_magic
  if magic &&& k.MARK_MAGIC_HOST_MASK = k.MARK_MAGIC_ENCRYPT then
    let srcID := ctx.cb_encrypt_identity
    (srcID, w.set_identity_mark { ctx with mark := magic } srcID,
      [Event.set_identity_mark srcID, Event.trace_notify k.TRACE_TO_STACK srcID])
  else if magic &&& 65535 = k.MARK_MAGIC_TO_PROXY then
    -- Upper 16 bits may carry proxy port number
    let port := magic / 65536
    -- We already traced this in the previous prog, skip trace here.
    (0, w.ctx_redirect_to_proxy_first { ctx with cb_magic := 0 } port,
      [Event.redirect_to_proxy port])
  else (0, ctx, [Event.trace_notify k.TRACE_TO_STACK 0])

/-- Embedding of `to_host` (lines 1280-1346). -/
def to_host (cfg : Config) (k : Consts) (w : World) (ctx : Pkt) : Result :=
  let m := to_host_mark k w ctx
  if cfg.ENABLE_HOST_FIREWALL then
    let p := to_host_policy cfg k w m.2.1 m.1
    if k.IS_ERR p.ret then
      ⟨w.send_drop_notify_error p.srcID p.ret k.CTX_ACT_DROP Dir.ingress,
        m.2.2 ++ p.trace ++ [Event.drop_notify_error p.srcID p.ret k.CTX_ACT_DROP Dir.ingress]⟩
    else ⟨p.ret, m.2.2 ++ p.trace⟩
  else ⟨k.CTX_ACT_OK, m.2.2⟩

/-- Embedding of `handle_netdev` (lines 1183-1204). -/
def handle_netdev (cfg : Config) (k : Consts) (w : World) (ctx : Pkt) (from_host : Bool) :
    Result :=
  let v := w.validate_ethertype ctx
  if v.1 = false then
    if cfg.ENABLE_HOST_FIREWALL then
      ⟨w.send_drop_notify k.SECLABEL k.WORLD_ID 0 k.DROP_UNSUPPORTED_L2 k.CTX_ACT_DROP Dir.egress,
        [Event.drop_notify k.SECLABEL k.WORLD_ID 0 k.DROP_UNSUPPORTED_L2 k.CTX_ACT_DROP
          Dir.egress]⟩
    else
      -- Pass unknown traffic to the stack
      ⟨k.CTX_ACT_OK, [Event.trace_notify k.TRACE_TO_STACK k.HOST_ID]⟩
  else do_netdev cfg k w ctx v.2 from_host

/-- Embedding of the section `from-netdev` (lines 1206-1210). -/
def from_netdev (cfg : Config) (k : Consts) (w : World) (ctx : Pkt) : Result :=
  handle_netdev cfg k w ctx false

/-- Embedding of the section `from-host` (lines 1212-1216). -/
def from_host (cfg : Config) (k : Consts) (w : World) (ctx : Pkt) : Result :=
  handle_netdev cfg k w ctx true

/-! ## Entry into the forwarding part of the handlers

`handle_ipv4` and `handle_ipv6` take their forwarding decision (local
endpoint, tunnel, pass to the stack) only when none of the earlier steps
returned. The functions below follow those earlier steps and give the state in
which the forwarding part is entered, or `none` when the handler returns
before it. -/

/-- State in which the forwarding part of `handle_ipv4` is entered. -/
structure Entered4 where
  ctx : Pkt
  ip4 : Iphdr
  trace : List Event
  deriving DecidableEq, Repr

/-- State in which the forwarding part of `handle_ipv6` is entered. -/
structure Entered6 where
  ctx : Pkt
  ip6 : Ipv6hdr
  trace : List Event
  deriving DecidableEq, Repr

/-- Lines 806-820 of `handle_ipv4`: the steps that precede the forwarding part. -/
def handle_ipv4_policy_enter (cfg : Config) (k : Consts) (w : World) (ctx : Pkt) (ip4 : Iphdr)
    (secctx : Nat) (from_host : Bool) (skip_redirect : Bool) : Option Entered4 :=
  if cfg.ENABLE_HOST_FIREWALL then
    let st :=
      if from_host then ipv4_host_policy_egress k w ctx secctx
      else ipv4_host_policy_ingress cfg k w ctx 0
    if k.IS_ERR st.ret then none
    else if skip_redirect then none
    else
      match ctx.ip4 with
      | none => none
      | some ip4 => some ⟨ctx, ip4, st.trace⟩
  else some ⟨ctx, ip4, []⟩

/-- Lines 792-820 of `handle_ipv4`: the steps that precede the forwarding part. -/
def handle_ipv4_dmac_enter (cfg : Config) (k : Consts) (w : World) (ctx : Pkt) (ip4 : Iphdr)
    (secctx : Nat) (from_host : Bool) (skip_redirect : Bool) : Option Entered4 :=
  if from_host = true ∧ skip_redirect = false then
    let m := rewrite_dmac_to_host k w ctx secctx
    if k.IS_ERR m.ret then none
    else
      match m.ctx.ip4 with
      | none => none
      | some ip4 =>
        (handle_ipv4_policy_enter cfg k w m.ctx ip4 secctx from_host skip_redirect).map
          fun e => ⟨e.ctx, e.ip4, m.trace ++ e.trace⟩
  else handle_ipv4_policy_enter cfg k w ctx ip4 secctx from_host skip_redirect

/-- Lines 763-820 of `handle_ipv4`: the steps that precede the forwarding part. -/
def handle_ipv4_enter (cfg : Config) (k : Consts) (w : World) (ctx : Pkt) (secctx : Nat)
    (from_host : Bool) : Option Entered4 :=
  match ctx.ip4 with
  | none => none
  | some ip4 =>
    if cfg.ENABLE_NODEPORT = true ∧ from_host = false then
      let call_lb := decide (w.ctx_get_xfer ctx ≠ k.XFER_PKT_NO_SVC) && !w.bpf_skip_nodeport ctx
      let lb := w.nodeport_lb4 ctx secctx
      let tr := if call_lb then [Event.nodeport_lb false secctx lb.1] else []
      let ctx1 := if call_lb then lb.2 else ctx
      if call_lb = true ∧ lb.1 < 0 then none
      else if (cfg.ENCAP_IFINDEX || cfg.NO_REDIRECT) && !cfg.ENABLE_HOST_FIREWALL then none
      else
        let skip_redirect := cfg.ENCAP_IFINDEX || cfg.NO_REDIRECT
        match ctx1.ip4 with
        | none => none
        | some ip4 =>
          (handle_ipv4_dmac_enter cfg k w ctx1 ip4 secctx from_host skip_redirect).map
            fun e => ⟨e.ctx, e.ip4, tr ++ e.trace⟩
    else handle_ipv4_dmac_enter cfg k w ctx ip4 secctx from_host false

/-- Lines 380-391 of `handle_ipv6`: the steps that precede the forwarding part. -/
def handle_ipv6_policy_enter (cfg : Config) (k : Consts) (w : World) (ctx : Pkt)
    (ip6 : Ipv6hdr) (secctx : Nat) (from_host : Bool) (skip_redirect : Bool) :
    Option Entered6 :=
  if cfg.ENABLE_HOST_FIREWALL then
    let st :=
      if from_host then ipv6_host_policy_egress k w ctx secctx
      else ipv6_host_policy_ingress k w ctx k.WORLD_ID
    if k.IS_ERR st.ret then none
    else if skip_redirect then none
    else
      match ctx.ip6 with
      | none => none
      | some ip6 => some ⟨ctx, ip6, st.trace⟩
  else some ⟨ctx, ip6, []⟩

/-- Lines 368-391 of `handle_ipv6`: the steps that precede the forwarding part. -/
def handle_ipv6_dmac_enter (cfg : Config) (k : Consts) (w : World) (ctx : Pkt) (ip6 : Ipv6hdr)
    (secctx : Nat) (from_host : Bool) (skip_redirect : Bool) : Option Entered6 :=
  if from_host = true ∧ skip_redirect = false then
    let m := rewrite_dmac_to_host k w ctx secctx
    if k.IS_ERR m.ret then none
    else
      match m.ctx.ip6 with
      | none => none
      | some ip6 =>
        (handle_ipv6_policy_enter cfg k w m.ctx ip6 secctx from_host skip_redirect).map
          fun e => ⟨e.ctx, e.ip6, m.trace ++ e.trace⟩
  else handle_ipv6_policy_enter cfg k w ctx ip6 secctx from_host skip_redirect

/-- Lines 362-391 of `handle_ipv6`: the steps that precede the forwarding part. -/
def handle_ipv6_icmp_enter (cfg : Config) (k : Consts) (w : World) (ctx : Pkt) (ip6 : Ipv6hdr)
    (secctx : Nat) (from_host : Bool) (skip_redirect : Bool) : Option Entered6 :=
  if skip_redirect = false then
    let ret := w.icmp6_host_handle ctx ip6.nexthdr
    if ret ≠ 0 then none
    else
      (handle_ipv6_dmac_enter cfg k w ctx ip6 secctx from_host skip_redirect).map
        fun e => ⟨e.ctx, e.ip6, Event.icmp6_host_handle ip6.nexthdr ret :: e.trace⟩
  else handle_ipv6_dmac_enter cfg k w ctx ip6 secctx from_host skip_redirect

/-- Lines 337-391 of `handle_ipv6`: the steps that precede the forwarding part. -/
def handle_ipv6_enter (cfg : Config) (k : Consts) (w : World) (ctx : Pkt) (secctx : Nat)
    (from_host : Bool) : Option Entered6 :=
  match ctx.ip6 with
  | none => none
  | some ip6 =>
    if cfg.ENABLE_NODEPORT = true ∧ from_host = false then
      let call_lb := decide (w.ctx_get_xfer ctx ≠ k.XFER_PKT_NO_SVC) && !w.bpf_skip_nodeport ctx
      let lb := w.nodeport_lb6 ctx secctx
      let tr := if call_lb then [Event.nodeport_lb true secctx lb.1] else []
      let ctx1 := if call_lb then lb.2 else ctx
      if call_lb = true ∧ lb.1 < 0 then none
      else if (cfg.ENCAP_IFINDEX || cfg.NO_REDIRECT) && !cfg.ENABLE_HOST_FIREWALL then none
      else
        let skip_redirect := cfg.ENCAP_IFINDEX || cfg.NO_REDIRECT
        match ctx1.ip6 with
        | none => none
        | some ip6 =>
          (handle_ipv6_icmp_enter cfg k w ctx1 ip6 secctx from_host skip_redirect).map
            fun e => ⟨e.ctx, e.ip6, tr ++ e.trace⟩
    else handle_ipv6_icmp_enter cfg k w ctx ip6 secctx from_host false

/-- The four host-policy stages. -/
inductive Stage where
  | ipv4_egress
  | ipv4_ingress
  | ipv6_egress
  | ipv6_ingress
  deriving DecidableEq, Repr

/-- Run one of the four host-policy stages on a packet; `srcID` is the
argument `srcID` (egress) or the value of `*srcID` at entry (ingress). -/
def run_stage (s : Stage) (cfg : Config) (k : Consts) (w : World) (ctx : Pkt)
    (srcID : Nat) : StageResult :=
  match s with
  | Stage.ipv4_egress => ipv4_host_policy_egress k w ctx srcID
  | Stage.ipv4_ingress => ipv4_host_policy_ingress cfg k w ctx srcID
  | Stage.ipv6_egress => ipv6_host_policy_egress k w ctx srcID
  | Stage.ipv6_ingress => ipv6_host_policy_ingress k w ctx srcID

/-! ## Observations on event traces -/

/-- The classification returned by a conntrack lookup event. -/
def Event.ct_class : Event → Option Int
  | Event.ct_lookup _ _ ret => some ret
  | _ => none

/-- The source identity passed to a policy evaluation event, and its outcome. -/
def Event.policy_eval : Event → Option (Nat × PolicyOut)
  | Event.policy_can_egress _ srcID _ out => some (srcID, out)
  | Event.policy_can_access_ingress srcID _ _ _ _ out => some (srcID, out)
  | _ => none

/-- Whether the event is a conntrack lookup. -/
def Event.is_ct_lookup : Event → Bool
  | Event.ct_lookup _ _ _ => true
  | _ => false

/-- Whether the event is a policy evaluation. -/
def Event.is_policy_eval : Event → Bool
  | Event.policy_can_egress _ _ _ _ => true
  | Event.policy_can_access_ingress _ _ _ _ _ _ => true
  | _ => false

/-- Whether the event is a policy-verdict notification. -/
def Event.is_verdict_notify : Event → Bool
  | Event.policy_verdict_notify _ _ _ _ _ _ _ _ => true
  | _ => false

/-- Whether the event is a conntrack insert. -/
def Event.is_ct_create : Event → Bool
  | Event.ct_create _ _ _ _ _ => true
  | _ => false

/-- The run performed a conntrack lookup that returned classification `c`. -/
def Classified (tr : List Event) (c : Int) : Prop :=
  ∃ e ∈ tr, e.ct_class = some c

/-- The run reached policy evaluation: it evaluated the policy with source
identity `src` and obtained `out`. -/
def PolicyEvaluated (tr : List Event) (src : Nat) (out : PolicyOut) : Prop :=
  ∃ e ∈ tr, e.policy_eval = some (src, out)

/-- Every conntrack insert of the trace has a policy-verdict notification
somewhere before it; `seen` tells whether one was emitted before `tr` starts. -/
def notify_before_insert (seen : Bool) : List Event → Bool
  | [] => true
  | e :: tr =>
    (!e.is_ct_create || seen) && notify_before_insert (seen || e.is_verdict_notify) tr

/-- Whether the event is an attempt to transfer control to another program. -/
def Event.is_tail_call : Event → Bool
  | Event.ep_tail_call _ _ => true
  | _ => false

/-- Whether the event belongs to the forwarding decision of the handlers:
local delivery, tunnel encapsulation, redirect to the host interface, the
ipcache lookups of the destination and the encryption metadata writes. -/
def Event.is_forwarding : Event → Bool
  | Event.local_delivery _ _ _ _ _ => true
  | Event.encap_with_nodeid _ _ _ _ => true
  | Event.encap_netdev _ _ _ => true
  | Event.redirect_host_ingress _ => true
  | Event.ipcache_lookup _ _ _ => true
  | Event.set_encrypt_key_meta _ => true
  | Event.set_encrypt_dip _ => true
  | Event.set_identity_meta _ => true
  | _ => false

/-- Whether the event is a tunnel encapsulation attempt. -/
def Event.is_encap : Event → Bool
  | Event.encap_with_nodeid _ _ _ _ => true
  | Event.encap_netdev _ _ _ => true
  | _ => false

/-- Whether the event is an identity-resolution debug event (the trace left by
an ipcache lookup of a source or destination identity). -/
def Event.is_id_lookup : Event → Bool
  | Event.dbg_ip_id_map _ _ _ _ => true
  | _ => false

/-- Whether the event is an ipcache lookup of the destination made by the
forwarding part of a handler. -/
def Event.is_ipcache_lookup : Event → Bool
  | Event.ipcache_lookup _ _ _ => true
  | _ => false


/-- The label an ipcache lookup result stands for in the tests
`info != NULL && info->sec_label`: 0 for a miss. -/
def ipcache_label (info : Option RemoteEndpointInfo) : Nat :=
  match info with
  | some i => i.sec_label
  | none => 0

/-- The event with the distinction between `DBG_IP_ID_MAP_SUCCEED` and
`DBG_IP_ID_MAP_FAILED` erased; every other event is left as it is. -/
def Event.erase_dbg_outcome : Event → Event
  | Event.dbg_ip_id_map _ is_ipv6 addr id => Event.dbg_ip_id_map false is_ipv6 addr id
  | e => e

/-- The world `w` with the ipcache, as seen by the identity lookups
`lookup_ip4_remote_endpoint` / `lookup_ip6_remote_endpoint`, replaced. -/
def World.with_ipcache (w : World) (g4 : Nat → Option RemoteEndpointInfo)
    (g6 : V6Addr → Option RemoteEndpointInfo) : World :=
  { w with lookup_ip4_remote_endpoint := g4, lookup_ip6_remote_endpoint := g6 }

/-- Two stage results that agree in the return value, in the identity left in
`*srcID` and in the events, apart from the success flag of the debug events. -/
def StageResult.alike (r1 r2 : StageResult) : Prop :=
  r1.ret = r2.ret ∧ r1.srcID = r2.srcID ∧
    r1.trace.map Event.erase_dbg_outcome = r2.trace.map Event.erase_dbg_outcome

/-- Two identity results that agree in the identity and in the events, apart
from the success flag of the debug events. -/
def IdResult.alike (r1 r2 : IdResult) : Prop :=
  r1.id = r2.id ∧
    r1.trace.map Event.erase_dbg_outcome = r2.trace.map Event.erase_dbg_outcome

/-- The source identity an event of an ingress host-policy stage carries: the
`srcID` argument of the ingress policy evaluation, the remote identity of an
ingress verdict notification, and `src_sec_id` of the state of an ingress
conntrack insert. -/
def Event.ingress_src : Event → Option Nat
  | Event.policy_can_access_ingress srcID _ _ _ _ _ => some srcID
  | Event.policy_verdict_notify remoteID _ _ Dir.ingress _ _ _ _ => some remoteID
  | Event.ct_create _ Dir.ingress st _ _ => some st.src_sec_id
  | _ => none

/-- Whether `handle_ipv4` / `handle_ipv6` call the NodePort load balancer for
the packet: the test `ctx_get_xfer(ctx) != XFER_PKT_NO_SVC &&
!bpf_skip_nodeport(ctx)`. -/
def nodeport_lb_called (k : Consts) (w : World) (ctx : Pkt) : Bool :=
  decide (w.ctx_get_xfer ctx ≠ k.XFER_PKT_NO_SVC) && !w.bpf_skip_nodeport ctx

/-- The packet after the NodePort step of `handle_ipv4`. -/
def after_lb4 (k : Consts) (w : World) (ctx : Pkt) (secctx : Nat) : Pkt :=
  if nodeport_lb_called k w ctx then (w.nodeport_lb4 ctx secctx).2 else ctx

/-- The packet after the NodePort step of `handle_ipv6`. -/
def after_lb6 (k : Consts) (w : World) (ctx : Pkt) (secctx : Nat) : Pkt :=
  if nodeport_lb_called k w ctx then (w.nodeport_lb6 ctx secctx).2 else ctx

/-- Whether `proto` is one of the protocols the `switch (proto)` statements of
the entry points handle in configuration `cfg`: ARP when ARP passthrough or the
ARP responder is enabled, IPv6 and IPv4 when enabled. -/
def l3_enabled (cfg : Config) (k : Consts) (proto : Nat) : Bool :=
  ((cfg.ENABLE_ARP_PASSTHROUGH || cfg.ENABLE_ARP_RESPONDER) && decide (proto = k.ETH_P_ARP)) ||
  (cfg.ENABLE_IPV6 && decide (proto = k.ETH_P_IPV6)) ||
  (cfg.ENABLE_IPV4 && decide (proto = k.ETH_P_IP))
/-! ## A concrete assignment of constants and collaborators

Used to evaluate the model on examples. The values are representative of the
headers the program is built with (`HOST_ID = 1`, `WORLD_ID = 2`, `CT_NEW = 0`,
drop reasons as negative codes, `IS_ERR(x)` as `x < 0 || x == CTX_ACT_DROP`, a
little-endian CPU); the general theorems do not depend on them. -/

/-- Byte swap of a 32-bit word. -/
def bswap32 (x : Nat) : Nat :=
  (x % 256) * 16777216 + (x / 256 % 256) * 65536 + (x / 65536 % 256) * 256 + x / 16777216 % 256

/-- Concrete constants for examples. -/
def consts0 : Consts where
  HOST_ID := 1
  WORLD_ID := 2
  CTX_ACT_OK := 0
  CTX_ACT_DROP := 2
  CT_NEW := 0
  CT_ESTABLISHED := 1
  CT_REPLY := 2
  CT_RELATED := 3
  DROP_INVALID := -134
  DROP_UNKNOWN_CT := -163
  DROP_UNROUTABLE := -151
  DROP_INVALID_IDENTITY := -171
  DROP_WRITE_ERROR := -141
  DROP_NO_TUNNEL_ENDPOINT := -160
  DROP_MISSED_TAIL_CALL := -140
  DROP_UNKNOWN_L3 := -139
  DROP_UNSUPPORTED_L2 := -166
  IPSEC_ENDPOINT := 0
  ENDPOINT_F_HOST := 1
  ENDPOINT_KEY_IPV4 := 1
  ENDPOINT_KEY_IPV6 := 2
  ETH_HLEN := 14
  XFER_PKT_NO_SVC := 1
  IPV4_MASK := 16777215
  IPV6_FLOWLABEL_MASK := bswap32 1048575
  ROUTER_IP := { p1 := 4242, p2 := 1 }
  CILIUM_CALL_IPV4_FROM_HOST := 22
  CILIUM_CALL_IPV4_FROM_LXC := 7
  CILIUM_CALL_IPV6_FROM_HOST := 23
  CILIUM_CALL_IPV6_FROM_LXC := 10
  ETH_P_IP := 8
  ETH_P_IPV6 := 56710
  ETH_P_ARP := 1544
  MARK_MAGIC_HOST_MASK := 3840
  MARK_MAGIC_ENCRYPT := 3584
  MARK_MAGIC_SNAT_DONE := 5376
  TRACE_FROM_HOST := 7
  TRACE_FROM_PROXY := 6
  TRACE_FROM_STACK := 8
  TRACE_TO_STACK := 3
  MARK_MAGIC_TO_PROXY := 512
  SECLABEL := 1
  IS_ERR := fun x => decide (x < 0) || decide (x = 2)
  identity_is_reserved := fun id => decide (id < 3) || decide (id = 6)
  ipv4_hdrlen := fun ip4 => (ip4.ihl : Int) * 4
  ipv4_is_fragment := fun ip4 => decide (ip4.frag_off % 16384 ≠ 0)
  ipv6_match_prefix_64 := fun a b => decide (a.p1 = b.p1) && decide (a.p2 = b.p2)
  bpf_ntohl := bswap32
  get_min_encrypt_key := fun key => key % 16

/-- Collaborators for examples: empty ipcache and endpoint table, every
conntrack lookup is a miss (`CT_NEW`), every policy evaluation allows with
verdict 0, every service call succeeds, every tail call is taken. -/
def world0 : World where
  lookup_ip4_remote_endpoint := fun _ => none
  lookup_ip6_remote_endpoint := fun _ => none
  ipcache_lookup4 := fun _ => none
  ipcache_lookup6 := fun _ => none
  lookup_ip4_endpoint := fun _ => none
  lookup_ip6_endpoint := fun _ => none
  ct_lookup4 := fun _ t _ _ => { ret := 0, tuple := t }
  ct_lookup6 := fun _ t _ _ => { ret := 0, tuple := t }
  ct_create4 := fun _ _ _ _ _ => 0
  ct_create6 := fun _ _ _ _ _ => 0
  policy_can_egress4 := fun _ _ _ _ => { verdict := 0 }
  policy_can_egress6 := fun _ _ _ _ => { verdict := 0 }
  policy_can_access_ingress := fun _ _ _ _ _ _ => { verdict := 0 }
  ipv6_hdrlen := fun _ _ nh => (40, nh)
  ctx_get_xfer := fun _ => 0
  bpf_skip_nodeport := fun _ => false
  nodeport_lb4 := fun ctx _ => (0, ctx)
  nodeport_lb6 := fun ctx _ => (0, ctx)
  eth_store_daddr := fun ctx => (0, ctx)
  icmp6_host_handle := fun _ _ => 0
  ipv4_local_delivery := fun _ _ _ _ _ => 0
  ipv6_local_delivery := fun _ _ _ _ => 0
  encap_and_redirect_with_nodeid := fun _ _ _ _ => 7
  encap_and_redirect_netdev := fun _ _ _ => 7
  redirect_host_ingress := fun _ => 7
  send_drop_notify_error := fun _ _ exitcode _ => exitcode
  bpf_clear_meta := fun ctx => { ctx with cb_src_identity := 0 }
  bpf_skip_nodeport_clear := fun ctx => ctx
  inherit_identity_from_host := fun ctx => (false, 1, ctx)
  do_netdev_encrypt := fun _ _ => 0
  arp_validate := fun _ => false
  arp_respond := fun _ => 0
  validate_ethertype := fun ctx => (true, ctx.h_proto)
  policy_clear_mark := fun ctx => ctx
  nodeport_nat_fwd := fun _ => 0
  tail_call_present := fun _ => true
  send_drop_notify := fun _ _ _ _ exitcode _ => exitcode
  set_identity_mark := fun ctx _ => ctx
  ctx_redirect_to_proxy_first := fun ctx _ => ctx

/-- Address 10.0.0.5. -/
def addr_10_0_0_5 : Nat := 167772165

/-- Address 10.0.0.1. -/
def addr_10_0_0_1 : Nat := 167772161

/-- Scenario ipcache: 10.0.0.5 has identity 200, 10.0.0.1 is the host. -/
def ipcache_scn (a : Nat) : Option RemoteEndpointInfo :=
  if a = addr_10_0_0_5 then some { sec_label := 200 }
  else if a = addr_10_0_0_1 then some { sec_label := 1 }
  else none

/-- Scenario packet TCP 10.0.0.5:40000 -> 10.0.0.1:80. -/
def pkt_scn : Pkt :=
  { ip4 := some { saddr := addr_10_0_0_5, daddr := addr_10_0_0_1, protocol := 6 } }

/-- Scenario world: the conntrack lookup extracts the ports and returns `ret`;
the ingress policy denies identity 200 on port 80 (verdict `-133`, audited) and
allows everything else. -/
def world_scn (ret : Int) : World :=
  { world0 with
    lookup_ip4_remote_endpoint := ipcache_scn
    ct_lookup4 := fun _ t _ _ => { ret := ret, tuple := { t with dport := 80, sport := 40000 } }
    policy_can_access_ingress := fun _ src _ dport _ _ =>
      if src = 200 ∧ dport = 80 then { verdict := -133, match_type := 1, audited := 1 }
      else { verdict := 0 } }

/-- Scenario world with a conntrack miss and a policy that allows every flow
(verdict 1). -/
def world_scn_allow : World :=
  { world_scn 0 with policy_can_access_ingress := fun _ _ _ _ _ _ => { verdict := 1 } }

/-- Packet sent from the host address 10.0.0.1 to 10.0.0.5. -/
def pkt_host_src : Pkt :=
  { ip4 := some { saddr := addr_10_0_0_1, daddr := addr_10_0_0_5, protocol := 6 } }

/-- An IPv6 address of the host. -/
def addr6_host : V6Addr := { p1 := 4242, p2 := 1, p3 := 0, p4 := 7 }

/-- An IPv6 fragment addressed to the host: the next-header field is 44, the
IPv6 Fragment header. -/
def pkt_frag6 : Pkt :=
  { ip6 := some { word0 := bswap32 1610612736, nexthdr := 44,
                  saddr := { p1 := 9, p2 := 9, p3 := 0, p4 := 5 }, daddr := addr6_host } }

/-- World in which `addr6_host` is the host and `ipv6_hdrlen` refuses a
Fragment header (next header 44) with -157, the value of DROP_FRAG_NOSUPPORT,
as the helper of `lib/ipv6.h` does. -/
def world_host6 : World :=
  { world0 with
    lookup_ip6_remote_endpoint := fun a => if a = addr6_host then some { sec_label := 1 } else none
    ipv6_hdrlen := fun _ _ nh => if nh = 44 then (-157, nh) else (40, nh) }

/-- An IPv6 packet arriving from the network whose source address lies in the
node's /64 prefix (`ROUTER_IP`) and whose flow label is 1, the value of
HOST_ID: the first header word is 0x60000001 in network byte order. -/
def pkt_spoof6 : Pkt :=
  { ip6 := some { word0 := bswap32 1610612737, nexthdr := 6,
                  saddr := { p1 := 4242, p2 := 1, p3 := 0, p4 := 9 }, daddr := addr6_host } }

/-- World in which every IPv6 destination is a local endpoint that is not the
host. -/
def world_local6 : World :=
  { world0 with lookup_ip6_endpoint := fun _ => some { flags := 0, lxc_id := 5 } }

/-- An IPv6 packet sent from the host address `addr6_host`. -/
def pkt_from_host6 : Pkt :=
  { ip6 := some { word0 := bswap32 1610612736, nexthdr := 6, saddr := addr6_host,
                  daddr := { p1 := 9, p2 := 9, p3 := 0, p4 := 5 } } }

/-- A frame with the IPv4 ethertype whose IP header cannot be read. -/
def pkt_short4 : Pkt := { h_proto := 8 }

/-- A frame with the IPv6 ethertype whose IP header cannot be read. -/
def pkt_short6 : Pkt := { h_proto := 56710 }

/-- World in which the destination-MAC rewrite fails (`eth_store_daddr`
returns -1) and every destination is a local endpoint that is not the host. -/
def world_dmac_fail : World :=
  { world0 with
    eth_store_daddr := fun ctx => (-1, ctx)
    lookup_ip4_endpoint := fun _ => some { flags := 0, lxc_id := 5 }
    lookup_ip6_endpoint := fun _ => some { flags := 0, lxc_id := 5 } }


/-- World in which every IPv4 destination is a local endpoint carrying the
host flag. -/
def world_host4 : World :=
  { world0 with lookup_ip4_endpoint := fun _ => some { flags := 1, lxc_id := 0 } }

/-- World whose ipcache maps every IPv4 destination to an entry with identity
200, tunnel endpoint 192.168.1.1 and key 3. -/
def world_tunnel4 : World :=
  { world0 with
    ipcache_lookup4 := fun _ =>
      some { sec_label := 200, tunnel_endpoint := 3232235777, key := 3 } }

/-- World without ipcache entries in which the per-prefix encapsulation finds
no tunnel endpoint (`DROP_NO_TUNNEL_ENDPOINT`, -160). -/
def world_no_tunnel : World :=
  { world0 with encap_and_redirect_netdev := fun _ _ _ => -160 }

/-- World in which no tail call can be completed (the program array holds no
handler). -/
def world_no_tail : World :=
  { world0 with tail_call_present := fun _ => false }

/-- An IPv6 packet from the network whose source address lies in the node's
/64 prefix and whose flow label is 0x12345 (74565): the first header word is
0x60012345 in network byte order. -/
def pkt_flow6 : Pkt :=
  { ip6 := some { word0 := bswap32 1610687301, nexthdr := 6,
                  saddr := { p1 := 4242, p2 := 1, p3 := 0, p4 := 9 }, daddr := addr6_host } }

/-- World whose ipcache knows 10.0.0.1 as the host and has no entry for any
other address. -/
def world_miss : World :=
  { world0 with
    lookup_ip4_remote_endpoint := fun a =>
      if a = addr_10_0_0_1 then some { sec_label := 1 } else none }

/-- Ipcache that knows 10.0.0.1 as the host and holds an entry with label 0
for 10.0.0.5. -/
def ipcache_zero (a : Nat) : Option RemoteEndpointInfo :=
  if a = addr_10_0_0_1 then some { sec_label := 1 }
  else if a = addr_10_0_0_5 then some { sec_label := 0 }
  else none

/-- The scenario packet as it reaches `to-host` after decryption: IPv4
ethertype, the encryption magic in the metadata word and identity 77 in
`CB_ENCRYPT_IDENTITY`. -/
def pkt_to_host : Pkt :=
  { ip4 := some { saddr := addr_10_0_0_5, daddr := addr_10_0_0_1, protocol := 6 },
    h_proto := 8, cb_magic := 3584, cb_encrypt_identity := 77 }

/-- A frame whose ethertype is ARP. -/
def pkt_arp : Pkt := { h_proto := 1544 }

/-- A frame of an unknown protocol (ethertype 0x1234) that carries the
encryption mark. -/
def pkt_unknown_encrypt : Pkt := { h_proto := 4660, mark := 3584 }

/-- A frame of an unknown protocol (ethertype 0x1234). -/
def pkt_unknown : Pkt := { h_proto := 4660 }

/-- World in which no ethertype is valid. -/
def world_bad_l2 : World :=
  { world0 with validate_ethertype := fun _ => (false, 0) }

/-! ## Normal form of a stage run (proof device)

The four stages differ in how they build the tuple and resolve identities but
share the decision taken once the policy has been evaluated. `StageShape`
states the three forms a stage run can take; it is proved for each stage and
the stage properties are derived from it. -/

/-- Whether the event is an identity-resolution debug event. -/
def Event.is_dbg : Event → Bool
  | Event.dbg_ip_id_map _ _ _ _ => true
  | _ => false

/-- The decision the stages take after policy evaluation, as a function of the
classification `c`, the policy outcome, the notification and insert events the
stage would emit and the result `cr` of the insert: the return value and the
events emitted. -/
def stage_decision (k : Consts) (c : Int) (pol : PolicyOut) (notify create : Event)
    (cr : Int) : Int × List Event :=
  if c ≠ k.CT_REPLY ∧ c ≠ k.CT_RELATED ∧ pol.verdict < 0 then (pol.verdict, [notify])
  else if c = k.CT_NEW then
    (if k.IS_ERR cr then cr else k.CTX_ACT_OK, [notify, create])
  else if c = k.CT_ESTABLISHED ∨ c = k.CT_RELATED ∨ c = k.CT_REPLY then (k.CTX_ACT_OK, [])
  else (k.DROP_UNKNOWN_CT, [])

/-- The forms of a stage run: it ends before the conntrack lookup (only debug
events), or the lookup fails (negative result, returned as is), or the policy
is evaluated and `stage_decision` gives the outcome. -/
def StageShape (k : Consts) (r : StageResult) : Prop :=
  (∀ e ∈ r.trace, e.is_dbg = true) ∨
  (∃ (pre : List Event) (tup : CtTuple) (dir : Dir) (c : Int),
      (∀ e ∈ pre, e.is_dbg = true) ∧ c < 0 ∧ r.ret = c ∧
      r.trace = pre ++ [Event.ct_lookup tup dir c]) ∨
  (∃ (pre : List Event) (tup : CtTuple) (dir : Dir) (c : Int) (d P : Event) (src : Nat)
      (pol : PolicyOut) (remote dport proto : Nat) (v6 : Bool) (st : CtState) (cr : Int),
      (∀ e ∈ pre, e.is_dbg = true) ∧ 0 ≤ c ∧ d.is_dbg = true ∧
      P.policy_eval = some (src, pol) ∧ P.is_policy_eval = true ∧ st.src_sec_id = src ∧
      r.srcID = src ∧
      r.ret = (stage_decision k c pol
        (Event.policy_verdict_notify remote dport proto dir v6 pol.verdict pol.match_type
          pol.audited)
        (Event.ct_create tup dir st (decide (pol.verdict > 0)) cr) cr).1 ∧
      r.trace = pre ++ [Event.ct_lookup tup dir c, d, P] ++
        (stage_decision k c pol
          (Event.policy_verdict_notify remote dport proto dir v6 pol.verdict pol.match_type
            pol.audited)
          (Event.ct_create tup dir st (decide (pol.verdict > 0)) cr) cr).2)

instance (tr : List Event) (c : Int) : Decidable (Classified tr c) := by
  unfold Classified; infer_instance

instance (tr : List Event) (src : Nat) (out : PolicyOut) :
    Decidable (PolicyEvaluated tr src out) := by
  unfold PolicyEvaluated; infer_instance

/-! ## Normal form of the four stages -/

theorem ipv4_host_policy_egress_shape (k : Consts) (w : World) (ctx : Pkt) (srcID : Nat) :
    StageShape k (ipv4_host_policy_egress k w ctx srcID) := by
  unfold ipv4_host_policy_egress
  by_cases h : srcID ≠ k.HOST_ID
  · rw [if_pos h]; left; simp
  · rw [if_neg h]
    have hs : k.HOST_ID = srcID := by simpa [eq_comm] using h
    cases hp : ctx.ip4 with
    | none => left; simp
    | some ip4 =>
      simp only []
      generalize w.ct_lookup4 ctx _ _ _ = ct
      by_cases hc : ct.ret < 0
      · rw [if_pos hc]; right; left
        exact ⟨[], _, _, _, by simp, hc, rfl, rfl⟩
      · rw [if_neg hc]; right; right
        generalize w.lookup_ip4_remote_endpoint ip4.daddr = info
        generalize sec_label_override 0 info = dstID
        generalize w.policy_can_egress4 ctx ct.tuple srcID dstID = pol
        refine ⟨[], CtTuple.v4 ct.tuple, Dir.egress, ct.ret,
          Event.dbg_ip_id_map info.isSome false ip4.daddr dstID,
          Event.policy_can_egress (CtTuple.v4 ct.tuple) srcID dstID pol, srcID, pol, dstID,
          ct.tuple.dport, ct.tuple.nexthdr, false, { src_sec_id := k.HOST_ID },
          w.ct_create4 ctx ct.tuple Dir.egress { src_sec_id := k.HOST_ID }
            (decide (pol.verdict > 0)),
          by simp, not_lt.mp hc, rfl, rfl, rfl, hs, ?_, ?_, ?_⟩
        · split_ifs <;> rfl
        · unfold stage_decision
          split_ifs <;> rfl
        · unfold stage_decision
          split_ifs <;> simp

theorem ipv6_host_policy_egress_shape (k : Consts) (w : World) (ctx : Pkt) (srcID : Nat) :
    StageShape k (ipv6_host_policy_egress k w ctx srcID) := by
  unfold ipv6_host_policy_egress
  by_cases h : srcID ≠ k.HOST_ID
  · rw [if_pos h]; left; simp
  · rw [if_neg h]
    have hs : k.HOST_ID = srcID := by simpa [eq_comm] using h
    cases hp : ctx.ip6 with
    | none => left; simp
    | some ip6 =>
      simp only []
      generalize w.ipv6_hdrlen ctx k.ETH_HLEN ip6.nexthdr = hl
      by_cases hh : hl.1 < 0
      · rw [if_pos hh]; left; simp
      · rw [if_neg hh]
        generalize w.ct_lookup6 ctx _ _ _ = ct
        by_cases hc : ct.ret < 0
        · rw [if_pos hc]; right; left
          exact ⟨[], _, _, _, by simp, hc, rfl, rfl⟩
        · rw [if_neg hc]; right; right
          generalize w.lookup_ip6_remote_endpoint ip6.daddr = info
          generalize sec_label_override 0 info = dstID
          generalize w.policy_can_egress6 ctx ct.tuple srcID dstID = pol
          refine ⟨[], CtTuple.v6 ct.tuple, Dir.egress, ct.ret,
            Event.dbg_ip_id_map info.isSome true ip6.daddr.p4 dstID,
            Event.policy_can_egress (CtTuple.v6 ct.tuple) srcID dstID pol, srcID, pol, dstID,
            ct.tuple.dport, ct.tuple.nexthdr, true, { src_sec_id := k.HOST_ID },
            w.ct_create6 ctx ct.tuple Dir.egress { src_sec_id := k.HOST_ID }
              (decide (pol.verdict > 0)),
            by simp, not_lt.mp hc, rfl, rfl, rfl, hs, ?_, ?_, ?_⟩
          · split_ifs <;> rfl
          · unfold stage_decision
            split_ifs <;> rfl
          · unfold stage_decision
            split_ifs <;> simp

theorem ipv4_host_policy_ingress_shape (cfg : Config) (k : Consts) (w : World) (ctx : Pkt)
    (srcID : Nat) : StageShape k (ipv4_host_policy_ingress cfg k w ctx srcID) := by
  unfold ipv4_host_policy_ingress
  cases hp : ctx.ip4 with
  | none => left; simp
  | some ip4 =>
    simp only []
    generalize w.lookup_ip4_remote_endpoint ip4.daddr = info
    generalize sec_label_override k.WORLD_ID info = dstID
    by_cases h : dstID ≠ k.HOST_ID
    · rw [if_pos h]; left; simp [Event.is_dbg]
    · rw [if_neg h]
      generalize w.ct_lookup4 ctx _ _ _ = ct
      by_cases hc : ct.ret < 0
      · rw [if_pos hc]; right; left
        exact ⟨[Event.dbg_ip_id_map info.isSome false ip4.daddr dstID], _, _, _,
          by simp [Event.is_dbg], hc, rfl, rfl⟩
      · rw [if_neg hc]; right; right
        generalize w.lookup_ip4_remote_endpoint ip4.saddr = info2
        generalize sec_label_override srcID info2 = srcID1
        generalize (if cfg.IPV4_FRAGMENTS = true then false else k.ipv4_is_fragment ip4) = frag
        generalize w.policy_can_access_ingress ctx srcID1 dstID ct.tuple.dport ct.tuple.nexthdr
          frag = pol
        refine ⟨[Event.dbg_ip_id_map info.isSome false ip4.daddr dstID],
          CtTuple.v4 ct.tuple, Dir.ingress, ct.ret,
          Event.dbg_ip_id_map info2.isSome false ip4.saddr srcID1,
          Event.policy_can_access_ingress srcID1 dstID ct.tuple.dport ct.tuple.nexthdr frag pol,
          srcID1, pol, srcID1, ct.tuple.dport, ct.tuple.nexthdr, false,
          { src_sec_id := srcID1, node_port := ct.ct_state.node_port },
          w.ct_create4 ctx ct.tuple Dir.ingress
            { src_sec_id := srcID1, node_port := ct.ct_state.node_port }
            (decide (pol.verdict > 0)),
          by simp [Event.is_dbg], not_lt.mp hc, rfl, rfl, rfl, rfl, ?_, ?_, ?_⟩
        · split_ifs <;> rfl
        · unfold stage_decision
          split_ifs <;> rfl
        · unfold stage_decision
          split_ifs <;> simp

theorem ipv6_host_policy_ingress_shape (k : Consts) (w : World) (ctx : Pkt) (srcID : Nat) :
    StageShape k (ipv6_host_policy_ingress k w ctx srcID) := by
  unfold ipv6_host_policy_ingress
  cases hp : ctx.ip6 with
  | none => left; simp
  | some ip6 =>
    simp only []
    generalize w.lookup_ip6_remote_endpoint ip6.daddr = info
    generalize sec_label_override k.WORLD_ID info = dstID
    by_cases h : dstID ≠ k.HOST_ID
    · rw [if_pos h]; left; simp [Event.is_dbg]
    · rw [if_neg h]
      generalize w.ipv6_hdrlen ctx k.ETH_HLEN ip6.nexthdr = hl
      by_cases hh : hl.1 < 0
      · rw [if_pos hh]; left; simp [Event.is_dbg]
      · rw [if_neg hh]
        generalize w.ct_lookup6 ctx _ _ _ = ct
        by_cases hc : ct.ret < 0
        · rw [if_pos hc]; right; left
          exact ⟨[Event.dbg_ip_id_map info.isSome true ip6.daddr.p4 dstID], _, _, _,
            by simp [Event.is_dbg], hc, rfl, rfl⟩
        · rw [if_neg hc]; right; right
          generalize w.lookup_ip6_remote_endpoint ip6.saddr = info2
          generalize sec_label_override srcID info2 = srcID1
          generalize w.policy_can_access_ingress ctx srcID1 dstID ct.tuple.dport
            ct.tuple.nexthdr false = pol
          refine ⟨[Event.dbg_ip_id_map info.isSome true ip6.daddr.p4 dstID],
            CtTuple.v6 ct.tuple, Dir.ingress, ct.ret,
            Event.dbg_ip_id_map info2.isSome true ip6.saddr.p4 srcID1,
            Event.policy_can_access_ingress srcID1 dstID ct.tuple.dport ct.tuple.nexthdr false
              pol,
            srcID1, pol, srcID1, ct.tuple.dport, ct.tuple.nexthdr, true,
            { src_sec_id := srcID1, node_port := ct.ct_state.node_port },
            w.ct_create6 ctx ct.tuple Dir.ingress
              { src_sec_id := srcID1, node_port := ct.ct_state.node_port }
              (decide (pol.verdict > 0)),
            by simp [Event.is_dbg], not_lt.mp hc, rfl, rfl, rfl, rfl, ?_, ?_, ?_⟩
          · split_ifs <;> rfl
          · unfold stage_decision
            split_ifs <;> rfl
          · unfold stage_decision
            split_ifs <;> simp

theorem run_stage_shape (s : Stage) (cfg : Config) (k : Consts) (w : World) (ctx : Pkt)
    (srcID : Nat) : StageShape k (run_stage s cfg k w ctx srcID) := by
  cases s
  · exact ipv4_host_policy_egress_shape k w ctx srcID
  · exact ipv4_host_policy_ingress_shape cfg k w ctx srcID
  · exact ipv6_host_policy_egress_shape k w ctx srcID
  · exact ipv6_host_policy_ingress_shape k w ctx srcID

/-! ## Consequences of the normal form -/

theorem ct_class_of_is_dbg (e : Event) (h : e.is_dbg = true) : e.ct_class = none := by
  cases e <;> simp_all [Event.is_dbg, Event.ct_class]

theorem policy_eval_of_is_dbg (e : Event) (h : e.is_dbg = true) : e.policy_eval = none := by
  cases e <;> simp_all [Event.is_dbg, Event.policy_eval]

theorem ct_class_of_is_policy_eval (e : Event) (h : e.is_policy_eval = true) :
    e.ct_class = none := by
  cases e <;> simp_all [Event.is_policy_eval, Event.ct_class]

theorem not_kind_of_is_dbg (e : Event) (h : e.is_dbg = true) :
    e.is_ct_lookup = false ∧ e.is_policy_eval = false ∧ e.is_verdict_notify = false ∧
      e.is_ct_create = false := by
  cases e <;> simp_all [Event.is_dbg, Event.is_ct_lookup, Event.is_policy_eval,
    Event.is_verdict_notify, Event.is_ct_create]

theorem not_notify_create_of_is_policy_eval (e : Event) (h : e.is_policy_eval = true) :
    e.is_verdict_notify = false ∧ e.is_ct_create = false := by
  cases e <;> simp_all [Event.is_policy_eval, Event.is_verdict_notify, Event.is_ct_create]

theorem stage_decision_events (k : Consts) (c : Int) (pol : PolicyOut) (n cr : Event)
    (x : Int) : ∀ e ∈ (stage_decision k c pol n cr x).2, e = n ∨ e = cr := by
  unfold stage_decision
  split_ifs <;> simp

theorem filter_eq_nil_of_is_dbg (p : Event → Bool) (pre : List Event)
    (hp : ∀ e, e.is_dbg = true → p e = false) (hpre : ∀ e ∈ pre, e.is_dbg = true) :
    pre.filter p = [] := by
  rw [List.filter_eq_nil_iff]
  intro e he
  simp [hp e (hpre e he)]

/-- A run that performed a conntrack lookup with result `c` and evaluated the
policy with source identity `src` and outcome `out` has the third form of
`StageShape`, for these `c`, `src` and `out`. -/
theorem StageShape.evaluated {k : Consts} {r : StageResult} {c : Int} {src : Nat}
    {out : PolicyOut} (h : StageShape k r) (hc : Classified r.trace c)
    (hp : PolicyEvaluated r.trace src out) :
    ∃ (pre : List Event) (tup : CtTuple) (dir : Dir) (d P : Event)
      (remote dport proto : Nat) (v6 : Bool) (st : CtState) (cr : Int),
      (∀ e ∈ pre, e.is_dbg = true) ∧ 0 ≤ c ∧ d.is_dbg = true ∧
      P.is_policy_eval = true ∧ st.src_sec_id = src ∧ r.srcID = src ∧
      r.ret = (stage_decision k c out
        (Event.policy_verdict_notify remote dport proto dir v6 out.verdict out.match_type
          out.audited)
        (Event.ct_create tup dir st (decide (out.verdict > 0)) cr) cr).1 ∧
      r.trace = pre ++ [Event.ct_lookup tup dir c, d, P] ++
        (stage_decision k c out
          (Event.policy_verdict_notify remote dport proto dir v6 out.verdict out.match_type
            out.audited)
          (Event.ct_create tup dir st (decide (out.verdict > 0)) cr) cr).2 := by
  rcases h with h | ⟨pre, tup, dir, c0, hpre, _, _, htr⟩ |
    ⟨pre, tup, dir, c0, d, P, src0, pol0, remote, dport, proto, v6, st, cr, hpre, h0, hd, hP,
      hP2, hst, hsrc, hret, htr⟩
  · obtain ⟨e, he, hce⟩ := hc
    rw [ct_class_of_is_dbg e (h e he)] at hce
    cases hce
  · obtain ⟨e, he, hpe⟩ := hp
    rw [htr] at he
    rcases List.mem_append.mp he with he | he
    · rw [policy_eval_of_is_dbg e (hpre e he)] at hpe
      cases hpe
    · rw [List.mem_singleton.mp he] at hpe
      cases hpe
  · have hcc : c0 = c := by
      obtain ⟨e, he, hce⟩ := hc
      rw [htr] at he
      rcases List.mem_append.mp he with he | he
      · rcases List.mem_append.mp he with he | he
        · rw [ct_class_of_is_dbg e (hpre e he)] at hce
          cases hce
        · simp only [List.mem_cons, List.mem_singleton, List.not_mem_nil, or_false] at he
          rcases he with he | he | he
          · subst he
            simpa [Event.ct_class] using hce
          · subst he
            rw [ct_class_of_is_dbg _ hd] at hce
            cases hce
          · subst he
            rw [ct_class_of_is_policy_eval _ hP2] at hce
            cases hce
      · rcases stage_decision_events _ _ _ _ _ _ e he with he | he <;> subst he <;>
          simp [Event.ct_class] at hce
    have hpp : src0 = src ∧ pol0 = out := by
      obtain ⟨e, he, hpe⟩ := hp
      rw [htr] at he
      rcases List.mem_append.mp he with he | he
      · rcases List.mem_append.mp he with he | he
        · rw [policy_eval_of_is_dbg e (hpre e he)] at hpe
          cases hpe
        · simp only [List.mem_cons, List.mem_singleton, List.not_mem_nil, or_false] at he
          rcases he with he | he | he
          · subst he
            simp [Event.policy_eval] at hpe
          · subst he
            rw [policy_eval_of_is_dbg _ hd] at hpe
            cases hpe
          · subst he
            rw [hP] at hpe
            simpa using hpe
      · rcases stage_decision_events _ _ _ _ _ _ e he with he | he <;> subst he <;>
          simp [Event.policy_eval] at hpe
    obtain ⟨hs, ho⟩ := hpp
    subst hcc hs ho
    exact ⟨pre, tup, dir, d, P, remote, dport, proto, v6, st, cr, hpre, h0, hd, hP2, hst, hsrc,
      hret, htr⟩

theorem filter_stage_trace (p : Event → Bool) (pre post : List Event) (l d P : Event)
    (hdbg : ∀ e, e.is_dbg = true → p e = false) (hpre : ∀ e ∈ pre, e.is_dbg = true)
    (hl : p l = false) (hd : p d = false) (hP : p P = false) :
    (pre ++ [l, d, P] ++ post).filter p = post.filter p := by
  simp [List.filter_append, filter_eq_nil_of_is_dbg p pre hdbg hpre, List.filter_cons, hl, hd,
    hP]

/-! ## Host-policy stage properties -/

/-- C1 (amended): in each of the four host-policy stages, for every packet
that reaches policy evaluation, a classification of REPLY or RELATED makes the
stage return CTX_ACT_OK whatever the verdict, and for every other
classification (NEW, ESTABLISHED, or an unknown value) a negative verdict is
returned as the stage result. -/
theorem reply_related_bypass (s : Stage) (cfg : Config) (k : Consts) (w : World) (ctx : Pkt)
    (srcID : Nat) (c : Int) (src : Nat) (out : PolicyOut)
    (hNR : k.CT_NEW ≠ k.CT_REPLY) (hNL : k.CT_NEW ≠ k.CT_RELATED)
    (hc : Classified (run_stage s cfg k w ctx srcID).trace c)
    (hp : PolicyEvaluated (run_stage s cfg k w ctx srcID).trace src out) :
    ((c = k.CT_REPLY ∨ c = k.CT_RELATED) →
      (run_stage s cfg k w ctx srcID).ret = k.CTX_ACT_OK) ∧
    (c ≠ k.CT_REPLY → c ≠ k.CT_RELATED → out.verdict < 0 →
      (run_stage s cfg k w ctx srcID).ret = out.verdict) := by
  obtain ⟨pre, tup, dir, d, P, remote, dport, proto, v6, st, cr, -, -, -, -, -, -, hret, -⟩ :=
    (run_stage_shape s cfg k w ctx srcID).evaluated hc hp
  rw [hret]
  unfold stage_decision
  constructor
  · rintro (h | h)
    · subst h
      simp [Ne.symm hNR]
    · subst h
      simp [Ne.symm hNL]
  · intro h1 h2 h3
    simp [h1, h2, h3]

/-- C1 (witness): a REPLY packet of the scenario flow passes although the
policy denies it. -/
theorem reply_related_bypass_witness :
    consts0.CT_NEW ≠ consts0.CT_REPLY ∧ consts0.CT_NEW ≠ consts0.CT_RELATED ∧
    Classified (run_stage Stage.ipv4_ingress {} consts0 (world_scn 2) pkt_scn 0).trace 2 ∧
    PolicyEvaluated (run_stage Stage.ipv4_ingress {} consts0 (world_scn 2) pkt_scn 0).trace 200
      { verdict := -133, match_type := 1, audited := 1 } ∧
    (run_stage Stage.ipv4_ingress {} consts0 (world_scn 2) pkt_scn 0).ret = 0 :=
  ⟨by decide, by decide, by decide, by decide,
    (reply_related_bypass Stage.ipv4_ingress {} consts0 (world_scn 2) pkt_scn 0 2 200
      { verdict := -133, match_type := 1, audited := 1 } (by decide) (by decide) (by decide)
      (by decide)).1 (Or.inl rfl)⟩

/-- C1 (counterexample): a packet classified ESTABLISHED whose policy verdict
is negative is not let through: the IPv4 ingress stage returns the negative
verdict (-133) instead of CTX_ACT_OK, although the classification is not NEW. -/
theorem established_deny_returned :
    Classified (run_stage Stage.ipv4_ingress {} consts0 (world_scn 1) pkt_scn 0).trace
      consts0.CT_ESTABLISHED ∧
    PolicyEvaluated (run_stage Stage.ipv4_ingress {} consts0 (world_scn 1) pkt_scn 0).trace 200
      { verdict := -133, match_type := 1, audited := 1 } ∧
    consts0.CT_ESTABLISHED ≠ consts0.CT_NEW ∧
    (run_stage Stage.ipv4_ingress {} consts0 (world_scn 1) pkt_scn 0).ret = -133 ∧
    (run_stage Stage.ipv4_ingress {} consts0 (world_scn 1) pkt_scn 0).ret ≠
      consts0.CTX_ACT_OK := by
  decide

theorem egress_trace_nil (s : Stage) (cfg : Config) (k : Consts) (w : World) (ctx : Pkt)
    (srcID : Nat) (hs : s = Stage.ipv4_egress ∨ s = Stage.ipv6_egress)
    (h : srcID ≠ k.HOST_ID) : run_stage s cfg k w ctx srcID = ⟨k.CTX_ACT_OK, srcID, []⟩ := by
  rcases hs with hs | hs <;> subst hs
  · simp [run_stage, ipv4_host_policy_egress, h]
  · simp [run_stage, ipv6_host_policy_egress, h]

/-- C3: in every host-policy stage, when the classification is NEW and the
policy verdict is non-negative, the run issues exactly one conntrack insert,
for the tuple and direction of the lookup, and the inserted state carries as
`src_sec_id` the source identity `src` that was passed to the policy
evaluation; `src` is the value the stage leaves in `*srcID`, and on egress it
is HOST_ID, equal to the `srcID` argument. -/
theorem one_insert_per_admitted_new (s : Stage) (cfg : Config) (k : Consts) (w : World)
    (ctx : Pkt) (srcID : Nat) (src : Nat) (out : PolicyOut)
    (hc : Classified (run_stage s cfg k w ctx srcID).trace k.CT_NEW)
    (hp : PolicyEvaluated (run_stage s cfg k w ctx srcID).trace src out)
    (hv : 0 ≤ out.verdict) :
    (∃ (tup : CtTuple) (dir : Dir) (st : CtState) (flag : Bool) (cr : Int),
      (run_stage s cfg k w ctx srcID).trace.filter Event.is_ct_create =
        [Event.ct_create tup dir st flag cr] ∧
      Event.ct_lookup tup dir k.CT_NEW ∈ (run_stage s cfg k w ctx srcID).trace ∧
      st.src_sec_id = src) ∧
    (run_stage s cfg k w ctx srcID).srcID = src ∧
    (s = Stage.ipv4_egress ∨ s = Stage.ipv6_egress → src = k.HOST_ID ∧ src = srcID) := by
  obtain ⟨pre, tup, dir, d, P, remote, dport, proto, v6, st, cr, hpre, -, hd, hP, hst, hsrc, -,
    htr⟩ := (run_stage_shape s cfg k w ctx srcID).evaluated hc hp
  have hdec : (stage_decision k k.CT_NEW out
      (Event.policy_verdict_notify remote dport proto dir v6 out.verdict out.match_type
        out.audited)
      (Event.ct_create tup dir st (decide (out.verdict > 0)) cr) cr).2 =
      [Event.policy_verdict_notify remote dport proto dir v6 out.verdict out.match_type
        out.audited, Event.ct_create tup dir st (decide (out.verdict > 0)) cr] := by
    unfold stage_decision
    simp [not_lt.mpr hv]
  rw [hdec] at htr
  refine ⟨⟨tup, dir, st, decide (out.verdict > 0), cr, ?_, ?_, hst⟩, hsrc, ?_⟩
  · rw [htr, filter_stage_trace _ pre _ (Event.ct_lookup tup dir k.CT_NEW) d P (fun e he => (not_kind_of_is_dbg e he).2.2.2) hpre
      rfl (not_kind_of_is_dbg d hd).2.2.2 (not_notify_create_of_is_policy_eval P hP).2]
    rfl
  · rw [htr]
    simp
  · intro hs
    by_cases h : srcID = k.HOST_ID
    · have h2 : (run_stage s cfg k w ctx srcID).srcID = srcID := by
        rcases hs with hs | hs <;> subst hs
        · simp only [run_stage, ipv4_host_policy_egress]
          split_ifs <;> first | rfl | (split <;> first | rfl | (split_ifs <;> rfl))
        · simp only [run_stage, ipv6_host_policy_egress]
          split_ifs <;> first | rfl | (split <;> first | rfl | (split_ifs <;> rfl))
      rw [h2] at hsrc
      exact ⟨hsrc ▸ h, hsrc.symm⟩
    · rw [egress_trace_nil s cfg k w ctx srcID hs h] at hp
      obtain ⟨e, he, -⟩ := hp
      cases he

/-- C3 (witness): the scenario flow, classified NEW and allowed by the policy:
one insert, and the identity used is 200. -/
theorem one_insert_per_admitted_new_witness :
    Classified (run_stage Stage.ipv4_ingress {} consts0 world_scn_allow pkt_scn 0).trace
      consts0.CT_NEW ∧
    PolicyEvaluated (run_stage Stage.ipv4_ingress {} consts0 world_scn_allow pkt_scn 0).trace
      200 { verdict := 1 } ∧
    (run_stage Stage.ipv4_ingress {} consts0 world_scn_allow pkt_scn 0).srcID = 200 ∧
    ((run_stage Stage.ipv4_ingress {} consts0 world_scn_allow pkt_scn 0).trace.filter
      Event.is_ct_create).length = 1 := by
  obtain ⟨⟨_, _, _, _, _, hf, _, _⟩, hs, _⟩ :=
    one_insert_per_admitted_new Stage.ipv4_ingress {} consts0 world_scn_allow pkt_scn 0 200
      { verdict := 1 } (by decide) (by decide) (by decide)
  exact ⟨by decide, by decide, hs, by rw [hf]; rfl⟩

/-- C7: in every host-policy stage, when the classification is NEW and the
policy verdict is negative, the stage returns that verdict, the run emits
exactly one policy-verdict notification, carrying the verdict, the match type
and the audited flag of the evaluation, and issues no conntrack insert. -/
theorem denied_new_flow (s : Stage) (cfg : Config) (k : Consts) (w : World) (ctx : Pkt)
    (srcID : Nat) (src : Nat) (out : PolicyOut)
    (hNR : k.CT_NEW ≠ k.CT_REPLY) (hNL : k.CT_NEW ≠ k.CT_RELATED)
    (hc : Classified (run_stage s cfg k w ctx srcID).trace k.CT_NEW)
    (hp : PolicyEvaluated (run_stage s cfg k w ctx srcID).trace src out)
    (hv : out.verdict < 0) :
    (run_stage s cfg k w ctx srcID).ret = out.verdict ∧
    (∃ (remote dport proto : Nat) (dir : Dir) (v6 : Bool),
      (run_stage s cfg k w ctx srcID).trace.filter Event.is_verdict_notify =
        [Event.policy_verdict_notify remote dport proto dir v6 out.verdict out.match_type
          out.audited]) ∧
    (run_stage s cfg k w ctx srcID).trace.filter Event.is_ct_create = [] := by
  obtain ⟨pre, tup, dir, d, P, remote, dport, proto, v6, st, cr, hpre, -, hd, hP, -, -, hret,
    htr⟩ := (run_stage_shape s cfg k w ctx srcID).evaluated hc hp
  have hdec : stage_decision k k.CT_NEW out
      (Event.policy_verdict_notify remote dport proto dir v6 out.verdict out.match_type
        out.audited)
      (Event.ct_create tup dir st (decide (out.verdict > 0)) cr) cr =
      (out.verdict, [Event.policy_verdict_notify remote dport proto dir v6 out.verdict
        out.match_type out.audited]) := by
    unfold stage_decision
    simp [hNR, hNL, hv]
  rw [hdec] at htr hret
  refine ⟨hret, ⟨remote, dport, proto, dir, v6, ?_⟩, ?_⟩
  · rw [htr, filter_stage_trace _ pre _ (Event.ct_lookup tup dir k.CT_NEW) d P (fun e he => (not_kind_of_is_dbg e he).2.2.1) hpre
      rfl (not_kind_of_is_dbg d hd).2.2.1 (not_notify_create_of_is_policy_eval P hP).1]
    rfl
  · rw [htr, filter_stage_trace _ pre _ (Event.ct_lookup tup dir k.CT_NEW) d P (fun e he => (not_kind_of_is_dbg e he).2.2.2) hpre
      rfl (not_kind_of_is_dbg d hd).2.2.2 (not_notify_create_of_is_policy_eval P hP).2]
    rfl

/-- C7 (witness): TCP 10.0.0.5:40000 -> 10.0.0.1:80 with ipcache(10.0.0.5) =
200, ipcache(10.0.0.1) = HOST_ID, a conntrack miss and a denying policy: the
IPv4 ingress stage returns the verdict -133. -/
theorem denied_new_flow_witness :
    consts0.CT_NEW ≠ consts0.CT_REPLY ∧ consts0.CT_NEW ≠ consts0.CT_RELATED ∧
    Classified (run_stage Stage.ipv4_ingress {} consts0 (world_scn 0) pkt_scn 0).trace
      consts0.CT_NEW ∧
    PolicyEvaluated (run_stage Stage.ipv4_ingress {} consts0 (world_scn 0) pkt_scn 0).trace 200
      { verdict := -133, match_type := 1, audited := 1 } ∧
    (run_stage Stage.ipv4_ingress {} consts0 (world_scn 0) pkt_scn 0).ret = -133 :=
  ⟨by decide, by decide, by decide, by decide,
    (denied_new_flow Stage.ipv4_ingress {} consts0 (world_scn 0) pkt_scn 0 200
      { verdict := -133, match_type := 1, audited := 1 } (by decide) (by decide) (by decide)
      (by decide) (by decide)).1⟩

theorem notify_before_insert_of_no_create (seen : Bool) (tr : List Event)
    (h : ∀ e ∈ tr, e.is_ct_create = false) : notify_before_insert seen tr = true := by
  induction tr generalizing seen with
  | nil => rfl
  | cons e tr ih =>
    have he : e.is_ct_create = false := h e (List.mem_cons_self e tr)
    simp only [notify_before_insert, he, Bool.not_false, Bool.true_or, Bool.true_and]
    exact ih _ (fun x hx => h x (List.mem_cons_of_mem e hx))

theorem notify_before_insert_append (seen : Bool) (pre post : List Event)
    (hpre : ∀ e ∈ pre, e.is_ct_create = false ∧ e.is_verdict_notify = false) :
    notify_before_insert seen (pre ++ post) = notify_before_insert seen post := by
  induction pre with
  | nil => rfl
  | cons e pre ih =>
    have he := hpre e (List.mem_cons_self e pre)
    simp only [List.cons_append, notify_before_insert, he.1, he.2, Bool.not_false, Bool.true_or,
      Bool.true_and, Bool.or_false]
    exact ih (fun x hx => hpre x (List.mem_cons_of_mem e hx))

/-- C8: in the event trace of every host-policy stage run, every conntrack
insert is preceded by a policy-verdict notification; and when the lookup
classified the packet as NEW, the run emits exactly one policy-verdict
notification, whether the verdict allows or denies. -/
theorem notify_precedes_insert (s : Stage) (cfg : Config) (k : Consts) (w : World) (ctx : Pkt)
    (srcID : Nat) :
    notify_before_insert false (run_stage s cfg k w ctx srcID).trace = true ∧
    (0 ≤ k.CT_NEW → Classified (run_stage s cfg k w ctx srcID).trace k.CT_NEW →
      ((run_stage s cfg k w ctx srcID).trace.filter Event.is_verdict_notify).length = 1) := by
  rcases run_stage_shape s cfg k w ctx srcID with h | ⟨pre, tup, dir, c0, hpre, hneg, -, htr⟩ |
    ⟨pre, tup, dir, c0, d, P, src0, pol0, remote, dport, proto, v6, st, cr, hpre, h0, hd, hP,
      hP2, -, -, -, htr⟩
  · refine ⟨notify_before_insert_of_no_create _ _ (fun e he => (not_kind_of_is_dbg e (h e he)).2.2.2),
      ?_⟩
    rintro - ⟨e, he, hce⟩
    rw [ct_class_of_is_dbg e (h e he)] at hce
    cases hce
  · constructor
    · rw [htr]
      apply notify_before_insert_of_no_create
      intro e he
      rcases List.mem_append.mp he with he | he
      · exact (not_kind_of_is_dbg e (hpre e he)).2.2.2
      · rw [List.mem_singleton.mp he]
        rfl
    · rintro hnew ⟨e, he, hce⟩
      rw [htr] at he
      rcases List.mem_append.mp he with he | he
      · rw [ct_class_of_is_dbg e (hpre e he)] at hce
        cases hce
      · rw [List.mem_singleton.mp he] at hce
        simp only [Event.ct_class, Option.some.injEq] at hce
        omega
  · have hfront : ∀ e ∈ pre ++ [Event.ct_lookup tup dir c0, d, P],
        e.is_ct_create = false ∧ e.is_verdict_notify = false := by
      intro e he
      rcases List.mem_append.mp he with he | he
      · exact ⟨(not_kind_of_is_dbg e (hpre e he)).2.2.2, (not_kind_of_is_dbg e (hpre e he)).2.2.1⟩
      · simp only [List.mem_cons, List.mem_singleton, List.not_mem_nil, or_false] at he
        rcases he with he | he | he <;> subst he
        · exact ⟨rfl, rfl⟩
        · exact ⟨(not_kind_of_is_dbg _ hd).2.2.2, (not_kind_of_is_dbg _ hd).2.2.1⟩
        · exact ⟨(not_notify_create_of_is_policy_eval _ hP2).2,
            (not_notify_create_of_is_policy_eval _ hP2).1⟩
    constructor
    · rw [htr, notify_before_insert_append _ _ _ hfront]
      unfold stage_decision
      split_ifs <;> rfl
    · intro hnew hc
      have hcc : c0 = k.CT_NEW := by
        obtain ⟨e, he, hce⟩ := hc
        rw [htr] at he
        rcases List.mem_append.mp he with he | he
        · rcases List.mem_append.mp he with he | he
          · rw [ct_class_of_is_dbg e (hpre e he)] at hce
            cases hce
          · simp only [List.mem_cons, List.mem_singleton, List.not_mem_nil, or_false] at he
            rcases he with he | he | he
            · subst he
              simpa [Event.ct_class] using hce
            · subst he
              rw [ct_class_of_is_dbg _ hd] at hce
              cases hce
            · subst he
              rw [ct_class_of_is_policy_eval _ hP2] at hce
              cases hce
        · rcases stage_decision_events _ _ _ _ _ _ e he with he | he <;> subst he <;>
            simp [Event.ct_class] at hce
      subst hcc
      rw [htr, List.filter_append, List.filter_eq_nil_iff.mpr (fun e he => by
        simp [(hfront e he).2])]
      unfold stage_decision
      split_ifs <;> simp_all [Event.is_verdict_notify, Event.is_ct_create, List.filter_cons]

/-- C8 (witness): the allowed scenario flow emits one notification, and its
insert comes after it. -/
theorem notify_precedes_insert_witness :
    0 ≤ consts0.CT_NEW ∧
    Classified (run_stage Stage.ipv4_ingress {} consts0 world_scn_allow pkt_scn 0).trace
      consts0.CT_NEW ∧
    notify_before_insert false
      (run_stage Stage.ipv4_ingress {} consts0 world_scn_allow pkt_scn 0).trace = true ∧
    ((run_stage Stage.ipv4_ingress {} consts0 world_scn_allow pkt_scn 0).trace.filter
      Event.is_verdict_notify).length = 1 :=
  ⟨by decide, by decide,
    (notify_precedes_insert Stage.ipv4_ingress {} consts0 world_scn_allow pkt_scn 0).1,
    (notify_precedes_insert Stage.ipv4_ingress {} consts0 world_scn_allow pkt_scn 0).2
      (by decide) (by decide)⟩

/-- C9 (amended): in every host-policy stage, when the conntrack lookup
returns a classification outside {NEW, ESTABLISHED, RELATED, REPLY}: a negative
value is returned as is; a non-negative value leads to policy evaluation, after
which the stage returns DROP_UNKNOWN_CT if the verdict is non-negative and the
verdict itself if it is negative. -/
theorem unknown_ct_state (s : Stage) (cfg : Config) (k : Consts) (w : World) (ctx : Pkt)
    (srcID : Nat) (c : Int)
    (hc : Classified (run_stage s cfg k w ctx srcID).trace c)
    (h1 : c ≠ k.CT_NEW) (h2 : c ≠ k.CT_ESTABLISHED) (h3 : c ≠ k.CT_RELATED)
    (h4 : c ≠ k.CT_REPLY) :
    (c < 0 → (run_stage s cfg k w ctx srcID).ret = c) ∧
    (0 ≤ c → ∃ (src : Nat) (out : PolicyOut),
      PolicyEvaluated (run_stage s cfg k w ctx srcID).trace src out) ∧
    (∀ (src : Nat) (out : PolicyOut),
      PolicyEvaluated (run_stage s cfg k w ctx srcID).trace src out →
      (0 ≤ out.verdict → (run_stage s cfg k w ctx srcID).ret = k.DROP_UNKNOWN_CT) ∧
      (out.verdict < 0 → (run_stage s cfg k w ctx srcID).ret = out.verdict)) := by
  refine ⟨?_, ?_, ?_⟩
  · intro hneg
    rcases run_stage_shape s cfg k w ctx srcID with h | ⟨pre, tup, dir, c0, hpre, -, hret, htr⟩ |
      ⟨pre, tup, dir, c0, d, P, src0, pol0, remote, dport, proto, v6, st, cr, hpre, h0, hd, hP,
        hP2, -, -, -, htr⟩
    · obtain ⟨e, he, hce⟩ := hc
      rw [ct_class_of_is_dbg e (h e he)] at hce
      cases hce
    · obtain ⟨e, he, hce⟩ := hc
      rw [htr] at he
      rcases List.mem_append.mp he with he | he
      · rw [ct_class_of_is_dbg e (hpre e he)] at hce
        cases hce
      · rw [List.mem_singleton.mp he] at hce
        simp only [Event.ct_class, Option.some.injEq] at hce
        rw [hret, hce]
    · have hp : PolicyEvaluated (run_stage s cfg k w ctx srcID).trace src0 pol0 :=
        ⟨P, by rw [htr]; simp, hP⟩
      obtain ⟨_, _, _, _, _, _, _, _, _, _, _, -, h0c, -⟩ :=
        (run_stage_shape s cfg k w ctx srcID).evaluated hc hp
      omega
  · intro hpos
    rcases run_stage_shape s cfg k w ctx srcID with h | ⟨pre, tup, dir, c0, hpre, hneg, -, htr⟩ |
      ⟨pre, tup, dir, c0, d, P, src0, pol0, remote, dport, proto, v6, st, cr, hpre, h0, hd, hP,
        hP2, -, -, -, htr⟩
    · obtain ⟨e, he, hce⟩ := hc
      rw [ct_class_of_is_dbg e (h e he)] at hce
      cases hce
    · obtain ⟨e, he, hce⟩ := hc
      rw [htr] at he
      rcases List.mem_append.mp he with he | he
      · rw [ct_class_of_is_dbg e (hpre e he)] at hce
        cases hce
      · rw [List.mem_singleton.mp he] at hce
        simp only [Event.ct_class, Option.some.injEq] at hce
        omega
    · exact ⟨src0, pol0, P, by rw [htr]; simp, hP⟩
  · intro src out hp
    obtain ⟨pre, tup, dir, d, P, remote, dport, proto, v6, st, cr, -, -, -, -, -, -, hret, -⟩ :=
      (run_stage_shape s cfg k w ctx srcID).evaluated hc hp
    rw [hret]
    unfold stage_decision
    constructor
    · intro hv
      simp [h1, h2, h3, h4, not_lt.mpr hv]
    · intro hv
      simp [h3, h4, hv]

/-- C9 (witness): classification 9 with an allowing policy gives
DROP_UNKNOWN_CT. -/
theorem unknown_ct_state_witness :
    Classified (run_stage Stage.ipv4_egress {} consts0
      { world0 with ct_lookup4 := fun _ t _ _ => { ret := 9, tuple := t } }
      pkt_scn 1).trace 9 ∧
    (run_stage Stage.ipv4_egress {} consts0
      { world0 with ct_lookup4 := fun _ t _ _ => { ret := 9, tuple := t } }
      pkt_scn 1).ret = consts0.DROP_UNKNOWN_CT :=
  ⟨by decide,
    ((unknown_ct_state Stage.ipv4_egress {} consts0
      { world0 with ct_lookup4 := fun _ t _ _ => { ret := 9, tuple := t } }
      pkt_scn 1 9 (by decide) (by decide) (by decide) (by decide) (by decide)).2.2 1
      { verdict := 0 } (by decide)).1 (by decide)⟩

/-- C9 (counterexample): classification 9 is outside {NEW, ESTABLISHED,
RELATED, REPLY}, the policy verdict is -133, and the IPv4 ingress stage
returns -133, not DROP_UNKNOWN_CT. -/
theorem unknown_ct_deny_returns_verdict :
    Classified (run_stage Stage.ipv4_ingress {} consts0 (world_scn 9) pkt_scn 0).trace 9 ∧
    PolicyEvaluated (run_stage Stage.ipv4_ingress {} consts0 (world_scn 9) pkt_scn 0).trace 200
      { verdict := -133, match_type := 1, audited := 1 } ∧
    (9 : Int) ≠ consts0.CT_NEW ∧ (9 : Int) ≠ consts0.CT_ESTABLISHED ∧
    (9 : Int) ≠ consts0.CT_RELATED ∧ (9 : Int) ≠ consts0.CT_REPLY ∧
    (run_stage Stage.ipv4_ingress {} consts0 (world_scn 9) pkt_scn 0).ret = -133 ∧
    (run_stage Stage.ipv4_ingress {} consts0 (world_scn 9) pkt_scn 0).ret ≠
      consts0.DROP_UNKNOWN_CT := by
  decide

/-- C2: host scoping. An egress stage called with `srcID != HOST_ID` returns
CTX_ACT_OK and emits no event at all. An ingress stage whose destination
identity, resolved from the ipcache with WORLD_ID on a miss or a zero label,
is not HOST_ID returns CTX_ACT_OK and performs no conntrack lookup, no policy
evaluation, no verdict notification and no conntrack insert. -/
theorem host_scoping (cfg : Config) (k : Consts) (w : World) (ctx : Pkt) (srcID : Nat) :
    (srcID ≠ k.HOST_ID →
      ipv4_host_policy_egress k w ctx srcID = ⟨k.CTX_ACT_OK, srcID, []⟩ ∧
      ipv6_host_policy_egress k w ctx srcID = ⟨k.CTX_ACT_OK, srcID, []⟩) ∧
    (∀ ip4 : Iphdr, ctx.ip4 = some ip4 →
      sec_label_override k.WORLD_ID (w.lookup_ip4_remote_endpoint ip4.daddr) ≠ k.HOST_ID →
      (ipv4_host_policy_ingress cfg k w ctx srcID).ret = k.CTX_ACT_OK ∧
      ∀ e ∈ (ipv4_host_policy_ingress cfg k w ctx srcID).trace,
        e.is_ct_lookup = false ∧ e.is_policy_eval = false ∧ e.is_verdict_notify = false ∧
          e.is_ct_create = false) ∧
    (∀ ip6 : Ipv6hdr, ctx.ip6 = some ip6 →
      sec_label_override k.WORLD_ID (w.lookup_ip6_remote_endpoint ip6.daddr) ≠ k.HOST_ID →
      (ipv6_host_policy_ingress k w ctx srcID).ret = k.CTX_ACT_OK ∧
      ∀ e ∈ (ipv6_host_policy_ingress k w ctx srcID).trace,
        e.is_ct_lookup = false ∧ e.is_policy_eval = false ∧ e.is_verdict_notify = false ∧
          e.is_ct_create = false) := by
  refine ⟨fun h => ⟨?_, ?_⟩, fun ip4 hip h => ?_, fun ip6 hip h => ?_⟩
  · simp [ipv4_host_policy_egress, h]
  · simp [ipv6_host_policy_egress, h]
  · unfold ipv4_host_policy_ingress
    rw [hip]
    simp only []
    rw [if_pos h]
    simp [Event.is_ct_lookup, Event.is_policy_eval, Event.is_verdict_notify, Event.is_ct_create]
  · unfold ipv6_host_policy_ingress
    rw [hip]
    simp only []
    rw [if_pos h]
    simp [Event.is_ct_lookup, Event.is_policy_eval, Event.is_verdict_notify, Event.is_ct_create]

/-- C2 (witness): a packet from identity 200 on egress, and the scenario packet
on ingress when the ipcache does not know its destination. -/
theorem host_scoping_witness :
    ipv4_host_policy_egress consts0 world0 pkt_scn 200 = ⟨0, 200, []⟩ ∧
    (ipv4_host_policy_ingress {} consts0 world0 pkt_scn 0).ret = 0 :=
  ⟨((host_scoping {} consts0 world0 pkt_scn 200).1 (by decide)).1,
    ((host_scoping {} consts0 world0 pkt_scn 0).2.1 _ rfl (by decide)).1⟩

/-- C4 (amended): for `resolve_srcid_ipv4` with `from_host = true`, a reserved
asserted identity and an ipcache hit on the source address whose label is
HOST_ID, the default configuration (ENABLE_EXTRA_HOST_DEV undefined)
suppresses the override, so the result is the asserted identity, and the
extra-host-device configuration (ENABLE_EXTRA_HOST_DEV defined) applies it, so
the result is HOST_ID. -/
theorem host_label_override (cfg : Config) (k : Consts) (w : World) (ctx : Pkt) (ip4 : Iphdr)
    (asserted : Nat) (i : RemoteEndpointInfo)
    (hip : ctx.ip4 = some ip4) (hres : k.identity_is_reserved asserted = true)
    (hinfo : w.lookup_ip4_remote_endpoint ip4.saddr = some i)
    (hlabel : i.sec_label = k.HOST_ID) (hH : k.HOST_ID ≠ 0) :
    (cfg.ENABLE_EXTRA_HOST_DEV = false →
      (resolve_srcid_ipv4 cfg k w ctx asserted true).id = asserted) ∧
    (cfg.ENABLE_EXTRA_HOST_DEV = true →
      (resolve_srcid_ipv4 cfg k w ctx asserted true).id = k.HOST_ID) := by
  constructor <;> intro hcfg <;>
    simp [resolve_srcid_ipv4, hip, hres, hinfo, hlabel, hH, hcfg]

/-- C4 (witness): asserted identity WORLD_ID, source address 10.0.0.1 known to
the ipcache as the host. -/
theorem host_label_override_witness :
    consts0.identity_is_reserved consts0.WORLD_ID = true ∧
    (world_scn 0).lookup_ip4_remote_endpoint addr_10_0_0_1 = some { sec_label := 1 } ∧
    (resolve_srcid_ipv4 {} consts0 (world_scn 0) pkt_host_src consts0.WORLD_ID true).id =
      consts0.WORLD_ID :=
  ⟨by decide, by decide,
    (host_label_override {} consts0 (world_scn 0) pkt_host_src
      { saddr := addr_10_0_0_1, daddr := addr_10_0_0_5, protocol := 6 } consts0.WORLD_ID
      { sec_label := 1 } rfl (by decide) (by decide) (by decide) (by decide)).1 rfl⟩

/-- C4 (counterexample): with the asserted identity WORLD_ID (reserved) and an
ipcache hit with label HOST_ID on the source address, the configuration with
ENABLE_EXTRA_HOST_DEV yields HOST_ID (the override is applied, not
suppressed), and the default configuration yields WORLD_ID (the override is
suppressed, not applied). -/
theorem extra_host_dev_applies_override :
    consts0.identity_is_reserved consts0.WORLD_ID = true ∧
    (world_scn 0).lookup_ip4_remote_endpoint addr_10_0_0_1 =
      some { sec_label := consts0.HOST_ID } ∧
    (resolve_srcid_ipv4 { ENABLE_EXTRA_HOST_DEV := true } consts0 (world_scn 0) pkt_host_src
      consts0.WORLD_ID true).id = consts0.HOST_ID ∧
    (resolve_srcid_ipv4 { ENABLE_EXTRA_HOST_DEV := true } consts0 (world_scn 0) pkt_host_src
      consts0.WORLD_ID true).id ≠ consts0.WORLD_ID ∧
    (resolve_srcid_ipv4 { ENABLE_EXTRA_HOST_DEV := false } consts0 (world_scn 0) pkt_host_src
      consts0.WORLD_ID true).id = consts0.WORLD_ID ∧
    (resolve_srcid_ipv4 { ENABLE_EXTRA_HOST_DEV := false } consts0 (world_scn 0) pkt_host_src
      consts0.WORLD_ID true).id ≠ consts0.HOST_ID := by
  decide

/-! ## Forwarding properties -/

theorem stage_trace_kinds {k : Consts} {r : StageResult} (h : StageShape k r) :
    ∀ e ∈ r.trace, e.is_dbg = true ∨ e.is_ct_lookup = true ∨ e.is_policy_eval = true ∨
      e.is_verdict_notify = true ∨ e.is_ct_create = true := by
  intro e he
  rcases h with h | ⟨pre, tup, dir, c0, hpre, -, -, htr⟩ |
    ⟨pre, tup, dir, c0, d, P, src0, pol0, remote, dport, proto, v6, st, cr, hpre, -, hd, -,
      hP2, -, -, -, htr⟩
  · exact Or.inl (h e he)
  · rw [htr] at he
    rcases List.mem_append.mp he with he | he
    · exact Or.inl (hpre e he)
    · rw [List.mem_singleton.mp he]
      exact Or.inr (Or.inl rfl)
  · rw [htr] at he
    rcases List.mem_append.mp he with he | he
    · rcases List.mem_append.mp he with he | he
      · exact Or.inl (hpre e he)
      · simp only [List.mem_cons, List.mem_singleton, List.not_mem_nil, or_false] at he
        rcases he with he | he | he <;> subst he
        · exact Or.inr (Or.inl rfl)
        · exact Or.inl hd
        · exact Or.inr (Or.inr (Or.inl hP2))
    · rcases stage_decision_events _ _ _ _ _ _ e he with he | he <;> subst he
      · exact Or.inr (Or.inr (Or.inr (Or.inl rfl)))
      · exact Or.inr (Or.inr (Or.inr (Or.inr rfl)))

/-- C10 (evaluation at the failing input): an IPv6 packet from the network
whose source lies in the node's /64 prefix and whose flow label equals HOST_ID
makes `resolve_srcid_ipv6` return DROP_INVALID_IDENTITY converted to `__u32`
(4294967125); `do_netdev` stores that value as the source identity and
tail-calls the IPv6 handler, which delivers the packet to the local endpoint
with `secctx = 4294967125` and returns CTX_ACT_OK; with the host firewall
enabled the ingress host policy is evaluated for the packet. -/
theorem invalid_identity_not_dropped :
    (resolve_srcid_ipv6 {} consts0 world_local6 pkt_spoof6 0 false).id =
      u32_of_int consts0.DROP_INVALID_IDENTITY ∧
    do_netdev {} consts0 world_local6 pkt_spoof6 consts0.ETH_P_IPV6 false =
      ⟨consts0.CTX_ACT_OK,
        [Event.trace_notify 8 0, Event.ep_tail_call 10 true, Event.icmp6_host_handle 6 0,
          Event.local_delivery true 4294967125 { flags := 0, lxc_id := 5 } false 0]⟩ ∧
    (do_netdev { ENABLE_HOST_FIREWALL := true } consts0 world_host6 pkt_spoof6
      consts0.ETH_P_IPV6 false).ret = consts0.CTX_ACT_OK ∧
    ∃ e ∈ (do_netdev { ENABLE_HOST_FIREWALL := true } consts0 world_host6 pkt_spoof6
      consts0.ETH_P_IPV6 false).trace, e.is_policy_eval = true := by
  decide

/-! ## Identity resolution: asserted identities and IPv6 -/

/-- C16: for every packet with a readable header, `from_host = true` and an
asserted identity that is not reserved, `resolve_srcid_ipv4` and
`resolve_srcid_ipv6` return exactly the asserted identity and emit no
identity-lookup event (the ipcache is not consulted); hence two runs that
differ in the collaborators, in particular in the ipcache, give the same
result. -/
theorem asserted_identity_kept (cfg : Config) (k : Consts) (w1 w2 : World) (ctx : Pkt)
    (asserted : Nat) (hnr : k.identity_is_reserved asserted = false) :
    (∀ ip4 : Iphdr, ctx.ip4 = some ip4 →
      resolve_srcid_ipv4 cfg k w1 ctx asserted true = ⟨asserted, []⟩ ∧
      resolve_srcid_ipv4 cfg k w2 ctx asserted true =
        resolve_srcid_ipv4 cfg k w1 ctx asserted true) ∧
    (∀ ip6 : Ipv6hdr, ctx.ip6 = some ip6 →
      resolve_srcid_ipv6 cfg k w1 ctx asserted true = ⟨asserted, []⟩ ∧
      resolve_srcid_ipv6 cfg k w2 ctx asserted true =
        resolve_srcid_ipv6 cfg k w1 ctx asserted true) := by
  constructor
  · intro ip4 hip
    have h : ∀ w : World, resolve_srcid_ipv4 cfg k w ctx asserted true = ⟨asserted, []⟩ := by
      intro w
      simp [resolve_srcid_ipv4, hip, hnr]
    exact ⟨h w1, by rw [h w1, h w2]⟩
  · intro ip6 hip
    have h : ∀ w : World, resolve_srcid_ipv6 cfg k w ctx asserted true = ⟨asserted, []⟩ := by
      intro w
      simp [resolve_srcid_ipv6, hip, hnr]
    exact ⟨h w1, by rw [h w1, h w2]⟩

/-- C16 (witness): the asserted identity 200 is kept although the ipcache of
the scenario world maps the source address to the host. -/
theorem asserted_identity_kept_witness :
    consts0.identity_is_reserved 200 = false ∧
    (world_scn 0).lookup_ip4_remote_endpoint addr_10_0_0_1 = some { sec_label := 1 } ∧
    resolve_srcid_ipv4 {} consts0 (world_scn 0) pkt_host_src 200 true = ⟨200, []⟩ ∧
    resolve_srcid_ipv4 {} consts0 world0 pkt_host_src 200 true =
      resolve_srcid_ipv4 {} consts0 (world_scn 0) pkt_host_src 200 true :=
  ⟨by decide, by decide,
    ((asserted_identity_kept {} consts0 (world_scn 0) world0 pkt_host_src 200 (by decide)).1
      _ rfl).1,
    ((asserted_identity_kept {} consts0 (world_scn 0) world0 pkt_host_src 200 (by decide)).1
      _ rfl).2⟩

/-- C19: in every configuration, `resolve_srcid_ipv6` with `from_host = true`,
a reserved asserted identity and an ipcache hit on the source address with a
nonzero label `L` returns `L`; the label HOST_ID is no exception. -/
theorem ipv6_label_override (cfg : Config) (k : Consts) (w : World) (ctx : Pkt)
    (ip6 : Ipv6hdr) (asserted : Nat) (i : RemoteEndpointInfo)
    (hip : ctx.ip6 = some ip6) (hres : k.identity_is_reserved asserted = true)
    (hinfo : w.lookup_ip6_remote_endpoint ip6.saddr = some i) (hL : i.sec_label ≠ 0) :
    (resolve_srcid_ipv6 cfg k w ctx asserted true).id = i.sec_label := by
  simp [resolve_srcid_ipv6, hip, hres, hinfo, sec_label_override, hL]

/-- C19 (witness): asserted identity WORLD_ID, source address known to the
ipcache as the host: the result is HOST_ID, with and without
ENABLE_EXTRA_HOST_DEV. -/
theorem ipv6_label_override_witness :
    consts0.identity_is_reserved consts0.WORLD_ID = true ∧
    world_host6.lookup_ip6_remote_endpoint addr6_host = some { sec_label := consts0.HOST_ID } ∧
    (resolve_srcid_ipv6 {} consts0 world_host6 pkt_from_host6 consts0.WORLD_ID true).id =
      consts0.HOST_ID ∧
    (resolve_srcid_ipv6 { ENABLE_EXTRA_HOST_DEV := true } consts0 world_host6 pkt_from_host6
      consts0.WORLD_ID true).id = consts0.HOST_ID :=
  ⟨by decide, by decide,
    ipv6_label_override {} consts0 world_host6 pkt_from_host6
      { word0 := bswap32 1610612736, nexthdr := 6, saddr := addr6_host,
        daddr := { p1 := 9, p2 := 9, p3 := 0, p4 := 5 } }
      consts0.WORLD_ID { sec_label := 1 } rfl (by decide) (by decide) (by decide),
    ipv6_label_override { ENABLE_EXTRA_HOST_DEV := true } consts0 world_host6 pkt_from_host6
      { word0 := bswap32 1610612736, nexthdr := 6, saddr := addr6_host,
        daddr := { p1 := 9, p2 := 9, p3 := 0, p4 := 5 } }
      consts0.WORLD_ID { sec_label := 1 } rfl (by decide) (by decide) (by decide)⟩

/-! ## Host-policy stages: store failures and the insert flag -/

theorem is_ct_lookup_of_is_policy_eval (e : Event) (h : e.is_policy_eval = true) :
    e.is_ct_lookup = false := by
  cases e <;> simp_all [Event.is_policy_eval, Event.is_ct_lookup]

theorem stage_decision_filter_lookup (k : Consts) (c : Int) (pol : PolicyOut)
    (remote dport proto : Nat) (dir : Dir) (v6 : Bool) (tup : CtTuple) (st : CtState)
    (flag : Bool) (cr : Int) :
    (stage_decision k c pol
      (Event.policy_verdict_notify remote dport proto dir v6 pol.verdict pol.match_type
        pol.audited)
      (Event.ct_create tup dir st flag cr) cr).2.filter Event.is_ct_lookup = [] := by
  unfold stage_decision
  split_ifs <;> rfl

theorem stage_decision_filter_create (k : Consts) (c : Int) (pol : PolicyOut)
    (remote dport proto : Nat) (dir : Dir) (v6 : Bool) (tup : CtTuple) (st : CtState)
    (flag : Bool) (cr : Int) :
    ((stage_decision k c pol
      (Event.policy_verdict_notify remote dport proto dir v6 pol.verdict pol.match_type
        pol.audited)
      (Event.ct_create tup dir st flag cr) cr).2.filter Event.is_ct_create).length ≤ 1 := by
  unfold stage_decision
  split_ifs <;> simp [List.filter_cons, Event.is_ct_create]

theorem stage_decision_create_ret (k : Consts) (c : Int) (pol : PolicyOut) (n create : Event)
    (cr : Int) (hn : n.is_ct_create = false) (hc : create.is_ct_create = true)
    (h : create ∈ (stage_decision k c pol n create cr).2) :
    (stage_decision k c pol n create cr).1 = if k.IS_ERR cr then cr else k.CTX_ACT_OK := by
  have hne : create ≠ n := by
    intro heq
    rw [heq, hn] at hc
    cases hc
  unfold stage_decision at h ⊢
  split_ifs at h ⊢ <;> simp_all

/-- C17: in every host-policy stage, a negative conntrack lookup result is
returned as the stage result, with no policy evaluation, no verdict
notification and no conntrack insert; a conntrack insert that returns an error
makes the stage return that error; and no run issues more than one conntrack
lookup or more than one conntrack insert. -/
theorem store_failures_fatal (s : Stage) (cfg : Config) (k : Consts) (w : World) (ctx : Pkt)
    (srcID : Nat) :
    (∀ c : Int, Classified (run_stage s cfg k w ctx srcID).trace c → c < 0 →
      (run_stage s cfg k w ctx srcID).ret = c ∧
      ∀ e ∈ (run_stage s cfg k w ctx srcID).trace,
        e.is_policy_eval = false ∧ e.is_verdict_notify = false ∧ e.is_ct_create = false) ∧
    (∀ (tup : CtTuple) (dir : Dir) (st : CtState) (flag : Bool) (cr : Int),
      Event.ct_create tup dir st flag cr ∈ (run_stage s cfg k w ctx srcID).trace →
      k.IS_ERR cr = true → (run_stage s cfg k w ctx srcID).ret = cr) ∧
    ((run_stage s cfg k w ctx srcID).trace.filter Event.is_ct_lookup).length ≤ 1 ∧
    ((run_stage s cfg k w ctx srcID).trace.filter Event.is_ct_create).length ≤ 1 := by
  rcases run_stage_shape s cfg k w ctx srcID with h | ⟨pre, tup, dir, c0, hpre, hneg, hret, htr⟩ |
    ⟨pre, tup, dir, c0, d, P, src0, pol0, remote, dport, proto, v6, st, cr, hpre, h0, hd, hP,
      hP2, -, -, hret, htr⟩
  · refine ⟨?_, ?_, ?_, ?_⟩
    · rintro c ⟨e, he, hce⟩ -
      rw [ct_class_of_is_dbg e (h e he)] at hce
      cases hce
    · intro tup dir st flag cr he
      have := h _ he
      simp [Event.is_dbg] at this
    · rw [filter_eq_nil_of_is_dbg _ _ (fun e he => (not_kind_of_is_dbg e he).1) h]
      simp
    · rw [filter_eq_nil_of_is_dbg _ _ (fun e he => (not_kind_of_is_dbg e he).2.2.2) h]
      simp
  · rw [htr]
    refine ⟨?_, ?_, ?_, ?_⟩
    · rintro c ⟨e, he, hce⟩ -
      constructor
      · rcases List.mem_append.mp he with he | he
        · rw [ct_class_of_is_dbg e (hpre e he)] at hce
          cases hce
        · rw [List.mem_singleton.mp he] at hce
          simp only [Event.ct_class, Option.some.injEq] at hce
          rw [hret, hce]
      · intro e' he'
        rcases List.mem_append.mp he' with he' | he'
        · exact (not_kind_of_is_dbg e' (hpre e' he')).2
        · rw [List.mem_singleton.mp he']
          exact ⟨rfl, rfl, rfl⟩
    · intro tup' dir' st' flag' cr' he
      rcases List.mem_append.mp he with he | he
      · have := hpre _ he
        simp [Event.is_dbg] at this
      · simp at he
    · rw [List.filter_append,
        filter_eq_nil_of_is_dbg _ _ (fun e he => (not_kind_of_is_dbg e he).1) hpre]
      simp [List.filter_cons, Event.is_ct_lookup]
    · rw [List.filter_append,
        filter_eq_nil_of_is_dbg _ _ (fun e he => (not_kind_of_is_dbg e he).2.2.2) hpre]
      simp [List.filter_cons, Event.is_ct_create]
  · refine ⟨?_, ?_, ?_, ?_⟩
    · rintro c hc hneg
      have hp : PolicyEvaluated (run_stage s cfg k w ctx srcID).trace src0 pol0 :=
        ⟨P, by rw [htr]; simp, hP⟩
      obtain ⟨_, _, _, _, _, _, _, _, _, _, _, -, h0c, -⟩ :=
        (run_stage_shape s cfg k w ctx srcID).evaluated hc hp
      omega
    · intro tup' dir' st' flag' cr' he herr
      rw [htr] at he
      rcases List.mem_append.mp he with he | he
      · rcases List.mem_append.mp he with he | he
        · have := hpre _ he
          simp [Event.is_dbg] at this
        · simp only [List.mem_cons, List.mem_singleton, List.not_mem_nil, or_false] at he
          rcases he with he | he | he
          · cases he
          · rw [← he] at hd
            simp [Event.is_dbg] at hd
          · rw [← he] at hP2
            simp [Event.is_policy_eval] at hP2
      · rcases stage_decision_events _ _ _ _ _ _ _ he with he' | he'
        · cases he'
        · rw [he'] at he
          have hcr : cr' = cr := by
            simp only [Event.ct_create.injEq] at he'
            exact he'.2.2.2.2
          rw [hret, stage_decision_create_ret k c0 pol0
            (Event.policy_verdict_notify remote dport proto dir v6 pol0.verdict pol0.match_type
              pol0.audited)
            (Event.ct_create tup dir st (decide (pol0.verdict > 0)) cr) cr rfl rfl he,
            ← hcr, if_pos herr]
    · rw [htr, List.filter_append, List.filter_append,
        filter_eq_nil_of_is_dbg _ _ (fun e he => (not_kind_of_is_dbg e he).1) hpre,
        stage_decision_filter_lookup]
      have hl : (Event.ct_lookup tup dir c0).is_ct_lookup = true := rfl
      simp [List.filter_cons, hl, (not_kind_of_is_dbg d hd).1,
        is_ct_lookup_of_is_policy_eval P hP2]
    · rw [htr, filter_stage_trace Event.is_ct_create pre _ (Event.ct_lookup tup dir c0) d P
        (fun e he => (not_kind_of_is_dbg e he).2.2.2) hpre rfl (not_kind_of_is_dbg d hd).2.2.2
        (not_notify_create_of_is_policy_eval P hP2).2]
      exact stage_decision_filter_create _ _ _ _ _ _ _ _ _ _ _ _

/-- C17 (witness): a conntrack lookup that fails with -5 makes the IPv4
ingress stage return -5, and an insert that fails with -155 makes it return
-155. -/
theorem store_failures_fatal_witness :
    (run_stage Stage.ipv4_ingress {} consts0 (world_scn (-5)) pkt_scn 0).ret = -5 ∧
    (run_stage Stage.ipv4_ingress {} consts0
      { world_scn_allow with ct_create4 := fun _ _ _ _ _ => -155 } pkt_scn 0).ret = -155 :=
  ⟨((store_failures_fatal Stage.ipv4_ingress {} consts0 (world_scn (-5)) pkt_scn 0).1 (-5)
      (by decide) (by decide)).1,
    (store_failures_fatal Stage.ipv4_ingress {} consts0
      { world_scn_allow with ct_create4 := fun _ _ _ _ _ => -155 } pkt_scn 0).2.1
      (CtTuple.v4 { daddr := addr_10_0_0_1, saddr := addr_10_0_0_5, dport := 80,
                    sport := 40000, nexthdr := 6 })
      Dir.ingress { src_sec_id := 200 } true (-155) (by decide) (by decide)⟩

/-- C20 (amended): in every host-policy stage, for a NEW classification whose
policy verdict is not negative, the flag passed to the conntrack insert is
true exactly when the verdict is strictly positive; a flow admitted with
verdict 0 is installed with the flag false. -/
theorem insert_flag (s : Stage) (cfg : Config) (k : Consts) (w : World) (ctx : Pkt)
    (srcID : Nat) (src : Nat) (out : PolicyOut)
    (hc : Classified (run_stage s cfg k w ctx srcID).trace k.CT_NEW)
    (hp : PolicyEvaluated (run_stage s cfg k w ctx srcID).trace src out)
    (hv : 0 ≤ out.verdict) :
    ∃ (tup : CtTuple) (dir : Dir) (st : CtState) (cr : Int),
      (run_stage s cfg k w ctx srcID).trace.filter Event.is_ct_create =
        [Event.ct_create tup dir st (decide (0 < out.verdict)) cr] := by
  obtain ⟨pre, tup, dir, d, P, remote, dport, proto, v6, st, cr, hpre, -, hd, hP, -, -, -,
    htr⟩ := (run_stage_shape s cfg k w ctx srcID).evaluated hc hp
  have hdec : (stage_decision k k.CT_NEW out
      (Event.policy_verdict_notify remote dport proto dir v6 out.verdict out.match_type
        out.audited)
      (Event.ct_create tup dir st (decide (out.verdict > 0)) cr) cr).2 =
      [Event.policy_verdict_notify remote dport proto dir v6 out.verdict out.match_type
        out.audited, Event.ct_create tup dir st (decide (out.verdict > 0)) cr] := by
    unfold stage_decision
    simp [not_lt.mpr hv]
  rw [hdec] at htr
  refine ⟨tup, dir, st, cr, ?_⟩
  rw [htr, filter_stage_trace _ pre _ (Event.ct_lookup tup dir k.CT_NEW) d P
    (fun e he => (not_kind_of_is_dbg e he).2.2.2) hpre rfl (not_kind_of_is_dbg d hd).2.2.2
    (not_notify_create_of_is_policy_eval P hP).2]
  rfl

/-- C20 (witness): the scenario flow allowed with verdict 1 is installed with
the flag set. -/
theorem insert_flag_witness :
    Classified (run_stage Stage.ipv4_ingress {} consts0 world_scn_allow pkt_scn 0).trace
      consts0.CT_NEW ∧
    PolicyEvaluated (run_stage Stage.ipv4_ingress {} consts0 world_scn_allow pkt_scn 0).trace
      200 { verdict := 1 } ∧
    ((run_stage Stage.ipv4_ingress {} consts0 world_scn_allow pkt_scn 0).trace.filter
      Event.is_ct_create).length = 1 := by
  obtain ⟨_, _, _, _, hf⟩ :=
    insert_flag Stage.ipv4_ingress {} consts0 world_scn_allow pkt_scn 0 200
      { verdict := 1 } (by decide) (by decide) (by decide)
  exact ⟨by decide, by decide, by rw [hf]; rfl⟩

/-- C20 (counterexample): a packet of the host classified NEW whose egress
policy verdict is 0 (not a deny, so the flow is admitted) is installed with the
flag false. -/
theorem verdict_zero_flag_false :
    Classified (run_stage Stage.ipv4_egress {} consts0 world0 pkt_host_src 1).trace
      consts0.CT_NEW ∧
    PolicyEvaluated (run_stage Stage.ipv4_egress {} consts0 world0 pkt_host_src 1).trace 1
      { verdict := 0 } ∧
    (run_stage Stage.ipv4_egress {} consts0 world0 pkt_host_src 1).ret = consts0.CTX_ACT_OK ∧
    (run_stage Stage.ipv4_egress {} consts0 world0 pkt_host_src 1).trace.filter
      Event.is_ct_create =
      [Event.ct_create
        (CtTuple.v4 { daddr := addr_10_0_0_5, saddr := addr_10_0_0_1, nexthdr := 6 })
        Dir.egress { src_sec_id := 1 } false 0] := by
  decide

/-! ## Entry into the forwarding part -/

theorem not_forwarding_of_stage {k : Consts} {r : StageResult} (h : StageShape k r) :
    ∀ e ∈ r.trace, e.is_forwarding = false := by
  intro e he
  have hk := stage_trace_kinds h e he
  cases e <;> simp_all [Event.is_dbg, Event.is_ct_lookup, Event.is_policy_eval,
    Event.is_verdict_notify, Event.is_ct_create, Event.is_forwarding]

theorem not_forwarding_of_rewrite_dmac (k : Consts) (w : World) (ctx : Pkt) (secctx : Nat) :
    ∀ e ∈ (rewrite_dmac_to_host k w ctx secctx).trace, e.is_forwarding = false := by
  unfold rewrite_dmac_to_host
  simp only []
  split_ifs <;> simp [Event.is_forwarding]

theorem handle_ipv4_policy_of_enter (cfg : Config) (k : Consts) (w : World) (ctx : Pkt)
    (ip4 : Iphdr) (secctx : Nat) (from_host skip : Bool) (e : Entered4)
    (h : handle_ipv4_policy_enter cfg k w ctx ip4 secctx from_host skip = some e) :
    handle_ipv4_policy cfg k w ctx ip4 secctx from_host skip =
      ⟨(handle_ipv4_forward cfg k w e.ctx e.ip4 secctx from_host).ret,
        e.trace ++ (handle_ipv4_forward cfg k w e.ctx e.ip4 secctx from_host).trace⟩ ∧
    ∀ x ∈ e.trace, x.is_forwarding = false := by
  unfold handle_ipv4_policy_enter at h
  unfold handle_ipv4_policy
  by_cases h1 : cfg.ENABLE_HOST_FIREWALL = true
  · simp only [h1, if_true] at h ⊢
    generalize hst : (if from_host = true then ipv4_host_policy_egress k w ctx secctx
      else ipv4_host_policy_ingress cfg k w ctx 0) = st at h ⊢
    have hsh : StageShape k st := by
      rw [← hst]
      split_ifs
      · exact ipv4_host_policy_egress_shape k w ctx secctx
      · exact ipv4_host_policy_ingress_shape cfg k w ctx 0
    by_cases h2 : k.IS_ERR st.ret = true
    · simp [h2] at h
    · by_cases h3 : skip = true
      · simp [h2, h3] at h
      · cases h4 : ctx.ip4 with
        | none => simp [h2, h3, h4] at h
        | some ip4' =>
          simp only [h2, h3, h4, if_false, Bool.false_eq_true, Option.some.injEq] at h ⊢
          subst h
          exact ⟨rfl, not_forwarding_of_stage hsh⟩
  · simp only [h1, if_false, Bool.false_eq_true, Option.some.injEq] at h ⊢
    subst h
    simp

theorem handle_ipv4_dmac_of_enter (cfg : Config) (k : Consts) (w : World) (ctx : Pkt)
    (ip4 : Iphdr) (secctx : Nat) (from_host skip : Bool) (e : Entered4)
    (h : handle_ipv4_dmac_enter cfg k w ctx ip4 secctx from_host skip = some e) :
    handle_ipv4_dmac cfg k w ctx ip4 secctx from_host skip =
      ⟨(handle_ipv4_forward cfg k w e.ctx e.ip4 secctx from_host).ret,
        e.trace ++ (handle_ipv4_forward cfg k w e.ctx e.ip4 secctx from_host).trace⟩ ∧
    ∀ x ∈ e.trace, x.is_forwarding = false := by
  unfold handle_ipv4_dmac_enter at h
  unfold handle_ipv4_dmac
  by_cases h1 : from_host = true ∧ skip = false
  · obtain ⟨hf, hs⟩ := h1
    subst hf hs
    simp only [and_self, if_true] at h ⊢
    by_cases h2 : k.IS_ERR (rewrite_dmac_to_host k w ctx secctx).ret = true
    · simp [h2] at h
    · cases h4 : (rewrite_dmac_to_host k w ctx secctx).ctx.ip4 with
      | none => simp [h2, h4] at h
      | some ip4' =>
        simp only [h2, h4, if_false, Bool.false_eq_true] at h ⊢
        cases he' : handle_ipv4_policy_enter cfg k w (rewrite_dmac_to_host k w ctx secctx).ctx
            ip4' secctx true false with
        | none => simp [he'] at h
        | some e' =>
          simp only [he', Option.map_some', Option.some.injEq] at h
          have hp := handle_ipv4_policy_of_enter cfg k w _ _ secctx true false e' he'
          subst h
          simp only [hp.1, List.append_assoc, true_and]
          intro x hx
          rcases List.mem_append.mp hx with hx | hx
          · exact not_forwarding_of_rewrite_dmac k w ctx secctx x hx
          · exact hp.2 x hx
  · simp only [h1, if_false] at h ⊢
    exact handle_ipv4_policy_of_enter cfg k w ctx ip4 secctx from_host skip e h

theorem handle_ipv4_of_enter (cfg : Config) (k : Consts) (w : World) (ctx : Pkt)
    (secctx : Nat) (from_host : Bool) (e : Entered4)
    (h : handle_ipv4_enter cfg k w ctx secctx from_host = some e) :
    handle_ipv4 cfg k w ctx secctx from_host =
      ⟨(handle_ipv4_forward cfg k w e.ctx e.ip4 secctx from_host).ret,
        e.trace ++ (handle_ipv4_forward cfg k w e.ctx e.ip4 secctx from_host).trace⟩ ∧
    ∀ x ∈ e.trace, x.is_forwarding = false := by
  unfold handle_ipv4_enter at h
  unfold handle_ipv4
  cases h0 : ctx.ip4 with
  | none => simp [h0] at h
  | some ip4 =>
    simp only [h0] at h ⊢
    by_cases h1 : cfg.ENABLE_NODEPORT = true ∧ from_host = false
    · obtain ⟨hn, hf⟩ := h1
      subst hf
      simp only [hn, and_self, if_true] at h ⊢
      generalize (decide (w.ctx_get_xfer ctx ≠ k.XFER_PKT_NO_SVC) && !w.bpf_skip_nodeport ctx) =
        call_lb at h ⊢
      by_cases h2 : call_lb = true ∧ (w.nodeport_lb4 ctx secctx).1 < 0
      · simp [h2] at h
      · by_cases h3 : ((cfg.ENCAP_IFINDEX || cfg.NO_REDIRECT) && !cfg.ENABLE_HOST_FIREWALL) = true
        · simp [h2, h3] at h
        · cases h4 : (if call_lb = true then (w.nodeport_lb4 ctx secctx).2 else ctx).ip4 with
          | none => simp [h2, h3, h4] at h
          | some ip4' =>
            simp only [h2, h3, h4, if_false, Bool.false_eq_true] at h ⊢
            cases he' : handle_ipv4_dmac_enter cfg k w
                (if call_lb = true then (w.nodeport_lb4 ctx secctx).2 else ctx) ip4' secctx
                false (cfg.ENCAP_IFINDEX || cfg.NO_REDIRECT) with
            | none => simp [he'] at h
            | some e' =>
              simp only [he', Option.map_some', Option.some.injEq] at h
              have hp := handle_ipv4_dmac_of_enter cfg k w _ _ secctx false _ e' he'
              subst h
              simp only [hp.1, List.append_assoc, true_and]
              intro x hx
              rcases List.mem_append.mp hx with hx | hx
              · split_ifs at hx <;> simp at hx
                subst hx
                rfl
              · exact hp.2 x hx
    · simp only [h1, if_false] at h ⊢
      exact handle_ipv4_dmac_of_enter cfg k w ctx ip4 secctx from_host false e h

theorem handle_ipv6_policy_of_enter (cfg : Config) (k : Consts) (w : World) (ctx : Pkt)
    (ip6 : Ipv6hdr) (secctx : Nat) (from_host skip : Bool) (e : Entered6)
    (h : handle_ipv6_policy_enter cfg k w ctx ip6 secctx from_host skip = some e) :
    handle_ipv6_policy cfg k w ctx ip6 secctx from_host skip =
      ⟨(handle_ipv6_forward cfg k w e.ctx e.ip6 secctx from_host).ret,
        e.trace ++ (handle_ipv6_forward cfg k w e.ctx e.ip6 secctx from_host).trace⟩ ∧
    ∀ x ∈ e.trace, x.is_forwarding = false := by
  unfold handle_ipv6_policy_enter at h
  unfold handle_ipv6_policy
  by_cases h1 : cfg.ENABLE_HOST_FIREWALL = true
  · simp only [h1, if_true] at h ⊢
    generalize hst : (if from_host = true then ipv6_host_policy_egress k w ctx secctx
      else ipv6_host_policy_ingress k w ctx k.WORLD_ID) = st at h ⊢
    have hsh : StageShape k st := by
      rw [← hst]
      split_ifs
      · exact ipv6_host_policy_egress_shape k w ctx secctx
      · exact ipv6_host_policy_ingress_shape k w ctx k.WORLD_ID
    by_cases h2 : k.IS_ERR st.ret = true
    · simp [h2] at h
    · by_cases h3 : skip = true
      · simp [h2, h3] at h
      · cases h4 : ctx.ip6 with
        | none => simp [h2, h3, h4] at h
        | some ip6' =>
          simp only [h2, h3, h4, if_false, Bool.false_eq_true, Option.some.injEq] at h ⊢
          subst h
          exact ⟨rfl, not_forwarding_of_stage hsh⟩
  · simp only [h1, if_false, Bool.false_eq_true, Option.some.injEq] at h ⊢
    subst h
    simp

theorem handle_ipv6_dmac_of_enter (cfg : Config) (k : Consts) (w : World) (ctx : Pkt)
    (ip6 : Ipv6hdr) (secctx : Nat) (from_host skip : Bool) (e : Entered6)
    (h : handle_ipv6_dmac_enter cfg k w ctx ip6 secctx from_host skip = some e) :
    handle_ipv6_dmac cfg k w ctx ip6 secctx from_host skip =
      ⟨(handle_ipv6_forward cfg k w e.ctx e.ip6 secctx from_host).ret,
        e.trace ++ (handle_ipv6_forward cfg k w e.ctx e.ip6 secctx from_host).trace⟩ ∧
    ∀ x ∈ e.trace, x.is_forwarding = false := by
  unfold handle_ipv6_dmac_enter at h
  unfold handle_ipv6_dmac
  by_cases h1 : from_host = true ∧ skip = false
  · obtain ⟨hf, hs⟩ := h1
    subst hf hs
    simp only [and_self, if_true] at h ⊢
    by_cases h2 : k.IS_ERR (rewrite_dmac_to_host k w ctx secctx).ret = true
    · simp [h2] at h
    · cases h4 : (rewrite_dmac_to_host k w ctx secctx).ctx.ip6 with
      | none => simp [h2, h4] at h
      | some ip6' =>
        simp only [h2, h4, if_false, Bool.false_eq_true] at h ⊢
        cases he' : handle_ipv6_policy_enter cfg k w (rewrite_dmac_to_host k w ctx secctx).ctx
            ip6' secctx true false with
        | none => simp [he'] at h
        | some e' =>
          simp only [he', Option.map_some', Option.some.injEq] at h
          have hp := handle_ipv6_policy_of_enter cfg k w _ _ secctx true false e' he'
          subst h
          simp only [hp.1, List.append_assoc, true_and]
          intro x hx
          rcases List.mem_append.mp hx with hx | hx
          · exact not_forwarding_of_rewrite_dmac k w ctx secctx x hx
          · exact hp.2 x hx
  · simp only [h1, if_false] at h ⊢
    exact handle_ipv6_policy_of_enter cfg k w ctx ip6 secctx from_host skip e h

theorem handle_ipv6_icmp_of_enter (cfg : Config) (k : Consts) (w : World) (ctx : Pkt)
    (ip6 : Ipv6hdr) (secctx : Nat) (from_host skip : Bool) (e : Entered6)
    (h : handle_ipv6_icmp_enter cfg k w ctx ip6 secctx from_host skip = some e) :
    handle_ipv6_icmp cfg k w ctx ip6 secctx from_host skip =
      ⟨(handle_ipv6_forward cfg k w e.ctx e.ip6 secctx from_host).ret,
        e.trace ++ (handle_ipv6_forward cfg k w e.ctx e.ip6 secctx from_host).trace⟩ ∧
    ∀ x ∈ e.trace, x.is_forwarding = false := by
  unfold handle_ipv6_icmp_enter at h
  unfold handle_ipv6_icmp
  by_cases h1 : skip = false
  · subst h1
    simp only [if_true] at h ⊢
    by_cases h2 : w.icmp6_host_handle ctx ip6.nexthdr ≠ 0
    · simp [h2] at h
    · simp only [h2, if_false] at h ⊢
      cases he' : handle_ipv6_dmac_enter cfg k w ctx ip6 secctx from_host false with
      | none => simp [he'] at h
      | some e' =>
        simp only [he', Option.map_some', Option.some.injEq] at h
        have hp := handle_ipv6_dmac_of_enter cfg k w _ _ secctx from_host false e' he'
        subst h
        simp only [hp.1, List.singleton_append, List.cons_append, List.nil_append, true_and]
        intro x hx
        rcases List.mem_cons.mp hx with hx | hx
        · subst hx
          rfl
        · exact hp.2 x hx
  · have h1' : skip = true := by simpa using h1
    subst h1'
    simp only [Bool.true_eq_false, if_false] at h ⊢
    exact handle_ipv6_dmac_of_enter cfg k w ctx ip6 secctx from_host true e h

theorem handle_ipv6_of_enter (cfg : Config) (k : Consts) (w : World) (ctx : Pkt)
    (secctx : Nat) (from_host : Bool) (e : Entered6)
    (h : handle_ipv6_enter cfg k w ctx secctx from_host = some e) :
    handle_ipv6 cfg k w ctx secctx from_host =
      ⟨(handle_ipv6_forward cfg k w e.ctx e.ip6 secctx from_host).ret,
        e.trace ++ (handle_ipv6_forward cfg k w e.ctx e.ip6 secctx from_host).trace⟩ ∧
    ∀ x ∈ e.trace, x.is_forwarding = false := by
  unfold handle_ipv6_enter at h
  unfold handle_ipv6
  cases h0 : ctx.ip6 with
  | none => simp [h0] at h
  | some ip6 =>
    simp only [h0] at h ⊢
    by_cases h1 : cfg.ENABLE_NODEPORT = true ∧ from_host = false
    · obtain ⟨hn, hf⟩ := h1
      subst hf
      simp only [hn, and_self, if_true] at h ⊢
      generalize (decide (w.ctx_get_xfer ctx ≠ k.XFER_PKT_NO_SVC) && !w.bpf_skip_nodeport ctx) =
        call_lb at h ⊢
      by_cases h2 : call_lb = true ∧ (w.nodeport_lb6 ctx secctx).1 < 0
      · simp [h2] at h
      · by_cases h3 : ((cfg.ENCAP_IFINDEX || cfg.NO_REDIRECT) && !cfg.ENABLE_HOST_FIREWALL) = true
        · simp [h2, h3] at h
        · cases h4 : (if call_lb = true then (w.nodeport_lb6 ctx secctx).2 else ctx).ip6 with
          | none => simp [h2, h3, h4] at h
          | some ip6' =>
            simp only [h2, h3, h4, if_false, Bool.false_eq_true] at h ⊢
            cases he' : handle_ipv6_icmp_enter cfg k w
                (if call_lb = true then (w.nodeport_lb6 ctx secctx).2 else ctx) ip6' secctx
                false (cfg.ENCAP_IFINDEX || cfg.NO_REDIRECT) with
            | none => simp [he'] at h
            | some e' =>
              simp only [he', Option.map_some', Option.some.injEq] at h
              have hp := handle_ipv6_icmp_of_enter cfg k w _ _ secctx false _ e' he'
              subst h
              simp only [hp.1, List.append_assoc, true_and]
              intro x hx
              rcases List.mem_append.mp hx with hx | hx
              · split_ifs at hx <;> simp at hx
                subst hx
                rfl
              · exact hp.2 x hx
    · simp only [h1, if_false] at h ⊢
      exact handle_ipv6_icmp_of_enter cfg k w ctx ip6 secctx from_host false e h

/-! ## The forwarding decision -/

theorem not_encap_lookup_of_not_forwarding (x : Event) (h : x.is_forwarding = false) :
    x.is_encap = false ∧ x.is_ipcache_lookup = false := by
  cases x <;> simp_all [Event.is_forwarding, Event.is_encap, Event.is_ipcache_lookup]

/-- C13: in `handle_ipv4` (without HOST_REDIRECT_TO_INGRESS) and `handle_ipv6`,
for every packet with which the forwarding part is entered (the earlier stages
did not return and `skip_redirect` is false) and whose destination matches a
local endpoint `ep`: the result is CTX_ACT_OK when `ep` has the
ENDPOINT_F_HOST flag, and otherwise the result of the local delivery to `ep`
with the identity `secctx`; in both cases the run contains no tunnel
encapsulation attempt and no ipcache lookup of the destination, so the
unroutable check is never reached. -/
theorem local_endpoint_first (cfg : Config) (k : Consts) (w : World) (ctx : Pkt)
    (secctx : Nat) (from_host : Bool) :
    (∀ (e : Entered4) (ep : EndpointInfo),
      handle_ipv4_enter cfg k w ctx secctx from_host = some e →
      cfg.HOST_REDIRECT_TO_INGRESS = false → w.lookup_ip4_endpoint e.ip4 = some ep →
      handle_ipv4 cfg k w ctx secctx from_host =
        (if ep.flags &&& k.ENDPOINT_F_HOST ≠ 0 then ⟨k.CTX_ACT_OK, e.trace⟩
         else ⟨w.ipv4_local_delivery e.ctx secctx e.ip4 ep from_host,
           e.trace ++ [Event.local_delivery false secctx ep from_host
             (w.ipv4_local_delivery e.ctx secctx e.ip4 ep from_host)]⟩) ∧
      ∀ x ∈ (handle_ipv4 cfg k w ctx secctx from_host).trace,
        x.is_encap = false ∧ x.is_ipcache_lookup = false) ∧
    (∀ (e : Entered6) (ep : EndpointInfo),
      handle_ipv6_enter cfg k w ctx secctx from_host = some e →
      w.lookup_ip6_endpoint e.ip6 = some ep →
      handle_ipv6 cfg k w ctx secctx from_host =
        (if ep.flags &&& k.ENDPOINT_F_HOST ≠ 0 then ⟨k.CTX_ACT_OK, e.trace⟩
         else ⟨w.ipv6_local_delivery e.ctx secctx ep from_host,
           e.trace ++ [Event.local_delivery true secctx ep from_host
             (w.ipv6_local_delivery e.ctx secctx ep from_host)]⟩) ∧
      ∀ x ∈ (handle_ipv6 cfg k w ctx secctx from_host).trace,
        x.is_encap = false ∧ x.is_ipcache_lookup = false) := by
  constructor
  · intro e ep he hR hep
    obtain ⟨heq, hpre⟩ := handle_ipv4_of_enter cfg k w ctx secctx from_host e he
    have hf : handle_ipv4_forward cfg k w e.ctx e.ip4 secctx from_host =
        (if ep.flags &&& k.ENDPOINT_F_HOST ≠ 0 then ⟨k.CTX_ACT_OK, []⟩
         else ⟨w.ipv4_local_delivery e.ctx secctx e.ip4 ep from_host,
           [Event.local_delivery false secctx ep from_host
             (w.ipv4_local_delivery e.ctx secctx e.ip4 ep from_host)]⟩) := by
      simp [handle_ipv4_forward, hep, hR]
    rw [heq, hf]
    by_cases hflag : ep.flags &&& k.ENDPOINT_F_HOST ≠ 0
    · rw [if_pos hflag, if_pos hflag]
      refine ⟨by simp, ?_⟩
      intro x hx
      simp only [List.append_nil] at hx
      exact not_encap_lookup_of_not_forwarding x (hpre x hx)
    · rw [if_neg hflag, if_neg hflag]
      refine ⟨rfl, ?_⟩
      intro x hx
      rcases List.mem_append.mp hx with hx | hx
      · exact not_encap_lookup_of_not_forwarding x (hpre x hx)
      · rw [List.mem_singleton.mp hx]
        exact ⟨rfl, rfl⟩
  · intro e ep he hep
    obtain ⟨heq, hpre⟩ := handle_ipv6_of_enter cfg k w ctx secctx from_host e he
    have hf : handle_ipv6_forward cfg k w e.ctx e.ip6 secctx from_host =
        (if ep.flags &&& k.ENDPOINT_F_HOST ≠ 0 then ⟨k.CTX_ACT_OK, []⟩
         else ⟨w.ipv6_local_delivery e.ctx secctx ep from_host,
           [Event.local_delivery true secctx ep from_host
             (w.ipv6_local_delivery e.ctx secctx ep from_host)]⟩) := by
      simp [handle_ipv6_forward, hep]
    rw [heq, hf]
    by_cases hflag : ep.flags &&& k.ENDPOINT_F_HOST ≠ 0
    · rw [if_pos hflag, if_pos hflag]
      refine ⟨by simp, ?_⟩
      intro x hx
      simp only [List.append_nil] at hx
      exact not_encap_lookup_of_not_forwarding x (hpre x hx)
    · rw [if_neg hflag, if_neg hflag]
      refine ⟨rfl, ?_⟩
      intro x hx
      rcases List.mem_append.mp hx with hx | hx
      · exact not_encap_lookup_of_not_forwarding x (hpre x hx)
      · rw [List.mem_singleton.mp hx]
        exact ⟨rfl, rfl⟩

/-- Example for C13: a packet from the network to an address of the host is
passed to the stack, with no event at all. -/
theorem local_endpoint_first_witness :
    handle_ipv4 {} consts0 world_host4 pkt_scn 200 false = ⟨consts0.CTX_ACT_OK, []⟩ := by
  have h := ((local_endpoint_first {} consts0 world_host4 pkt_scn 200 false).1
    ⟨pkt_scn, { saddr := addr_10_0_0_5, daddr := addr_10_0_0_1, protocol := 6 }, []⟩
    { flags := 1, lxc_id := 0 } (by decide) rfl rfl).1
  rw [h]
  decide

/-- C14: with ENCAP_IFINDEX, in `handle_ipv4` and `handle_ipv6`, for every
packet with which the forwarding part is entered, whose destination is not a
local endpoint and whose ipcache entry `i` has a nonzero tunnel endpoint: the
encapsulation service is called with `i.tunnel_endpoint`, `i.key` and the
identity `secctx`; the result is CTX_ACT_OK if the service returns
IPSEC_ENDPOINT and the service result otherwise; and these two events are the
only forwarding events of the run, so the unroutable check (the second ipcache
lookup) is not reached. -/
theorem tunnel_encap (cfg : Config) (k : Consts) (w : World) (ctx : Pkt)
    (secctx : Nat) (from_host : Bool) (hE : cfg.ENCAP_IFINDEX = true) :
    (∀ (e : Entered4) (i : RemoteEndpointInfo),
      handle_ipv4_enter cfg k w ctx secctx from_host = some e →
      w.lookup_ip4_endpoint e.ip4 = none → w.ipcache_lookup4 e.ip4.daddr = some i →
      i.tunnel_endpoint ≠ 0 →
      handle_ipv4 cfg k w ctx secctx from_host =
        ⟨if w.encap_and_redirect_with_nodeid e.ctx i.tunnel_endpoint i.key secctx
              = k.IPSEC_ENDPOINT then k.CTX_ACT_OK
          else w.encap_and_redirect_with_nodeid e.ctx i.tunnel_endpoint i.key secctx,
          e.trace ++ [Event.ipcache_lookup LookupSite.encap false (some i),
            Event.encap_with_nodeid i.tunnel_endpoint i.key secctx
              (w.encap_and_redirect_with_nodeid e.ctx i.tunnel_endpoint i.key secctx)]⟩ ∧
      ∀ x ∈ e.trace, x.is_forwarding = false) ∧
    (∀ (e : Entered6) (i : RemoteEndpointInfo),
      handle_ipv6_enter cfg k w ctx secctx from_host = some e →
      w.lookup_ip6_endpoint e.ip6 = none → w.ipcache_lookup6 e.ip6.daddr = some i →
      i.tunnel_endpoint ≠ 0 →
      handle_ipv6 cfg k w ctx secctx from_host =
        ⟨if w.encap_and_redirect_with_nodeid e.ctx i.tunnel_endpoint i.key secctx
              = k.IPSEC_ENDPOINT then k.CTX_ACT_OK
          else w.encap_and_redirect_with_nodeid e.ctx i.tunnel_endpoint i.key secctx,
          e.trace ++ [Event.ipcache_lookup LookupSite.encap true (some i),
            Event.encap_with_nodeid i.tunnel_endpoint i.key secctx
              (w.encap_and_redirect_with_nodeid e.ctx i.tunnel_endpoint i.key secctx)]⟩ ∧
      ∀ x ∈ e.trace, x.is_forwarding = false) := by
  constructor
  · intro e i he hep hi ht
    obtain ⟨heq, hpre⟩ := handle_ipv4_of_enter cfg k w ctx secctx from_host e he
    refine ⟨?_, hpre⟩
    rw [heq]
    simp only [handle_ipv4_forward, hep, handle_ipv4_encap, hE, if_true, hi, ht, ne_eq,
      not_false_eq_true]
    by_cases hr : w.encap_and_redirect_with_nodeid e.ctx i.tunnel_endpoint i.key secctx
        = k.IPSEC_ENDPOINT
    · simp [hr]
    · simp [hr]
  · intro e i he hep hi ht
    obtain ⟨heq, hpre⟩ := handle_ipv6_of_enter cfg k w ctx secctx from_host e he
    refine ⟨?_, hpre⟩
    rw [heq]
    simp only [handle_ipv6_forward, hep, handle_ipv6_encap, hE, if_true, hi, ht, ne_eq,
      not_false_eq_true]
    by_cases hr : w.encap_and_redirect_with_nodeid e.ctx i.tunnel_endpoint i.key secctx
        = k.IPSEC_ENDPOINT
    · simp [hr]
    · simp [hr]

/-- Example for C14: a packet from the network to a destination behind the
tunnel endpoint 192.168.1.1 is handed to the encapsulation service with that
endpoint, key 3 and identity 200, and the service result 7 is returned. -/
theorem tunnel_encap_witness :
    handle_ipv4 { ENCAP_IFINDEX := true } consts0 world_tunnel4 pkt_scn 200 false =
      ⟨7, [Event.ipcache_lookup LookupSite.encap false
              (some { sec_label := 200, tunnel_endpoint := 3232235777, key := 3 }),
            Event.encap_with_nodeid 3232235777 3 200 7]⟩ := by
  have h := ((tunnel_encap { ENCAP_IFINDEX := true } consts0 world_tunnel4 pkt_scn 200 false
    rfl).1
    ⟨pkt_scn, { saddr := addr_10_0_0_5, daddr := addr_10_0_0_1, protocol := 6 }, []⟩
    { sec_label := 200, tunnel_endpoint := 3232235777, key := 3 }
    (by decide) rfl rfl (by decide)).1
  rw [h]
  decide

theorem handle_ipv4_route_ret (cfg : Config) (k : Consts) (w : World) (ctx : Pkt)
    (ip4 : Iphdr) (secctx : Nat) (from_host : Bool) :
    (cfg.HOST_REDIRECT_TO_INGRESS = true →
      (handle_ipv4_route cfg k w ctx ip4 secctx from_host).ret = w.redirect_host_ingress ctx) ∧
    (cfg.HOST_REDIRECT_TO_INGRESS = false → from_host = false →
      (handle_ipv4_route cfg k w ctx ip4 secctx from_host).ret = k.CTX_ACT_OK) ∧
    (cfg.HOST_REDIRECT_TO_INGRESS = false →
      (handle_ipv4_route cfg k w ctx ip4 secctx from_host).ret = k.CTX_ACT_OK ∨
      (handle_ipv4_route cfg k w ctx ip4 secctx from_host).ret = k.DROP_UNROUTABLE) := by
  refine ⟨?_, ?_, ?_⟩
  · intro h
    simp [handle_ipv4_route, h]
  · intro h hf
    simp [handle_ipv4_route, h, hf]
  · intro h
    unfold handle_ipv4_route
    simp only [h, Bool.false_eq_true, if_false]
    split_ifs
    · exact Or.inr rfl
    · exact Or.inl rfl

theorem handle_ipv6_route_ret (cfg : Config) (k : Consts) (w : World)
    (ip6 : Ipv6hdr) (secctx : Nat) (from_host : Bool) :
    (from_host = false →
      (handle_ipv6_route cfg k w ip6 secctx from_host).ret = k.CTX_ACT_OK) ∧
    ((handle_ipv6_route cfg k w ip6 secctx from_host).ret = k.CTX_ACT_OK ∨
      (handle_ipv6_route cfg k w ip6 secctx from_host).ret = k.DROP_UNROUTABLE) := by
  refine ⟨?_, ?_⟩
  · intro hf
    simp [handle_ipv6_route, hf]
  · unfold handle_ipv6_route
    dsimp only
    split_ifs
    · exact Or.inr rfl
    · exact Or.inl rfl

theorem handle_ipv4_encap_fallback (cfg : Config) (k : Consts) (w : World) (ctx : Pkt)
    (ip4 : Iphdr) (secctx : Nat) (from_host : Bool)
    (hne : k.DROP_NO_TUNNEL_ENDPOINT ≠ k.IPSEC_ENDPOINT) (hE : cfg.ENCAP_IFINDEX = true)
    (hi : ∀ i, w.ipcache_lookup4 ip4.daddr = some i → i.tunnel_endpoint = 0)
    (hr : w.encap_and_redirect_netdev ctx
        { ip4 := ip4.daddr &&& k.IPV4_MASK, family := k.ENDPOINT_KEY_IPV4 } secctx
      = k.DROP_NO_TUNNEL_ENDPOINT) :
    (handle_ipv4_encap cfg k w ctx ip4 secctx from_host).ret =
      (handle_ipv4_route cfg k w ctx ip4 secctx from_host).ret := by
  unfold handle_ipv4_encap
  simp only [hE, if_true]
  cases hinfo : w.ipcache_lookup4 ip4.daddr with
  | none => simp [hr, hne]
  | some i => simp [hi i hinfo, hr, hne]

theorem handle_ipv6_encap_fallback (cfg : Config) (k : Consts) (w : World) (ctx : Pkt)
    (ip6 : Ipv6hdr) (secctx : Nat) (from_host : Bool)
    (hne : k.DROP_NO_TUNNEL_ENDPOINT ≠ k.IPSEC_ENDPOINT) (hE : cfg.ENCAP_IFINDEX = true)
    (hi : ∀ i, w.ipcache_lookup6 ip6.daddr = some i → i.tunnel_endpoint = 0)
    (hr : w.encap_and_redirect_netdev ctx
        { ip6 := { p1 := ip6.daddr.p1, p2 := ip6.daddr.p2, p3 := ip6.daddr.p3, p4 := 0 },
          family := k.ENDPOINT_KEY_IPV6 } secctx
      = k.DROP_NO_TUNNEL_ENDPOINT) :
    (handle_ipv6_encap cfg k w ctx ip6 secctx from_host).ret =
      (handle_ipv6_route cfg k w ip6 secctx from_host).ret := by
  unfold handle_ipv6_encap
  simp only [hE, if_true]
  cases hinfo : w.ipcache_lookup6 ip6.daddr with
  | none => simp [hr, hne]
  | some i => simp [hi i hinfo, hr, hne]

/-- C15 (amended): with ENCAP_IFINDEX and DROP_NO_TUNNEL_ENDPOINT distinct
from IPSEC_ENDPOINT, for every packet with which the forwarding part of
`handle_ipv4` or `handle_ipv6` is entered, whose destination is not a local
endpoint, whose ipcache entry names no tunnel endpoint, and for which
`encap_and_redirect_netdev` reports DROP_NO_TUNNEL_ENDPOINT: the result is the
result of the last part of the function. For `handle_ipv4` with
HOST_REDIRECT_TO_INGRESS that is the result of the redirect to the host
interface; otherwise (always for `handle_ipv6`) it is CTX_ACT_OK for a packet
not originated by the host, and CTX_ACT_OK or DROP_UNROUTABLE in general. -/
theorem no_tunnel_endpoint_fallback (cfg : Config) (k : Consts) (w : World) (ctx : Pkt)
    (secctx : Nat) (from_host : Bool)
    (hne : k.DROP_NO_TUNNEL_ENDPOINT ≠ k.IPSEC_ENDPOINT) (hE : cfg.ENCAP_IFINDEX = true) :
    (∀ e : Entered4,
      handle_ipv4_enter cfg k w ctx secctx from_host = some e →
      w.lookup_ip4_endpoint e.ip4 = none →
      (∀ i, w.ipcache_lookup4 e.ip4.daddr = some i → i.tunnel_endpoint = 0) →
      w.encap_and_redirect_netdev e.ctx
        { ip4 := e.ip4.daddr &&& k.IPV4_MASK, family := k.ENDPOINT_KEY_IPV4 } secctx
        = k.DROP_NO_TUNNEL_ENDPOINT →
      (handle_ipv4 cfg k w ctx secctx from_host).ret =
        (handle_ipv4_route cfg k w e.ctx e.ip4 secctx from_host).ret ∧
      (cfg.HOST_REDIRECT_TO_INGRESS = true →
        (handle_ipv4 cfg k w ctx secctx from_host).ret = w.redirect_host_ingress e.ctx) ∧
      (cfg.HOST_REDIRECT_TO_INGRESS = false → from_host = false →
        (handle_ipv4 cfg k w ctx secctx from_host).ret = k.CTX_ACT_OK) ∧
      (cfg.HOST_REDIRECT_TO_INGRESS = false →
        (handle_ipv4 cfg k w ctx secctx from_host).ret = k.CTX_ACT_OK ∨
        (handle_ipv4 cfg k w ctx secctx from_host).ret = k.DROP_UNROUTABLE)) ∧
    (∀ e : Entered6,
      handle_ipv6_enter cfg k w ctx secctx from_host = some e →
      w.lookup_ip6_endpoint e.ip6 = none →
      (∀ i, w.ipcache_lookup6 e.ip6.daddr = some i → i.tunnel_endpoint = 0) →
      w.encap_and_redirect_netdev e.ctx
        { ip6 := { p1 := e.ip6.daddr.p1, p2 := e.ip6.daddr.p2, p3 := e.ip6.daddr.p3, p4 := 0 },
          family := k.ENDPOINT_KEY_IPV6 } secctx
        = k.DROP_NO_TUNNEL_ENDPOINT →
      (handle_ipv6 cfg k w ctx secctx from_host).ret =
        (handle_ipv6_route cfg k w e.ip6 secctx from_host).ret ∧
      (from_host = false → (handle_ipv6 cfg k w ctx secctx from_host).ret = k.CTX_ACT_OK) ∧
      ((handle_ipv6 cfg k w ctx secctx from_host).ret = k.CTX_ACT_OK ∨
        (handle_ipv6 cfg k w ctx secctx from_host).ret = k.DROP_UNROUTABLE)) := by
  constructor
  · intro e he hep hi hr
    obtain ⟨heq, -⟩ := handle_ipv4_of_enter cfg k w ctx secctx from_host e he
    have hret : (handle_ipv4 cfg k w ctx secctx from_host).ret =
        (handle_ipv4_route cfg k w e.ctx e.ip4 secctx from_host).ret := by
      rw [heq]
      simp only [handle_ipv4_forward, hep]
      exact handle_ipv4_encap_fallback cfg k w e.ctx e.ip4 secctx from_host hne hE hi hr
    rw [hret]
    exact ⟨rfl, handle_ipv4_route_ret cfg k w e.ctx e.ip4 secctx from_host⟩
  · intro e he hep hi hr
    obtain ⟨heq, -⟩ := handle_ipv6_of_enter cfg k w ctx secctx from_host e he
    have hret : (handle_ipv6 cfg k w ctx secctx from_host).ret =
        (handle_ipv6_route cfg k w e.ip6 secctx from_host).ret := by
      rw [heq]
      simp only [handle_ipv6_forward, hep]
      exact handle_ipv6_encap_fallback cfg k w e.ctx e.ip6 secctx from_host hne hE hi hr
    rw [hret]
    exact ⟨rfl, handle_ipv6_route_ret cfg k w e.ip6 secctx from_host⟩

/-- Example for C15: without HOST_REDIRECT_TO_INGRESS a packet from the network
for which no tunnel endpoint exists is passed to the stack. -/
theorem no_tunnel_endpoint_fallback_witness :
    consts0.DROP_NO_TUNNEL_ENDPOINT ≠ consts0.IPSEC_ENDPOINT ∧
    (handle_ipv4 { ENCAP_IFINDEX := true } consts0 world_no_tunnel pkt_scn 200 false).ret
      = consts0.CTX_ACT_OK :=
  ⟨by decide,
    ((no_tunnel_endpoint_fallback { ENCAP_IFINDEX := true } consts0 world_no_tunnel pkt_scn 200
      false (by decide) rfl).1
      ⟨pkt_scn, { saddr := addr_10_0_0_5, daddr := addr_10_0_0_1, protocol := 6 }, []⟩
      (by decide) rfl (fun i h => by cases h) rfl).2.2.1 rfl rfl⟩

/-- Counterexample to C15 as stated: with ENCAP_IFINDEX and
HOST_REDIRECT_TO_INGRESS, a packet from the network (not originated by the
host) whose destination has no tunnel endpoint, and for which
`encap_and_redirect_netdev` reports DROP_NO_TUNNEL_ENDPOINT, is not passed to
the stack: `handle_ipv4` returns the result of the redirect (7 here). -/
theorem no_tunnel_redirects_to_host :
    world_no_tunnel.ipcache_lookup4 addr_10_0_0_1 = none ∧
    world_no_tunnel.encap_and_redirect_netdev pkt_scn
      { ip4 := addr_10_0_0_1 &&& consts0.IPV4_MASK, family := consts0.ENDPOINT_KEY_IPV4 } 200
      = consts0.DROP_NO_TUNNEL_ENDPOINT ∧
    handle_ipv4 { ENCAP_IFINDEX := true, HOST_REDIRECT_TO_INGRESS := true } consts0
        world_no_tunnel pkt_scn 200 false =
      ⟨7, [Event.ipcache_lookup LookupSite.encap false none,
        Event.encap_netdev
          { ip4 := addr_10_0_0_1 &&& consts0.IPV4_MASK, family := consts0.ENDPOINT_KEY_IPV4 }
          200 (-160),
        Event.redirect_host_ingress 7]⟩ ∧
    (7 : Int) ≠ consts0.CTX_ACT_OK := by
  decide

/-! ## Error paths -/

/-- C11 (the to-netdev IPv4 path at an unreadable header): with the host
firewall, whenever the frame has the IPv4 ethertype and its IP header cannot be
read, `ipcache_lookup_srcid4` returns DROP_INVALID converted to `__u32`; when
that value differs from HOST_ID, `ipv4_host_policy_egress` takes it for the
identity of a packet that is not from the host, and `to_netdev` returns
CTX_ACT_OK without any drop notification. At the concrete input `pkt_short4`
the result is CTX_ACT_OK with an empty trace, while the IPv6 frame `pkt_short6`
with an unreadable header is dropped with reason DROP_INVALID. -/
theorem unreadable_ipv4_header_not_dropped :
    (∀ (cfg : Config) (k : Consts) (w : World) (ctx : Pkt),
      cfg.ENABLE_HOST_FIREWALL = true → cfg.ENABLE_IPV4 = true → cfg.ENABLE_NODEPORT = false →
      w.validate_ethertype ctx = (true, k.ETH_P_IP) →
      k.ETH_P_IP ≠ k.ETH_P_ARP → k.ETH_P_IP ≠ k.ETH_P_IPV6 →
      (w.policy_clear_mark ctx).ip4 = none →
      u32_of_int k.DROP_INVALID ≠ k.HOST_ID → k.IS_ERR k.CTX_ACT_OK = false →
      to_netdev cfg k w ctx = ⟨k.CTX_ACT_OK, []⟩) ∧
    pkt_short4.ip4 = none ∧
    ipcache_lookup_srcid4 consts0 world0 pkt_short4 = ⟨4294967162, []⟩ ∧
    to_netdev { ENABLE_HOST_FIREWALL := true } consts0 world0 pkt_short4 =
      ⟨consts0.CTX_ACT_OK, []⟩ ∧
    to_netdev { ENABLE_HOST_FIREWALL := true } consts0 world0 pkt_short6 =
      ⟨consts0.CTX_ACT_DROP,
        [Event.drop_notify_error 0 consts0.DROP_INVALID consts0.CTX_ACT_DROP Dir.egress]⟩ := by
  refine ⟨?_, by decide, by decide, by decide, by decide⟩
  intro cfg k w ctx hfw h4 hnp hv hpa hp6 hhdr hid hok
  have hs : ipcache_lookup_srcid4 k w (w.policy_clear_mark ctx) =
      ⟨u32_of_int k.DROP_INVALID, []⟩ := by
    simp [ipcache_lookup_srcid4, hhdr]
  have hst : ipv4_host_policy_egress k w (w.policy_clear_mark ctx) (u32_of_int k.DROP_INVALID) =
      ⟨k.CTX_ACT_OK, u32_of_int k.DROP_INVALID, []⟩ := by
    unfold ipv4_host_policy_egress
    rw [if_pos hid]
  have hp : to_netdev_policy k w cfg ctx =
      (k.CTX_ACT_OK, u32_of_int k.DROP_INVALID, w.policy_clear_mark ctx, []) := by
    unfold to_netdev_policy
    simp [hv, hpa, hp6, h4, hs, hst]
  unfold to_netdev
  simp [hfw, hp, hok, to_netdev_nat, hnp]

/-- C12 (a failed destination-MAC rewrite on the host-originated path): when
`eth_store_daddr` fails, `rewrite_dmac_to_host` issues the drop notification
with reason DROP_WRITE_ERROR and exit code CTX_ACT_OK, so (taking
`send_drop_notify_error` to yield the exit code it is given) it returns
CTX_ACT_OK and the caller's test `IS_ERR(ret)` does not fire. At the concrete
input, `handle_ipv4` and `handle_ipv6` go on after the notification: they
deliver the packet to the local endpoint and return CTX_ACT_OK, and with the
host firewall the egress host policy is evaluated before the delivery. -/
theorem dmac_write_failure_not_dropped :
    (∀ (k : Consts) (w : World) (ctx : Pkt) (src : Nat),
      (w.eth_store_daddr ctx).1 < 0 →
      (∀ s e c d, w.send_drop_notify_error s e c d = c) → k.IS_ERR k.CTX_ACT_OK = false →
      (rewrite_dmac_to_host k w ctx src).ret = k.CTX_ACT_OK ∧
      k.IS_ERR (rewrite_dmac_to_host k w ctx src).ret = false ∧
      (rewrite_dmac_to_host k w ctx src).trace =
        [Event.eth_store_daddr (w.eth_store_daddr ctx).1,
          Event.drop_notify_error src k.DROP_WRITE_ERROR k.CTX_ACT_OK Dir.ingress]) ∧
    handle_ipv4 {} consts0 world_dmac_fail pkt_host_src 1 true =
      ⟨consts0.CTX_ACT_OK,
        [Event.eth_store_daddr (-1),
          Event.drop_notify_error 1 consts0.DROP_WRITE_ERROR consts0.CTX_ACT_OK Dir.ingress,
          Event.local_delivery false 1 { flags := 0, lxc_id := 5 } true 0]⟩ ∧
    handle_ipv6 {} consts0 world_dmac_fail pkt_from_host6 1 true =
      ⟨consts0.CTX_ACT_OK,
        [Event.icmp6_host_handle 6 0, Event.eth_store_daddr (-1),
          Event.drop_notify_error 1 consts0.DROP_WRITE_ERROR consts0.CTX_ACT_OK Dir.ingress,
          Event.local_delivery true 1 { flags := 0, lxc_id := 5 } true 0]⟩ ∧
    (handle_ipv4 { ENABLE_HOST_FIREWALL := true } consts0 world_dmac_fail pkt_host_src 1
      true).ret = consts0.CTX_ACT_OK ∧
    (∃ e ∈ (handle_ipv4 { ENABLE_HOST_FIREWALL := true } consts0 world_dmac_fail pkt_host_src 1
      true).trace, e.is_policy_eval = true) ∧
    (∃ e ∈ (handle_ipv4 { ENABLE_HOST_FIREWALL := true } consts0 world_dmac_fail pkt_host_src 1
      true).trace, e.is_forwarding = true) := by
  refine ⟨?_, by decide, by decide, by decide, by decide, by decide⟩
  intro k w ctx src hfail hsd hok
  have hret : (rewrite_dmac_to_host k w ctx src).ret = k.CTX_ACT_OK := by
    unfold rewrite_dmac_to_host
    simp only [hfail, if_true]
    exact hsd _ _ _ _
  refine ⟨hret, by rw [hret]; exact hok, ?_⟩
  unfold rewrite_dmac_to_host
  simp only [hfail, if_true]

/-! ## The transfer to the per-protocol handler -/

theorem resolve_srcid_ipv4_no_tail_call (cfg : Config) (k : Consts) (w : World) (ctx : Pkt)
    (id : Nat) (from_host : Bool) :
    ∀ x ∈ (resolve_srcid_ipv4 cfg k w ctx id from_host).trace, x.is_tail_call = false := by
  intro x hx
  unfold resolve_srcid_ipv4 at hx
  cases hip : ctx.ip4 with
  | none => simp [hip] at hx
  | some ip4 =>
    simp only [hip] at hx
    split_ifs at hx <;> simp at hx <;> subst hx <;> rfl

theorem resolve_srcid_ipv6_no_tail_call (cfg : Config) (k : Consts) (w : World) (ctx : Pkt)
    (id : Nat) (from_host : Bool) :
    ∀ x ∈ (resolve_srcid_ipv6 cfg k w ctx id from_host).trace, x.is_tail_call = false := by
  intro x hx
  unfold resolve_srcid_ipv6 at hx
  cases hip : ctx.ip6 with
  | none => simp [hip] at hx
  | some ip6 =>
    simp only [hip] at hx
    split_ifs at hx <;> simp at hx <;> subst hx <;> rfl

theorem find_first_tail_call (pre rest : List Event) (slot : Nat) (taken : Bool)
    (hpre : ∀ x ∈ pre, x.is_tail_call = false) :
    (pre ++ Event.ep_tail_call slot taken :: rest).find? Event.is_tail_call =
      some (Event.ep_tail_call slot taken) := by
  induction pre with
  | nil => simp [Event.is_tail_call]
  | cons a l ih =>
    have ha : a.is_tail_call = false := hpre a (List.mem_cons_self a l)
    simp only [List.cons_append, List.find?_cons, ha]
    exact ih (fun x hx => hpre x (List.mem_cons_of_mem a hx))

theorem do_netdev_ipv4_missed (cfg : Config) (k : Consts) (w : World) (ctx : Pkt)
    (identity : Nat) (from_host : Bool) (slot : Nat)
    (h : (do_netdev_ipv4 cfg k w ctx identity from_host).trace.find? Event.is_tail_call =
      some (Event.ep_tail_call slot false)) :
    slot = (if from_host then k.CILIUM_CALL_IPV4_FROM_HOST else k.CILIUM_CALL_IPV4_FROM_LXC) ∧
    w.tail_call_present slot = false ∧
    do_netdev_ipv4 cfg k w ctx identity from_host =
      ⟨w.send_drop_notify_error (resolve_srcid_ipv4 cfg k w ctx identity from_host).id
          k.DROP_MISSED_TAIL_CALL k.CTX_ACT_OK Dir.ingress,
        (resolve_srcid_ipv4 cfg k w ctx identity from_host).trace ++
          [Event.ep_tail_call slot false,
            Event.drop_notify_error (resolve_srcid_ipv4 cfg k w ctx identity from_host).id
              k.DROP_MISSED_TAIL_CALL k.CTX_ACT_OK Dir.ingress]⟩ := by
  have hpre := resolve_srcid_ipv4_no_tail_call cfg k w ctx identity from_host
  unfold do_netdev_ipv4 at h ⊢
  by_cases hp : w.tail_call_present
      (if from_host then k.CILIUM_CALL_IPV4_FROM_HOST else k.CILIUM_CALL_IPV4_FROM_LXC) = true
  · simp only [hp, if_true, List.append_assoc, List.singleton_append] at h
    rw [find_first_tail_call _ _ _ _ hpre] at h
    simp at h
  · simp only [hp, if_false, Bool.false_eq_true] at h ⊢
    rw [find_first_tail_call _ _ _ _ hpre] at h
    simp only [Option.some.injEq, Event.ep_tail_call.injEq, and_true] at h
    subst h
    exact ⟨rfl, by simpa using hp, rfl⟩

theorem do_netdev_ipv6_missed (cfg : Config) (k : Consts) (w : World) (ctx : Pkt)
    (identity : Nat) (from_host : Bool) (slot : Nat)
    (h : (do_netdev_ipv6 cfg k w ctx identity from_host).trace.find? Event.is_tail_call =
      some (Event.ep_tail_call slot false)) :
    slot = (if from_host then k.CILIUM_CALL_IPV6_FROM_HOST else k.CILIUM_CALL_IPV6_FROM_LXC) ∧
    w.tail_call_present slot = false ∧
    do_netdev_ipv6 cfg k w ctx identity from_host =
      ⟨w.send_drop_notify_error (resolve_srcid_ipv6 cfg k w ctx identity from_host).id
          k.DROP_MISSED_TAIL_CALL k.CTX_ACT_OK Dir.ingress,
        (resolve_srcid_ipv6 cfg k w ctx identity from_host).trace ++
          [Event.ep_tail_call slot false,
            Event.drop_notify_error (resolve_srcid_ipv6 cfg k w ctx identity from_host).id
              k.DROP_MISSED_TAIL_CALL k.CTX_ACT_OK Dir.ingress]⟩ := by
  have hpre := resolve_srcid_ipv6_no_tail_call cfg k w ctx identity from_host
  unfold do_netdev_ipv6 at h ⊢
  by_cases hp : w.tail_call_present
      (if from_host then k.CILIUM_CALL_IPV6_FROM_HOST else k.CILIUM_CALL_IPV6_FROM_LXC) = true
  · simp only [hp, if_true, List.append_assoc, List.singleton_append] at h
    rw [find_first_tail_call _ _ _ _ hpre] at h
    simp at h
  · simp only [hp, if_false, Bool.false_eq_true] at h ⊢
    rw [find_first_tail_call _ _ _ _ hpre] at h
    simp only [Option.some.injEq, Event.ep_tail_call.injEq, and_true] at h
    subst h
    exact ⟨rfl, by simpa using hp, rfl⟩

theorem do_netdev_switch_missed (cfg : Config) (k : Consts) (w : World) (ctx : Pkt)
    (proto identity : Nat) (from_host : Bool) (slot : Nat)
    (h : (do_netdev_switch cfg k w ctx proto identity from_host).trace.find?
      Event.is_tail_call = some (Event.ep_tail_call slot false)) :
    w.tail_call_present slot = false ∧ (proto = k.ETH_P_IPV6 ∨ proto = k.ETH_P_IP) ∧
    ∃ id pre, do_netdev_switch cfg k w ctx proto identity from_host =
      ⟨w.send_drop_notify_error id k.DROP_MISSED_TAIL_CALL k.CTX_ACT_OK Dir.ingress,
        pre ++ [Event.ep_tail_call slot false,
          Event.drop_notify_error id k.DROP_MISSED_TAIL_CALL k.CTX_ACT_OK Dir.ingress]⟩ := by
  unfold do_netdev_switch at h ⊢
  by_cases h1 : (cfg.ENABLE_ARP_PASSTHROUGH || cfg.ENABLE_ARP_RESPONDER) = true ∧
      proto = k.ETH_P_ARP
  · rw [if_pos h1] at h
    simp at h
  · rw [if_neg h1] at h ⊢
    by_cases h2 : cfg.ENABLE_IPV6 = true ∧ proto = k.ETH_P_IPV6
    · rw [if_pos h2] at h ⊢
      obtain ⟨-, hp, heq⟩ := do_netdev_ipv6_missed cfg k w ctx identity from_host slot h
      exact ⟨hp, Or.inl h2.2, _, _, heq⟩
    · rw [if_neg h2] at h ⊢
      by_cases h3 : cfg.ENABLE_IPV4 = true ∧ proto = k.ETH_P_IP
      · rw [if_pos h3] at h ⊢
        obtain ⟨-, hp, heq⟩ := do_netdev_ipv4_missed cfg k w ctx identity from_host slot h
        exact ⟨hp, Or.inr h3.2, _, _, heq⟩
      · rw [if_neg h3] at h
        by_cases h4 : cfg.ENABLE_HOST_FIREWALL = true
        · simp [h4, Event.is_tail_call] at h
        · simp [h4] at h

/-- C18: in `do_netdev`, for both values of `from_host`, whenever the first
tail call of the run (the transfer to the per-protocol handler) is not taken,
the packet is an IPv4 or IPv6 packet, the run ends with the drop notification
issued with reason DROP_MISSED_TAIL_CALL and exit code CTX_ACT_OK, and (taking
`send_drop_notify_error` to yield the exit code it is given) `do_netdev`
returns CTX_ACT_OK: the packet is passed to the stack, not dropped. -/
theorem missed_tail_call_passes (cfg : Config) (k : Consts) (w : World) (ctx : Pkt)
    (proto : Nat) (from_host : Bool) (slot : Nat)
    (hsd : ∀ s e c d, w.send_drop_notify_error s e c d = c)
    (hmiss : (do_netdev cfg k w ctx proto from_host).trace.find? Event.is_tail_call =
      some (Event.ep_tail_call slot false)) :
    (do_netdev cfg k w ctx proto from_host).ret = k.CTX_ACT_OK ∧
    w.tail_call_present slot = false ∧ (proto = k.ETH_P_IPV6 ∨ proto = k.ETH_P_IP) ∧
    ∃ identity pre, (do_netdev cfg k w ctx proto from_host).trace =
      pre ++ [Event.ep_tail_call slot false,
        Event.drop_notify_error identity k.DROP_MISSED_TAIL_CALL k.CTX_ACT_OK Dir.ingress] := by
  unfold do_netdev at hmiss ⊢
  by_cases h1 : cfg.ENABLE_IPSEC = true ∧
      ctx.mark &&& k.MARK_MAGIC_HOST_MASK = k.MARK_MAGIC_ENCRYPT
  · rw [if_pos h1] at hmiss
    simp [Event.is_tail_call] at hmiss
  · rw [if_neg h1] at hmiss ⊢
    cases from_host with
    | true =>
      simp only [if_true] at hmiss ⊢
      by_cases h2 : cfg.HOST_REDIRECT_TO_INGRESS = true ∧ proto = k.ETH_P_ARP
      · rw [if_pos h2] at hmiss
        split_ifs at hmiss <;> simp [Event.is_tail_call] at hmiss
      · rw [if_neg h2] at hmiss ⊢
        simp only [List.find?_cons, Event.is_tail_call] at hmiss
        obtain ⟨hp, hproto, id, pre, heq⟩ := do_netdev_switch_missed cfg k w _ proto _ true slot hmiss
        rw [heq]
        exact ⟨hsd _ _ _ _, hp, hproto, id, _ :: pre, rfl⟩
    | false =>
      simp only [Bool.false_eq_true, if_false] at hmiss ⊢
      simp only [List.find?_cons, Event.is_tail_call] at hmiss
      obtain ⟨hp, hproto, id, pre, heq⟩ := do_netdev_switch_missed cfg k w _ proto _ false slot hmiss
      rw [heq]
      exact ⟨hsd _ _ _ _, hp, hproto, id, _ :: pre, rfl⟩

/-- Example for C18: with no handler in the program array, an IPv4 packet from
the host and an IPv6 packet from the network are both passed to the stack after
the drop notification with exit code CTX_ACT_OK. -/
theorem missed_tail_call_passes_witness :
    ((do_netdev {} consts0 world_no_tail pkt_host_src consts0.ETH_P_IP true).trace.find?
        Event.is_tail_call = some (Event.ep_tail_call 22 false) ∧
      (do_netdev {} consts0 world_no_tail pkt_host_src consts0.ETH_P_IP true).ret
        = consts0.CTX_ACT_OK) ∧
    ((do_netdev {} consts0 world_no_tail pkt_frag6 consts0.ETH_P_IPV6 false).trace.find?
        Event.is_tail_call = some (Event.ep_tail_call 10 false) ∧
      (do_netdev {} consts0 world_no_tail pkt_frag6 consts0.ETH_P_IPV6 false).ret
        = consts0.CTX_ACT_OK) :=
  ⟨⟨by decide,
      (missed_tail_call_passes {} consts0 world_no_tail pkt_host_src consts0.ETH_P_IP true 22
        (fun _ _ _ _ => rfl) (by decide)).1⟩,
    ⟨by decide,
      (missed_tail_call_passes {} consts0 world_no_tail pkt_frag6 consts0.ETH_P_IPV6 false 10
        (fun _ _ _ _ => rfl) (by decide)).1⟩⟩

/-! ## Reply and related traffic -/

/-- C21: in every host-policy stage, for a packet that reaches policy
evaluation with a conntrack classification of REPLY or RELATED (case labels
distinct from NEW), the stage returns CTX_ACT_OK for every value of the policy
verdict, and the run contains no policy-verdict notification and no conntrack
insert. -/
theorem reply_related_silent (s : Stage) (cfg : Config) (k : Consts) (w : World) (ctx : Pkt)
    (srcID : Nat) (c : Int) (src : Nat) (out : PolicyOut)
    (hNR : k.CT_NEW ≠ k.CT_REPLY) (hNL : k.CT_NEW ≠ k.CT_RELATED)
    (hc : Classified (run_stage s cfg k w ctx srcID).trace c)
    (hp : PolicyEvaluated (run_stage s cfg k w ctx srcID).trace src out)
    (hcr : c = k.CT_REPLY ∨ c = k.CT_RELATED) :
    (run_stage s cfg k w ctx srcID).ret = k.CTX_ACT_OK ∧
    ∀ e ∈ (run_stage s cfg k w ctx srcID).trace,
      e.is_verdict_notify = false ∧ e.is_ct_create = false := by
  obtain ⟨pre, tup, dir, d, P, remote, dport, proto, v6, st, cr, hpre, -, hd, hP, -, -, hret,
    htr⟩ := (run_stage_shape s cfg k w ctx srcID).evaluated hc hp
  have hdec : stage_decision k c out
      (Event.policy_verdict_notify remote dport proto dir v6 out.verdict out.match_type
        out.audited)
      (Event.ct_create tup dir st (decide (out.verdict > 0)) cr) cr = (k.CTX_ACT_OK, []) := by
    unfold stage_decision
    rcases hcr with h | h
    · subst h
      simp [Ne.symm hNR]
    · subst h
      simp [Ne.symm hNL]
  rw [hdec] at hret htr
  refine ⟨hret, ?_⟩
  intro e he
  rw [htr, List.append_nil] at he
  rcases List.mem_append.mp he with he | he
  · exact (not_kind_of_is_dbg e (hpre e he)).2.2
  · simp only [List.mem_cons, List.mem_singleton, List.not_mem_nil, or_false] at he
    rcases he with he | he | he
    · subst he
      exact ⟨rfl, rfl⟩
    · subst he
      exact (not_kind_of_is_dbg _ hd).2.2
    · subst he
      exact not_notify_create_of_is_policy_eval _ hP

/-- Example for C21: a RELATED packet of the scenario flow passes although the
policy denies it, without notification and without insert. -/
theorem reply_related_silent_witness :
    Classified (run_stage Stage.ipv4_ingress {} consts0 (world_scn 3) pkt_scn 0).trace
      consts0.CT_RELATED ∧
    PolicyEvaluated (run_stage Stage.ipv4_ingress {} consts0 (world_scn 3) pkt_scn 0).trace 200
      { verdict := -133, match_type := 1, audited := 1 } ∧
    (run_stage Stage.ipv4_ingress {} consts0 (world_scn 3) pkt_scn 0).ret = consts0.CTX_ACT_OK ∧
    ∀ e ∈ (run_stage Stage.ipv4_ingress {} consts0 (world_scn 3) pkt_scn 0).trace,
      e.is_verdict_notify = false ∧ e.is_ct_create = false :=
  ⟨by decide, by decide,
    reply_related_silent Stage.ipv4_ingress {} consts0 (world_scn 3) pkt_scn 0 3 200
      { verdict := -133, match_type := 1, audited := 1 } (by decide) (by decide) (by decide)
      (by decide) (Or.inr rfl)⟩

/-! ## Identity resolution for packets from the network -/

theorem and_byte (x m : Nat) (n : Nat) :
    (x &&& m) / 2 ^ n % 2 ^ 8 = (x / 2 ^ n % 2 ^ 8) &&& (m / 2 ^ n % 2 ^ 8) := by
  apply Nat.eq_of_testBit_eq
  intro i
  simp only [← Nat.shiftRight_eq_div_pow, Nat.testBit_mod_two_pow, Nat.testBit_and,
    Nat.testBit_shiftRight]
  cases decide (i < 8) <;> simp

/-- On a little-endian CPU, masking the first header word with
`htonl(0x000FFFFF)` and converting to host order yields the low 20 bits of the
word in host order. -/
theorem bswap32_flowlabel (x : Nat) :
    bswap32 (x &&& bswap32 1048575) = bswap32 x % 1048576 := by
  have hm : bswap32 1048575 = 4294905600 := by decide
  rw [hm]
  have h0 := and_byte x 4294905600 0
  have h1 := and_byte x 4294905600 8
  have h2 := and_byte x 4294905600 16
  have h3 := and_byte x 4294905600 24
  have e15 : ∀ y, y &&& 15 = y % 16 := fun y => Nat.and_pow_two_sub_one_eq_mod y 4
  have e255 : ∀ y, y &&& 255 = y % 256 := fun y => Nat.and_pow_two_sub_one_eq_mod y 8
  norm_num at h0 h1 h2 h3
  rw [e15] at h1
  rw [e255] at h2 h3
  unfold bswap32
  rw [h0, h1, h2, h3]
  have a0 : x % 256 < 256 := Nat.mod_lt _ (by norm_num)
  have a1 : x / 256 % 256 < 256 := Nat.mod_lt _ (by norm_num)
  have a2 : x / 65536 % 256 < 256 := Nat.mod_lt _ (by norm_num)
  have a3 : x / 16777216 % 256 < 256 := Nat.mod_lt _ (by norm_num)
  generalize x % 256 = b0 at *
  generalize x / 256 % 256 = b1 at *
  generalize x / 65536 % 256 = b2 at *
  generalize x / 16777216 % 256 = b3 at *
  clear h0 h1 h2 h3
  omega

/-- C22: for a packet with a readable IPv6 header, `derive_src_id` returns 0
and leaves the identity unchanged when the source address does not match the
node prefix; when it matches, the identity becomes
`bpf_ntohl(word0 & IPV6_FLOWLABEL_MASK)` and the function returns 0 unless
that value equals HOST_ID, in which case it returns DROP_INVALID_IDENTITY; the
identity is below 2^20 whenever the two macros extract the low 20 bits of the
word in host order. `resolve_srcid_ipv6` with `from_host = false` calls it
with ROUTER_IP and the initial identity WORLD_ID, and with `from_host = true`
its result depends neither on the first header word nor on the prefix test. -/
theorem flow_label_derivation (cfg : Config) (k : Consts) (w : World) (ctx : Pkt)
    (ip6 : Ipv6hdr) (asserted : Nat) (hip : ctx.ip6 = some ip6) :
    (∀ node_ip identity, k.ipv6_match_prefix_64 ip6.saddr node_ip = false →
      derive_src_id k node_ip ip6 identity = (0, identity)) ∧
    (∀ node_ip identity, k.ipv6_match_prefix_64 ip6.saddr node_ip = true →
      (derive_src_id k node_ip ip6 identity).2 =
        k.bpf_ntohl (ip6.word0 &&& k.IPV6_FLOWLABEL_MASK) ∧
      (derive_src_id k node_ip ip6 identity).1 =
        (if k.bpf_ntohl (ip6.word0 &&& k.IPV6_FLOWLABEL_MASK) = k.HOST_ID
          then u32_of_int k.DROP_INVALID_IDENTITY else 0) ∧
      ((∀ x, k.bpf_ntohl (x &&& k.IPV6_FLOWLABEL_MASK) = k.bpf_ntohl x % 2 ^ 20) →
        (derive_src_id k node_ip ip6 identity).2 < 2 ^ 20)) ∧
    (k.IS_ERR (int_of_u32 (derive_src_id k k.ROUTER_IP ip6 k.WORLD_ID).1) = true →
      (resolve_srcid_ipv6 cfg k w ctx asserted false).id =
        u32_of_int (int_of_u32 (derive_src_id k k.ROUTER_IP ip6 k.WORLD_ID).1)) ∧
    (k.IS_ERR (int_of_u32 (derive_src_id k k.ROUTER_IP ip6 k.WORLD_ID).1) = false →
      cfg.ENABLE_SECCTX_FROM_IPCACHE = false →
      (resolve_srcid_ipv6 cfg k w ctx asserted false).id =
        (derive_src_id k k.ROUTER_IP ip6 k.WORLD_ID).2) ∧
    (∀ (word0 : Nat) (m : V6Addr → V6Addr → Bool),
      resolve_srcid_ipv6 cfg { k with ipv6_match_prefix_64 := m } w
          { ctx with ip6 := some { ip6 with word0 := word0 } } asserted true =
        resolve_srcid_ipv6 cfg k w ctx asserted true) := by
  refine ⟨?_, ?_, ?_, ?_, ?_⟩
  · intro node_ip identity h
    simp [derive_src_id, h]
  · intro node_ip identity h
    have h2 : (derive_src_id k node_ip ip6 identity).2 =
        k.bpf_ntohl (ip6.word0 &&& k.IPV6_FLOWLABEL_MASK) := by
      unfold derive_src_id
      simp only [h, if_true]
      split_ifs <;> rfl
    refine ⟨h2, ?_, ?_⟩
    · unfold derive_src_id
      simp only [h, if_true]
      split_ifs <;> rfl
    · intro hmask
      rw [h2, hmask]
      exact Nat.mod_lt _ (by norm_num)
  · intro herr
    simp [resolve_srcid_ipv6, hip, herr]
  · intro herr hsec
    simp [resolve_srcid_ipv6, hip, herr, hsec]
  · intro word0 m
    simp [resolve_srcid_ipv6, hip]

/-- Example for C22: the flow label 0x12345 of a packet from the node prefix
becomes the identity 74565; the flow label 1 (HOST_ID) is refused with
DROP_INVALID_IDENTITY. -/
theorem flow_label_derivation_witness :
    (∀ x, consts0.bpf_ntohl (x &&& consts0.IPV6_FLOWLABEL_MASK) =
      consts0.bpf_ntohl x % 2 ^ 20) ∧
    (resolve_srcid_ipv6 {} consts0 world0 pkt_flow6 0 false).id = 74565 ∧
    (derive_src_id consts0 consts0.ROUTER_IP
      { word0 := bswap32 1610687301, nexthdr := 6,
        saddr := { p1 := 4242, p2 := 1, p3 := 0, p4 := 9 }, daddr := addr6_host }
      consts0.WORLD_ID).2 < 2 ^ 20 ∧
    (resolve_srcid_ipv6 {} consts0 world0 pkt_spoof6 0 false).id =
      u32_of_int consts0.DROP_INVALID_IDENTITY := by
  have h := flow_label_derivation {} consts0 world0 pkt_flow6
    { word0 := bswap32 1610687301, nexthdr := 6,
      saddr := { p1 := 4242, p2 := 1, p3 := 0, p4 := 9 }, daddr := addr6_host } 0 rfl
  have hm : ∀ x, consts0.bpf_ntohl (x &&& consts0.IPV6_FLOWLABEL_MASK) =
      consts0.bpf_ntohl x % 2 ^ 20 := fun x => bswap32_flowlabel x
  refine ⟨hm, ?_, (h.2.1 consts0.ROUTER_IP consts0.WORLD_ID (by decide)).2.2 hm, by decide⟩
  rw [h.2.2.2.1 (by decide) rfl]
  decide

/-- C23: for a packet with a readable IPv4 header, `resolve_srcid_ipv4` with
`from_host = false` returns WORLD_ID when ENABLE_SECCTX_FROM_IPCACHE is
undefined; when it is defined and ENABLE_EXTRA_HOST_DEV is undefined, it
returns the asserted identity if that is not reserved and WORLD_ID otherwise;
in both configurations the result is the same for every content of the
ipcache. -/
theorem ipv4_network_identity (cfg : Config) (k : Consts) (w : World) (ctx : Pkt)
    (ip4 : Iphdr) (asserted : Nat) (hip : ctx.ip4 = some ip4) :
    (cfg.ENABLE_SECCTX_FROM_IPCACHE = false →
      (resolve_srcid_ipv4 cfg k w ctx asserted false).id = k.WORLD_ID) ∧
    (cfg.ENABLE_SECCTX_FROM_IPCACHE = true → cfg.ENABLE_EXTRA_HOST_DEV = false →
      (resolve_srcid_ipv4 cfg k w ctx asserted false).id =
        if k.identity_is_reserved asserted then k.WORLD_ID else asserted) ∧
    (cfg.ENABLE_SECCTX_FROM_IPCACHE = false ∨ cfg.ENABLE_EXTRA_HOST_DEV = false →
      ∀ w2 : World, (resolve_srcid_ipv4 cfg k w2 ctx asserted false).id =
        (resolve_srcid_ipv4 cfg k w ctx asserted false).id) := by
  have h1 : cfg.ENABLE_SECCTX_FROM_IPCACHE = false → ∀ w0 : World,
      (resolve_srcid_ipv4 cfg k w0 ctx asserted false).id = k.WORLD_ID := by
    intro hs w0
    simp [resolve_srcid_ipv4, hip, hs]
  have h2 : cfg.ENABLE_EXTRA_HOST_DEV = false → ∀ w0 : World,
      (resolve_srcid_ipv4 cfg k w0 ctx asserted false).id =
        if cfg.ENABLE_SECCTX_FROM_IPCACHE = true ∧ k.identity_is_reserved asserted = false
          then asserted else k.WORLD_ID := by
    intro he w0
    unfold resolve_srcid_ipv4
    simp only [hip, he, Bool.false_eq_true, if_false, false_and]
    cases hr : k.identity_is_reserved asserted
    · simp
      split_ifs <;> simp_all
    · cases hinfo : w0.lookup_ip4_remote_endpoint ip4.saddr
      · simp [hr]
      · simp [hr]
  refine ⟨fun hs => h1 hs w, ?_, ?_⟩
  · intro hs he
    rw [h2 he w]
    cases hr : k.identity_is_reserved asserted <;> simp [hs]
  · rintro (hs | he) w2
    · rw [h1 hs w2, h1 hs w]
    · rw [h2 he w2, h2 he w]

/-- Example for C23: a packet from 10.0.0.5, which the scenario ipcache maps
to identity 200, is given WORLD_ID by default, and with
ENABLE_SECCTX_FROM_IPCACHE as well. -/
theorem ipv4_network_identity_witness :
    (world_scn 0).lookup_ip4_remote_endpoint addr_10_0_0_5 = some { sec_label := 200 } ∧
    (resolve_srcid_ipv4 {} consts0 (world_scn 0) pkt_scn 0 false).id = consts0.WORLD_ID ∧
    (resolve_srcid_ipv4 { ENABLE_SECCTX_FROM_IPCACHE := true } consts0 (world_scn 0) pkt_scn 0
      false).id = consts0.WORLD_ID :=
  ⟨by decide,
    (ipv4_network_identity {} consts0 (world_scn 0) pkt_scn _ 0 rfl).1 rfl,
    (ipv4_network_identity { ENABLE_SECCTX_FROM_IPCACHE := true } consts0 (world_scn 0) pkt_scn
      _ 0 rfl).2.1 rfl rfl⟩

/-! ## An ipcache miss and a zero label -/

theorem sec_label_override_congr (id : Nat) {o1 o2 : Option RemoteEndpointInfo}
    (h : ipcache_label o1 = ipcache_label o2) :
    sec_label_override id o1 = sec_label_override id o2 := by
  cases o1 <;> cases o2 <;> simp_all [ipcache_label, sec_label_override]

theorem ipv4_host_policy_egress_label (k : Consts) (w : World) (ctx : Pkt) (srcID : Nat)
    (g4 : Nat → Option RemoteEndpointInfo) (g6 : V6Addr → Option RemoteEndpointInfo)
    (h4 : ∀ a, ipcache_label (g4 a) = ipcache_label (w.lookup_ip4_remote_endpoint a)) :
    (ipv4_host_policy_egress k (w.with_ipcache g4 g6) ctx srcID).alike
      (ipv4_host_policy_egress k w ctx srcID) := by
  unfold StageResult.alike ipv4_host_policy_egress World.with_ipcache
  by_cases h : srcID ≠ k.HOST_ID
  · rw [if_pos h, if_pos h]
    exact ⟨rfl, rfl, rfl⟩
  · rw [if_neg h, if_neg h]
    cases hp : ctx.ip4 with
    | none => exact ⟨rfl, rfl, rfl⟩
    | some ip4 =>
      dsimp only
      rw [sec_label_override_congr 0 (h4 ip4.daddr)]
      generalize w.ct_lookup4 ctx _ _ _ = ct
      generalize (g4 ip4.daddr).isSome = b2
      generalize (w.lookup_ip4_remote_endpoint ip4.daddr).isSome = b1
      generalize sec_label_override 0 (w.lookup_ip4_remote_endpoint ip4.daddr) = dstID
      generalize w.policy_can_egress4 ctx ct.tuple srcID dstID = pol
      generalize w.ct_create4 ctx ct.tuple Dir.egress _ _ = cr
      split_ifs <;> simp [Event.erase_dbg_outcome]

theorem ipv6_host_policy_egress_label (k : Consts) (w : World) (ctx : Pkt) (srcID : Nat)
    (g4 : Nat → Option RemoteEndpointInfo) (g6 : V6Addr → Option RemoteEndpointInfo)
    (h6 : ∀ a, ipcache_label (g6 a) = ipcache_label (w.lookup_ip6_remote_endpoint a)) :
    (ipv6_host_policy_egress k (w.with_ipcache g4 g6) ctx srcID).alike
      (ipv6_host_policy_egress k w ctx srcID) := by
  unfold StageResult.alike ipv6_host_policy_egress World.with_ipcache
  by_cases h : srcID ≠ k.HOST_ID
  · rw [if_pos h, if_pos h]
    exact ⟨rfl, rfl, rfl⟩
  · rw [if_neg h, if_neg h]
    cases hp : ctx.ip6 with
    | none => exact ⟨rfl, rfl, rfl⟩
    | some ip6 =>
      dsimp only
      rw [sec_label_override_congr 0 (h6 ip6.daddr)]
      generalize w.ipv6_hdrlen ctx k.ETH_HLEN ip6.nexthdr = hl
      generalize w.ct_lookup6 ctx _ _ _ = ct
      generalize (g6 ip6.daddr).isSome = b2
      generalize (w.lookup_ip6_remote_endpoint ip6.daddr).isSome = b1
      generalize sec_label_override 0 (w.lookup_ip6_remote_endpoint ip6.daddr) = dstID
      generalize w.policy_can_egress6 ctx ct.tuple srcID dstID = pol
      generalize w.ct_create6 ctx ct.tuple Dir.egress _ _ = cr
      split_ifs <;> simp [Event.erase_dbg_outcome]

theorem ipv4_host_policy_ingress_label (cfg : Config) (k : Consts) (w : World) (ctx : Pkt)
    (srcID : Nat)
    (g4 : Nat → Option RemoteEndpointInfo) (g6 : V6Addr → Option RemoteEndpointInfo)
    (h4 : ∀ a, ipcache_label (g4 a) = ipcache_label (w.lookup_ip4_remote_endpoint a)) :
    (ipv4_host_policy_ingress cfg k (w.with_ipcache g4 g6) ctx srcID).alike
      (ipv4_host_policy_ingress cfg k w ctx srcID) := by
  unfold StageResult.alike ipv4_host_policy_ingress World.with_ipcache
  cases hp : ctx.ip4 with
  | none => exact ⟨rfl, rfl, rfl⟩
  | some ip4 =>
    dsimp only
    rw [sec_label_override_congr k.WORLD_ID (h4 ip4.daddr),
      sec_label_override_congr srcID (h4 ip4.saddr)]
    generalize w.ct_lookup4 ctx _ _ _ = ct
    generalize (g4 ip4.daddr).isSome = b2
    generalize (w.lookup_ip4_remote_endpoint ip4.daddr).isSome = b1
    generalize (g4 ip4.saddr).isSome = c2
    generalize (w.lookup_ip4_remote_endpoint ip4.saddr).isSome = c1
    generalize sec_label_override k.WORLD_ID (w.lookup_ip4_remote_endpoint ip4.daddr) = dstID
    generalize sec_label_override srcID (w.lookup_ip4_remote_endpoint ip4.saddr) = srcID1
    generalize (if cfg.IPV4_FRAGMENTS = true then false else k.ipv4_is_fragment ip4) = frag
    generalize w.policy_can_access_ingress ctx srcID1 dstID ct.tuple.dport ct.tuple.nexthdr
      frag = pol
    generalize w.ct_create4 ctx ct.tuple Dir.ingress _ _ = cr
    split_ifs <;> simp [Event.erase_dbg_outcome]

theorem ipv6_host_policy_ingress_label (k : Consts) (w : World) (ctx : Pkt)
    (srcID : Nat)
    (g4 : Nat → Option RemoteEndpointInfo) (g6 : V6Addr → Option RemoteEndpointInfo)
    (h6 : ∀ a, ipcache_label (g6 a) = ipcache_label (w.lookup_ip6_remote_endpoint a)) :
    (ipv6_host_policy_ingress k (w.with_ipcache g4 g6) ctx srcID).alike
      (ipv6_host_policy_ingress k w ctx srcID) := by
  unfold StageResult.alike ipv6_host_policy_ingress World.with_ipcache
  cases hp : ctx.ip6 with
  | none => exact ⟨rfl, rfl, rfl⟩
  | some ip6 =>
    dsimp only
    rw [sec_label_override_congr k.WORLD_ID (h6 ip6.daddr),
      sec_label_override_congr srcID (h6 ip6.saddr)]
    generalize w.ipv6_hdrlen ctx k.ETH_HLEN ip6.nexthdr = hl
    generalize w.ct_lookup6 ctx _ _ _ = ct
    generalize (g6 ip6.daddr).isSome = b2
    generalize (w.lookup_ip6_remote_endpoint ip6.daddr).isSome = b1
    generalize (g6 ip6.saddr).isSome = c2
    generalize (w.lookup_ip6_remote_endpoint ip6.saddr).isSome = c1
    generalize sec_label_override k.WORLD_ID (w.lookup_ip6_remote_endpoint ip6.daddr) = dstID
    generalize sec_label_override srcID (w.lookup_ip6_remote_endpoint ip6.saddr) = srcID1
    generalize w.policy_can_access_ingress ctx srcID1 dstID ct.tuple.dport ct.tuple.nexthdr
      false = pol
    generalize w.ct_create6 ctx ct.tuple Dir.ingress _ _ = cr
    split_ifs <;> simp [Event.erase_dbg_outcome]

theorem resolve_srcid_ipv4_label (cfg : Config) (k : Consts) (w : World) (ctx : Pkt)
    (id : Nat) (from_host : Bool)
    (g4 : Nat → Option RemoteEndpointInfo) (g6 : V6Addr → Option RemoteEndpointInfo)
    (h4 : ∀ a, ipcache_label (g4 a) = ipcache_label (w.lookup_ip4_remote_endpoint a)) :
    (resolve_srcid_ipv4 cfg k (w.with_ipcache g4 g6) ctx id from_host).alike
      (resolve_srcid_ipv4 cfg k w ctx id from_host) := by
  unfold IdResult.alike resolve_srcid_ipv4 World.with_ipcache
  cases hp : ctx.ip4 with
  | none => exact ⟨rfl, rfl⟩
  | some ip4 =>
    dsimp only
    have h := h4 ip4.saddr
    generalize g4 ip4.saddr = o2 at h
    generalize w.lookup_ip4_remote_endpoint ip4.saddr = o1 at h
    clear h4
    cases o1 with
    | none =>
      cases o2 with
      | none => exact ⟨rfl, rfl⟩
      | some j =>
        have hj : j.sec_label = 0 := h
        simp only [hj]
        split_ifs <;> simp_all [Event.erase_dbg_outcome]
    | some i =>
      cases o2 with
      | none =>
        have hi : i.sec_label = 0 := h.symm
        simp only [hi]
        split_ifs <;> simp_all [Event.erase_dbg_outcome]
      | some j =>
        have hj : j.sec_label = i.sec_label := h
        simp only [hj]
        split_ifs <;> simp_all [Event.erase_dbg_outcome]

theorem resolve_srcid_ipv6_label (cfg : Config) (k : Consts) (w : World) (ctx : Pkt)
    (id : Nat) (from_host : Bool)
    (g4 : Nat → Option RemoteEndpointInfo) (g6 : V6Addr → Option RemoteEndpointInfo)
    (h6 : ∀ a, ipcache_label (g6 a) = ipcache_label (w.lookup_ip6_remote_endpoint a)) :
    (resolve_srcid_ipv6 cfg k (w.with_ipcache g4 g6) ctx id from_host).alike
      (resolve_srcid_ipv6 cfg k w ctx id from_host) := by
  unfold IdResult.alike resolve_srcid_ipv6 World.with_ipcache
  cases hp : ctx.ip6 with
  | none => exact ⟨rfl, rfl⟩
  | some ip6 =>
    dsimp only
    rw [sec_label_override_congr id (h6 ip6.saddr)]
    generalize (g6 ip6.saddr).isSome = b2
    generalize (w.lookup_ip6_remote_endpoint ip6.saddr).isSome = b1
    split_ifs <;> simp [Event.erase_dbg_outcome]

theorem ipcache_lookup_srcid4_label (k : Consts) (w : World) (ctx : Pkt)
    (g4 : Nat → Option RemoteEndpointInfo) (g6 : V6Addr → Option RemoteEndpointInfo)
    (h4 : ∀ a, ipcache_label (g4 a) = ipcache_label (w.lookup_ip4_remote_endpoint a)) :
    (ipcache_lookup_srcid4 k (w.with_ipcache g4 g6) ctx).alike
      (ipcache_lookup_srcid4 k w ctx) := by
  unfold IdResult.alike ipcache_lookup_srcid4 World.with_ipcache
  cases hp : ctx.ip4 with
  | none => exact ⟨rfl, rfl⟩
  | some ip4 =>
    dsimp only
    have h := h4 ip4.saddr
    generalize g4 ip4.saddr = o2 at h
    generalize w.lookup_ip4_remote_endpoint ip4.saddr = o1 at h
    cases o1 with
    | none =>
      cases o2 with
      | none => exact ⟨rfl, rfl⟩
      | some j =>
        have hj : j.sec_label = 0 := h
        simp [hj, Event.erase_dbg_outcome]
    | some i =>
      cases o2 with
      | none =>
        have hi : i.sec_label = 0 := h.symm
        simp [hi, Event.erase_dbg_outcome]
      | some j =>
        have hj : j.sec_label = i.sec_label := h
        simp [hj, Event.erase_dbg_outcome]

theorem ipcache_lookup_srcid6_label (k : Consts) (w : World) (ctx : Pkt)
    (g4 : Nat → Option RemoteEndpointInfo) (g6 : V6Addr → Option RemoteEndpointInfo)
    (h6 : ∀ a, ipcache_label (g6 a) = ipcache_label (w.lookup_ip6_remote_endpoint a)) :
    (ipcache_lookup_srcid6 k (w.with_ipcache g4 g6) ctx).alike
      (ipcache_lookup_srcid6 k w ctx) := by
  unfold IdResult.alike ipcache_lookup_srcid6 World.with_ipcache
  cases hp : ctx.ip6 with
  | none => exact ⟨rfl, rfl⟩
  | some ip6 =>
    dsimp only
    have h := h6 ip6.saddr
    generalize g6 ip6.saddr = o2 at h
    generalize w.lookup_ip6_remote_endpoint ip6.saddr = o1 at h
    cases o1 with
    | none =>
      cases o2 with
      | none => exact ⟨rfl, rfl⟩
      | some j =>
        have hj : j.sec_label = 0 := h
        simp [hj, Event.erase_dbg_outcome]
    | some i =>
      cases o2 with
      | none =>
        have hi : i.sec_label = 0 := h.symm
        simp [hi, Event.erase_dbg_outcome]
      | some j =>
        have hj : j.sec_label = i.sec_label := h
        simp [hj, Event.erase_dbg_outcome]

/-- C24: take two runs on the same packet whose ipcaches give every address
the same label, where a miss counts as label 0 (so they may differ in having
no entry or an entry with `sec_label == 0`). Then `resolve_srcid_ipv4/6` and
`ipcache_lookup_srcid4/6` return the same identity, and each of the four
host-policy stages returns the same result, leaves the same identity in
`*srcID` and emits the same events (in particular the same policy evaluation
with the same inputs), apart from the success flag of the debug events. -/
theorem miss_and_zero_label_alike (cfg : Config) (k : Consts) (w : World) (ctx : Pkt)
    (g4 : Nat → Option RemoteEndpointInfo) (g6 : V6Addr → Option RemoteEndpointInfo)
    (h4 : ∀ a, ipcache_label (g4 a) = ipcache_label (w.lookup_ip4_remote_endpoint a))
    (h6 : ∀ a, ipcache_label (g6 a) = ipcache_label (w.lookup_ip6_remote_endpoint a)) :
    (∀ id from_host,
      (resolve_srcid_ipv4 cfg k (w.with_ipcache g4 g6) ctx id from_host).alike
        (resolve_srcid_ipv4 cfg k w ctx id from_host)) ∧
    (∀ id from_host,
      (resolve_srcid_ipv6 cfg k (w.with_ipcache g4 g6) ctx id from_host).alike
        (resolve_srcid_ipv6 cfg k w ctx id from_host)) ∧
    (ipcache_lookup_srcid4 k (w.with_ipcache g4 g6) ctx).alike (ipcache_lookup_srcid4 k w ctx) ∧
    (ipcache_lookup_srcid6 k (w.with_ipcache g4 g6) ctx).alike (ipcache_lookup_srcid6 k w ctx) ∧
    (∀ s srcID,
      (run_stage s cfg k (w.with_ipcache g4 g6) ctx srcID).alike
        (run_stage s cfg k w ctx srcID)) := by
  refine ⟨fun id fh => resolve_srcid_ipv4_label cfg k w ctx id fh g4 g6 h4,
    fun id fh => resolve_srcid_ipv6_label cfg k w ctx id fh g4 g6 h6,
    ipcache_lookup_srcid4_label k w ctx g4 g6 h4,
    ipcache_lookup_srcid6_label k w ctx g4 g6 h6, ?_⟩
  intro s srcID
  cases s
  · exact ipv4_host_policy_egress_label k w ctx srcID g4 g6 h4
  · exact ipv4_host_policy_ingress_label cfg k w ctx srcID g4 g6 h4
  · exact ipv6_host_policy_egress_label k w ctx srcID g4 g6 h6
  · exact ipv6_host_policy_ingress_label k w ctx srcID g4 g6 h6

/-- Example for C24: the scenario packet from 10.0.0.5, once with no ipcache
entry for the source and once with an entry of label 0: the IPv4 ingress stage
evaluates the policy with source identity 7 (the caller's value) in both runs
and the results are alike, although the traces differ in the debug event. -/
theorem miss_and_zero_label_alike_witness :
    world_miss.lookup_ip4_remote_endpoint addr_10_0_0_5 = none ∧
    ipcache_zero addr_10_0_0_5 = some { sec_label := 0 } ∧
    (run_stage Stage.ipv4_ingress {} consts0
        (world_miss.with_ipcache ipcache_zero world_miss.lookup_ip6_remote_endpoint)
        pkt_scn 7).alike
      (run_stage Stage.ipv4_ingress {} consts0 world_miss pkt_scn 7) ∧
    PolicyEvaluated (run_stage Stage.ipv4_ingress {} consts0 world_miss pkt_scn 7).trace 7
      { verdict := 0 } ∧
    (run_stage Stage.ipv4_ingress {} consts0
        (world_miss.with_ipcache ipcache_zero world_miss.lookup_ip6_remote_endpoint)
        pkt_scn 7).trace ≠
      (run_stage Stage.ipv4_ingress {} consts0 world_miss pkt_scn 7).trace := by
  refine ⟨by decide, by decide, ?_, by decide, by decide⟩
  refine (miss_and_zero_label_alike {} consts0 world_miss pkt_scn ipcache_zero
    world_miss.lookup_ip6_remote_endpoint ?_ (fun _ => rfl)).2.2.2.2 Stage.ipv4_ingress 7
  intro a
  simp only [ipcache_zero, world_miss]
  split_ifs <;> rfl

/-! ## The source identity of the ingress host policy -/

theorem ingress_src_of_is_forwarding (x : Event) (h : x.is_forwarding = true) :
    x.ingress_src = none := by
  cases x <;> simp_all [Event.is_forwarding, Event.ingress_src]

theorem set_encrypt_meta_is_forwarding (cfg : Config) (k : Consts)
    (info : Option RemoteEndpointInfo) (secctx : Nat) :
    ∀ x ∈ set_encrypt_meta cfg k info secctx, x.is_forwarding = true := by
  intro x hx
  unfold set_encrypt_meta at hx
  cases info with
  | none =>
    simp only at hx
    split_ifs at hx <;> simp at hx
  | some i =>
    simp only at hx
    split_ifs at hx <;> simp at hx <;> rcases hx with hx | hx <;> subst hx <;> rfl

theorem handle_ipv4_route_is_forwarding (cfg : Config) (k : Consts) (w : World) (ctx : Pkt)
    (ip4 : Iphdr) (secctx : Nat) (from_host : Bool) :
    ∀ x ∈ (handle_ipv4_route cfg k w ctx ip4 secctx from_host).trace,
      x.is_forwarding = true := by
  intro x hx
  unfold handle_ipv4_route at hx
  have hm := set_encrypt_meta_is_forwarding cfg k (w.ipcache_lookup4 ip4.daddr) secctx
  dsimp only at hx
  split_ifs at hx
  · simp at hx; subst hx; rfl
  · simp at hx; subst hx; rfl
  · simp at hx
    rcases hx with hx | hx
    · subst hx; rfl
    · exact hm x hx

theorem handle_ipv6_route_is_forwarding (cfg : Config) (k : Consts) (w : World)
    (ip6 : Ipv6hdr) (secctx : Nat) (from_host : Bool) :
    ∀ x ∈ (handle_ipv6_route cfg k w ip6 secctx from_host).trace,
      x.is_forwarding = true := by
  intro x hx
  unfold handle_ipv6_route at hx
  have hm := set_encrypt_meta_is_forwarding cfg k (w.ipcache_lookup6 ip6.daddr) secctx
  dsimp only at hx
  split_ifs at hx
  · simp at hx; subst hx; rfl
  · simp at hx
    rcases hx with hx | hx
    · subst hx; rfl
    · exact hm x hx

theorem handle_ipv4_encap_is_forwarding (cfg : Config) (k : Consts) (w : World) (ctx : Pkt)
    (ip4 : Iphdr) (secctx : Nat) (from_host : Bool) :
    ∀ x ∈ (handle_ipv4_encap cfg k w ctx ip4 secctx from_host).trace,
      x.is_forwarding = true := by
  intro x hx
  have hr := handle_ipv4_route_is_forwarding cfg k w ctx ip4 secctx from_host
  unfold handle_ipv4_encap at hx
  by_cases h1 : cfg.ENCAP_IFINDEX = true
  · simp only [h1, if_true] at hx
    generalize (match w.ipcache_lookup4 ip4.daddr with
      | some i => if i.tunnel_endpoint ≠ 0 then some i else none
      | none => none) = tunnel at hx
    cases tunnel with
    | some i =>
      simp only [] at hx
      split_ifs at hx <;> simp at hx <;> rcases hx with hx | hx <;> subst hx <;> rfl
    | none =>
      simp only [] at hx
      split_ifs at hx
      · simp at hx
        rcases hx with hx | hx <;> subst hx <;> rfl
      · simp at hx
        rcases hx with hx | hx <;> subst hx <;> rfl
      · simp only [List.mem_append, List.mem_cons, List.mem_singleton, List.not_mem_nil,
          or_false] at hx
        rcases hx with (hx | hx) | hx
        · subst hx; rfl
        · subst hx; rfl
        · exact hr x hx
  · simp only [h1, if_false, Bool.false_eq_true] at hx
    exact hr x hx

theorem handle_ipv6_encap_is_forwarding (cfg : Config) (k : Consts) (w : World) (ctx : Pkt)
    (ip6 : Ipv6hdr) (secctx : Nat) (from_host : Bool) :
    ∀ x ∈ (handle_ipv6_encap cfg k w ctx ip6 secctx from_host).trace,
      x.is_forwarding = true := by
  intro x hx
  have hr := handle_ipv6_route_is_forwarding cfg k w ip6 secctx from_host
  unfold handle_ipv6_encap at hx
  by_cases h1 : cfg.ENCAP_IFINDEX = true
  · simp only [h1, if_true] at hx
    generalize (match w.ipcache_lookup6 ip6.daddr with
      | some i => if i.tunnel_endpoint ≠ 0 then some i else none
      | none => none) = tunnel at hx
    cases tunnel with
    | some i =>
      simp only [] at hx
      split_ifs at hx <;> simp at hx <;> rcases hx with hx | hx <;> subst hx <;> rfl
    | none =>
      simp only [] at hx
      split_ifs at hx
      · simp at hx
        rcases hx with hx | hx <;> subst hx <;> rfl
      · simp at hx
        rcases hx with hx | hx <;> subst hx <;> rfl
      · simp only [List.mem_append, List.mem_cons, List.mem_singleton, List.not_mem_nil,
          or_false] at hx
        rcases hx with (hx | hx) | hx
        · subst hx; rfl
        · subst hx; rfl
        · exact hr x hx
  · simp only [h1, if_false, Bool.false_eq_true] at hx
    exact hr x hx

theorem handle_ipv4_forward_is_forwarding (cfg : Config) (k : Consts) (w : World) (ctx : Pkt)
    (ip4 : Iphdr) (secctx : Nat) (from_host : Bool) :
    ∀ x ∈ (handle_ipv4_forward cfg k w ctx ip4 secctx from_host).trace,
      x.is_forwarding = true := by
  intro x hx
  unfold handle_ipv4_forward at hx
  cases hep : w.lookup_ip4_endpoint ip4 with
  | some ep =>
    simp only [hep] at hx
    split_ifs at hx <;> simp at hx <;> subst hx <;> rfl
  | none =>
    simp only [hep] at hx
    exact handle_ipv4_encap_is_forwarding cfg k w ctx ip4 secctx from_host x hx

theorem handle_ipv6_forward_is_forwarding (cfg : Config) (k : Consts) (w : World) (ctx : Pkt)
    (ip6 : Ipv6hdr) (secctx : Nat) (from_host : Bool) :
    ∀ x ∈ (handle_ipv6_forward cfg k w ctx ip6 secctx from_host).trace,
      x.is_forwarding = true := by
  intro x hx
  unfold handle_ipv6_forward at hx
  cases hep : w.lookup_ip6_endpoint ip6 with
  | some ep =>
    simp only [hep] at hx
    split_ifs at hx
    · simp at hx
    · simp at hx
      subst hx
      rfl
  | none =>
    simp only [hep] at hx
    exact handle_ipv6_encap_is_forwarding cfg k w ctx ip6 secctx from_host x hx

theorem handle_ipv4_policy_ingress_src (cfg : Config) (k : Consts) (w : World) (ctx : Pkt)
    (ip4 : Iphdr) (secctx : Nat) (skip : Bool) :
    ∀ e ∈ (handle_ipv4_policy cfg k w ctx ip4 secctx false skip).trace, ∀ s,
      e.ingress_src = some s → e ∈ (ipv4_host_policy_ingress cfg k w ctx 0).trace := by
  intro e he s hs
  unfold handle_ipv4_policy at he
  by_cases hfw : cfg.ENABLE_HOST_FIREWALL = true
  · simp only [hfw, if_true, Bool.false_eq_true, if_false] at he
    generalize ipv4_host_policy_ingress cfg k w ctx 0 = st at he ⊢
    split_ifs at he
    · exact he
    · exact he
    · cases hip : ctx.ip4 with
      | none =>
        simp only [hip] at he
        exact he
      | some ip4x =>
        simp only [hip] at he
        rcases List.mem_append.mp he with he | he
        · exact he
        · rw [ingress_src_of_is_forwarding e
            (handle_ipv4_forward_is_forwarding cfg k w ctx ip4x secctx false e he)] at hs
          cases hs
  · simp only [hfw, if_false, Bool.false_eq_true] at he
    rw [ingress_src_of_is_forwarding e
      (handle_ipv4_forward_is_forwarding cfg k w ctx ip4 secctx false e he)] at hs
    cases hs

theorem handle_ipv6_policy_ingress_src (cfg : Config) (k : Consts) (w : World) (ctx : Pkt)
    (ip6 : Ipv6hdr) (secctx : Nat) (skip : Bool) :
    ∀ e ∈ (handle_ipv6_policy cfg k w ctx ip6 secctx false skip).trace, ∀ s,
      e.ingress_src = some s →
      e ∈ (ipv6_host_policy_ingress k w ctx k.WORLD_ID).trace := by
  intro e he s hs
  unfold handle_ipv6_policy at he
  by_cases hfw : cfg.ENABLE_HOST_FIREWALL = true
  · simp only [hfw, if_true, Bool.false_eq_true, if_false] at he
    generalize ipv6_host_policy_ingress k w ctx k.WORLD_ID = st at he ⊢
    split_ifs at he
    · exact he
    · exact he
    · cases hip : ctx.ip6 with
      | none =>
        simp only [hip] at he
        exact he
      | some ip6x =>
        simp only [hip] at he
        rcases List.mem_append.mp he with he | he
        · exact he
        · rw [ingress_src_of_is_forwarding e
            (handle_ipv6_forward_is_forwarding cfg k w ctx ip6x secctx false e he)] at hs
          cases hs
  · simp only [hfw, if_false, Bool.false_eq_true] at he
    rw [ingress_src_of_is_forwarding e
      (handle_ipv6_forward_is_forwarding cfg k w ctx ip6 secctx false e he)] at hs
    cases hs

theorem handle_ipv4_ingress_src (cfg : Config) (k : Consts) (w : World) (ctx : Pkt)
    (secctx : Nat) :
    ∀ e ∈ (handle_ipv4 cfg k w ctx secctx false).trace, ∀ s, e.ingress_src = some s →
      ∃ ctx1, e ∈ (ipv4_host_policy_ingress cfg k w ctx1 0).trace := by
  intro e he s hs
  unfold handle_ipv4 at he
  cases hip : ctx.ip4 with
  | none => simp [hip] at he
  | some ip4 =>
    simp only [hip] at he
    by_cases hnp : cfg.ENABLE_NODEPORT = true
    · simp only [hnp, true_and, if_true] at he
      generalize (decide (w.ctx_get_xfer ctx ≠ k.XFER_PKT_NO_SVC) && !w.bpf_skip_nodeport ctx)
        = call_lb at he
      generalize w.nodeport_lb4 ctx secctx = lb at he
      have htr : ∀ x ∈ (if call_lb = true then [Event.nodeport_lb false secctx lb.1] else []),
          x.ingress_src = none := by
        intro x hx
        split_ifs at hx
        · simp at hx; subst hx; rfl
        · simp at hx
      generalize (if call_lb = true then [Event.nodeport_lb false secctx lb.1] else []) = tr
        at he htr
      generalize (if call_lb = true then lb.2 else ctx) = ctx1 at he
      split_ifs at he
      · rw [htr e he] at hs; cases hs
      · rw [htr e he] at hs; cases hs
      · cases hip1 : ctx1.ip4 with
        | none =>
          simp only [hip1] at he
          rw [htr e he] at hs; cases hs
        | some ip4x =>
          simp only [hip1] at he
          rcases List.mem_append.mp he with he | he
          · rw [htr e he] at hs; cases hs
          · unfold handle_ipv4_dmac at he
            simp only [Bool.false_eq_true, false_and, if_false] at he
            exact ⟨ctx1, handle_ipv4_policy_ingress_src cfg k w ctx1 ip4x secctx _ e he s hs⟩
    · simp only [hnp, false_and, if_false] at he
      unfold handle_ipv4_dmac at he
      simp only [Bool.false_eq_true, false_and, if_false] at he
      exact ⟨ctx, handle_ipv4_policy_ingress_src cfg k w ctx ip4 secctx _ e he s hs⟩

theorem handle_ipv6_icmp_ingress_src (cfg : Config) (k : Consts) (w : World) (ctx : Pkt)
    (ip6 : Ipv6hdr) (secctx : Nat) (skip : Bool) :
    ∀ e ∈ (handle_ipv6_icmp cfg k w ctx ip6 secctx false skip).trace, ∀ s,
      e.ingress_src = some s →
      e ∈ (ipv6_host_policy_ingress k w ctx k.WORLD_ID).trace := by
  intro e he s hs
  have hd : ∀ x ∈ (handle_ipv6_dmac cfg k w ctx ip6 secctx false skip).trace,
      x.ingress_src = some s → x ∈ (ipv6_host_policy_ingress k w ctx k.WORLD_ID).trace := by
    intro x hx hxs
    unfold handle_ipv6_dmac at hx
    simp only [Bool.false_eq_true, false_and, if_false] at hx
    exact handle_ipv6_policy_ingress_src cfg k w ctx ip6 secctx _ x hx s hxs
  unfold handle_ipv6_icmp at he
  cases skip with
  | false =>
    simp only [if_true] at he
    split_ifs at he
    · simp at he; subst he; cases hs
    · simp only [List.mem_append, List.mem_singleton] at he
      rcases he with he | he
      · subst he; cases hs
      · exact hd e he hs
  | true =>
    simp only [Bool.true_eq_false, if_false] at he
    exact hd e he hs

theorem handle_ipv6_ingress_src (cfg : Config) (k : Consts) (w : World) (ctx : Pkt)
    (secctx : Nat) :
    ∀ e ∈ (handle_ipv6 cfg k w ctx secctx false).trace, ∀ s, e.ingress_src = some s →
      ∃ ctx1, e ∈ (ipv6_host_policy_ingress k w ctx1 k.WORLD_ID).trace := by
  intro e he s hs
  unfold handle_ipv6 at he
  cases hip : ctx.ip6 with
  | none => simp [hip] at he
  | some ip6 =>
    simp only [hip] at he
    by_cases hnp : cfg.ENABLE_NODEPORT = true
    · simp only [hnp, true_and, if_true] at he
      generalize (decide (w.ctx_get_xfer ctx ≠ k.XFER_PKT_NO_SVC) && !w.bpf_skip_nodeport ctx)
        = call_lb at he
      generalize w.nodeport_lb6 ctx secctx = lb at he
      have htr : ∀ x ∈ (if call_lb = true then [Event.nodeport_lb true secctx lb.1] else []),
          x.ingress_src = none := by
        intro x hx
        split_ifs at hx
        · simp at hx; subst hx; rfl
        · simp at hx
      generalize (if call_lb = true then [Event.nodeport_lb true secctx lb.1] else []) = tr
        at he htr
      generalize (if call_lb = true then lb.2 else ctx) = ctx1 at he
      split_ifs at he
      · rw [htr e he] at hs; cases hs
      · rw [htr e he] at hs; cases hs
      · cases hip1 : ctx1.ip6 with
        | none =>
          simp only [hip1] at he
          rw [htr e he] at hs; cases hs
        | some ip6x =>
          simp only [hip1] at he
          rcases List.mem_append.mp he with he | he
          · rw [htr e he] at hs; cases hs
          · exact ⟨ctx1, handle_ipv6_icmp_ingress_src cfg k w ctx1 ip6x secctx _ e he s hs⟩
    · simp only [hnp, Bool.false_eq_true, false_and, if_false] at he
      exact ⟨ctx, handle_ipv6_icmp_ingress_src cfg k w ctx ip6 secctx _ e he s hs⟩

theorem to_host_mark_ingress_src (k : Consts) (w : World) (ctx : Pkt) :
    ∀ x ∈ (to_host_mark k w ctx).2.2, x.ingress_src = none := by
  intro x hx
  unfold to_host_mark at hx
  dsimp only at hx
  split_ifs at hx <;> simp at hx
  · rcases hx with hx | hx <;> subst hx <;> rfl
  · subst hx; rfl
  · subst hx; rfl

theorem to_host_ingress_src (cfg : Config) (k : Consts) (w : World) (ctx : Pkt) :
    ∀ e ∈ (to_host cfg k w ctx).trace, ∀ s, e.ingress_src = some s →
      ∃ ctx1, e ∈ (ipv4_host_policy_ingress cfg k w ctx1 (to_host_mark k w ctx).1).trace ∨
        e ∈ (ipv6_host_policy_ingress k w ctx1 (to_host_mark k w ctx).1).trace := by
  intro e he s hs
  have hm := to_host_mark_ingress_src k w ctx
  have hp : ∀ x ∈ (to_host_policy cfg k w (to_host_mark k w ctx).2.1
      (to_host_mark k w ctx).1).trace,
      ∃ ctx1, x ∈ (ipv4_host_policy_ingress cfg k w ctx1 (to_host_mark k w ctx).1).trace ∨
        x ∈ (ipv6_host_policy_ingress k w ctx1 (to_host_mark k w ctx).1).trace := by
    intro x hx
    unfold to_host_policy at hx
    dsimp only at hx
    split_ifs at hx
    · simp at hx
    · simp at hx
    · exact ⟨_, Or.inr hx⟩
    · exact ⟨_, Or.inl hx⟩
    · simp at hx
  unfold to_host at he
  dsimp only at he
  split_ifs at he
  · simp only [List.mem_append, List.mem_singleton] at he
    rcases he with (he | he) | he
    · rw [hm e he] at hs; cases hs
    · exact hp e he
    · subst he; cases hs
  · simp only [List.mem_append] at he
    rcases he with he | he
    · rw [hm e he] at hs; cases hs
    · exact hp e he
  · rw [hm e he] at hs; cases hs

theorem sec_label_override_of_label_zero (id : Nat) (info : Option RemoteEndpointInfo)
    (h : ipcache_label info = 0) : sec_label_override id info = id := by
  cases info with
  | none => rfl
  | some i =>
    have hi : i.sec_label = 0 := h
    simp [sec_label_override, hi]

theorem ipv4_host_policy_ingress_src (cfg : Config) (k : Consts) (w : World) (ctx : Pkt)
    (srcID : Nat) (ip4 : Iphdr) (hip : ctx.ip4 = some ip4) :
    ∀ e ∈ (ipv4_host_policy_ingress cfg k w ctx srcID).trace, ∀ s, e.ingress_src = some s →
      s = sec_label_override srcID (w.lookup_ip4_remote_endpoint ip4.saddr) := by
  unfold ipv4_host_policy_ingress
  simp only [hip]
  generalize w.lookup_ip4_remote_endpoint ip4.daddr = info
  generalize sec_label_override k.WORLD_ID info = dstID
  generalize w.ct_lookup4 ctx _ _ _ = ct
  generalize sec_label_override srcID (w.lookup_ip4_remote_endpoint ip4.saddr) = srcID1
  generalize (w.lookup_ip4_remote_endpoint ip4.saddr).isSome = b
  generalize (if cfg.IPV4_FRAGMENTS = true then false else k.ipv4_is_fragment ip4) = frag
  generalize w.policy_can_access_ingress ctx srcID1 dstID ct.tuple.dport ct.tuple.nexthdr
    frag = pol
  generalize w.ct_create4 ctx ct.tuple Dir.ingress _ _ = cr
  split_ifs <;> simp [Event.ingress_src, eq_comm]

theorem ipv6_host_policy_ingress_src (k : Consts) (w : World) (ctx : Pkt)
    (srcID : Nat) (ip6 : Ipv6hdr) (hip : ctx.ip6 = some ip6) :
    ∀ e ∈ (ipv6_host_policy_ingress k w ctx srcID).trace, ∀ s, e.ingress_src = some s →
      s = sec_label_override srcID (w.lookup_ip6_remote_endpoint ip6.saddr) := by
  unfold ipv6_host_policy_ingress
  simp only [hip]
  generalize w.lookup_ip6_remote_endpoint ip6.daddr = info
  generalize sec_label_override k.WORLD_ID info = dstID
  generalize w.ipv6_hdrlen ctx k.ETH_HLEN ip6.nexthdr = hl
  generalize w.ct_lookup6 ctx _ _ _ = ct
  generalize sec_label_override srcID (w.lookup_ip6_remote_endpoint ip6.saddr) = srcID1
  generalize (w.lookup_ip6_remote_endpoint ip6.saddr).isSome = b
  generalize w.policy_can_access_ingress ctx srcID1 dstID ct.tuple.dport ct.tuple.nexthdr
    false = pol
  generalize w.ct_create6 ctx ct.tuple Dir.ingress _ _ = cr
  split_ifs <;> simp [Event.ingress_src, eq_comm]

/-- C25: in `ipv4_host_policy_ingress` and `ipv6_host_policy_ingress`, when
the source address has no ipcache entry or an entry with label 0, every ingress
policy evaluation, ingress verdict notification and ingress conntrack insert of
the run carries as source identity the value passed in `*srcID`. Every such
event of `handle_ipv4` (for a packet not from the host) stems from a call of
the stage with `*srcID = 0`, every such event of `handle_ipv6` from a call with
`*srcID = WORLD_ID`, and every such event of `to_host` from a call with the
identity of `to_host_mark`, which is the `CB_ENCRYPT_IDENTITY` metadata for a
packet carrying the encryption magic and 0 otherwise; `secctx` does not occur
in any of them. -/
theorem ingress_src_default (cfg : Config) (k : Consts) (w : World) (ctx : Pkt)
    (secctx : Nat) :
    (∀ (srcID : Nat) (ip4 : Iphdr), ctx.ip4 = some ip4 →
      ipcache_label (w.lookup_ip4_remote_endpoint ip4.saddr) = 0 →
      ∀ e ∈ (ipv4_host_policy_ingress cfg k w ctx srcID).trace, ∀ s,
        e.ingress_src = some s → s = srcID) ∧
    (∀ (srcID : Nat) (ip6 : Ipv6hdr), ctx.ip6 = some ip6 →
      ipcache_label (w.lookup_ip6_remote_endpoint ip6.saddr) = 0 →
      ∀ e ∈ (ipv6_host_policy_ingress k w ctx srcID).trace, ∀ s,
        e.ingress_src = some s → s = srcID) ∧
    (∀ e ∈ (handle_ipv4 cfg k w ctx secctx false).trace, ∀ s, e.ingress_src = some s →
      ∃ ctx1, e ∈ (ipv4_host_policy_ingress cfg k w ctx1 0).trace) ∧
    (∀ e ∈ (handle_ipv6 cfg k w ctx secctx false).trace, ∀ s, e.ingress_src = some s →
      ∃ ctx1, e ∈ (ipv6_host_policy_ingress k w ctx1 k.WORLD_ID).trace) ∧
    (∀ e ∈ (to_host cfg k w ctx).trace, ∀ s, e.ingress_src = some s →
      ∃ ctx1, e ∈ (ipv4_host_policy_ingress cfg k w ctx1 (to_host_mark k w ctx).1).trace ∨
        e ∈ (ipv6_host_policy_ingress k w ctx1 (to_host_mark k w ctx).1).trace) ∧
    (to_host_mark k w ctx).1 =
      (if ctx.cb_magic &&& k.MARK_MAGIC_HOST_MASK = k.MARK_MAGIC_ENCRYPT
        then ctx.cb_encrypt_identity else 0) := by
  refine ⟨?_, ?_, handle_ipv4_ingress_src cfg k w ctx secctx,
    handle_ipv6_ingress_src cfg k w ctx secctx, to_host_ingress_src cfg k w ctx, ?_⟩
  · intro srcID ip4 hip hl e he s hs
    rw [ipv4_host_policy_ingress_src cfg k w ctx srcID ip4 hip e he s hs,
      sec_label_override_of_label_zero srcID _ hl]
  · intro srcID ip6 hip hl e he s hs
    rw [ipv6_host_policy_ingress_src k w ctx srcID ip6 hip e he s hs,
      sec_label_override_of_label_zero srcID _ hl]
  · unfold to_host_mark
    dsimp only
    split_ifs <;> rfl

/-- Example for C25: a packet from 10.0.0.5 (no ipcache entry) to the host,
handled by `handle_ipv4` with `secctx = 200`, is evaluated by the ingress host
policy with source identity 0; at `to-host`, with the encryption magic and
identity 77 in the metadata, it is evaluated with source identity 77. -/
theorem ingress_src_default_witness :
    world_miss.lookup_ip4_remote_endpoint addr_10_0_0_5 = none ∧
    PolicyEvaluated
      (handle_ipv4 { ENABLE_HOST_FIREWALL := true } consts0 world_miss pkt_scn 200 false).trace
      0 { verdict := 0 } ∧
    PolicyEvaluated (to_host { ENABLE_HOST_FIREWALL := true } consts0 world_miss pkt_to_host).trace
      77 { verdict := 0 } ∧
    ∀ e ∈ (ipv4_host_policy_ingress { ENABLE_HOST_FIREWALL := true } consts0 world_miss
        pkt_scn 0).trace, ∀ s, e.ingress_src = some s → s = 0 :=
  ⟨by decide, by decide, by decide,
    (ingress_src_default { ENABLE_HOST_FIREWALL := true } consts0 world_miss pkt_scn 200).1 0
      { saddr := addr_10_0_0_5, daddr := addr_10_0_0_1, protocol := 6 } rfl (by decide)⟩

/-! ## Skip-redirect mode -/

theorem handle_ipv4_skip_eq (cfg : Config) (k : Consts) (w : World) (ctx : Pkt)
    (secctx : Nat) (ip4 : Iphdr) (hNP : cfg.ENABLE_NODEPORT = true)
    (hSR : (cfg.ENCAP_IFINDEX || cfg.NO_REDIRECT) = true) (hip : ctx.ip4 = some ip4) :
    handle_ipv4 cfg k w ctx secctx false =
      if nodeport_lb_called k w ctx = true ∧ (w.nodeport_lb4 ctx secctx).1 < 0 then
        ⟨(w.nodeport_lb4 ctx secctx).1,
          [Event.nodeport_lb false secctx (w.nodeport_lb4 ctx secctx).1]⟩
      else if cfg.ENABLE_HOST_FIREWALL = false then
        ⟨k.CTX_ACT_OK, if nodeport_lb_called k w ctx = true
          then [Event.nodeport_lb false secctx (w.nodeport_lb4 ctx secctx).1] else []⟩
      else
        match (after_lb4 k w ctx secctx).ip4 with
        | none => ⟨k.DROP_INVALID, if nodeport_lb_called k w ctx = true
            then [Event.nodeport_lb false secctx (w.nodeport_lb4 ctx secctx).1] else []⟩
        | some _ =>
          ⟨if k.IS_ERR (ipv4_host_policy_ingress cfg k w (after_lb4 k w ctx secctx) 0).ret
              then (ipv4_host_policy_ingress cfg k w (after_lb4 k w ctx secctx) 0).ret
              else k.CTX_ACT_OK,
            (if nodeport_lb_called k w ctx = true
              then [Event.nodeport_lb false secctx (w.nodeport_lb4 ctx secctx).1] else []) ++
            (ipv4_host_policy_ingress cfg k w (after_lb4 k w ctx secctx) 0).trace⟩ := by
  unfold handle_ipv4 after_lb4 nodeport_lb_called
  simp only [hip, hNP, hSR, true_and, if_true]
  generalize (decide (w.ctx_get_xfer ctx ≠ k.XFER_PKT_NO_SVC) && !w.bpf_skip_nodeport ctx)
    = called
  generalize w.nodeport_lb4 ctx secctx = lb
  by_cases h1 : called = true ∧ lb.1 < 0
  · rw [if_pos h1, if_pos h1]
    simp [h1.1]
  · rw [if_neg h1, if_neg h1]
    cases hfw : cfg.ENABLE_HOST_FIREWALL with
    | false => simp
    | true =>
      simp only [Bool.not_true, Bool.and_false, Bool.false_eq_true, if_false, Bool.true_eq_false]
      cases hip1 : (if called = true then lb.2 else ctx).ip4 with
      | none => simp
      | some ip4x =>
        simp only [handle_ipv4_dmac, Bool.false_eq_true, false_and, if_false,
          handle_ipv4_policy, hfw, if_true]
        split_ifs <;> rfl

theorem handle_ipv6_skip_eq (cfg : Config) (k : Consts) (w : World) (ctx : Pkt)
    (secctx : Nat) (ip6 : Ipv6hdr) (hNP : cfg.ENABLE_NODEPORT = true)
    (hSR : (cfg.ENCAP_IFINDEX || cfg.NO_REDIRECT) = true) (hip : ctx.ip6 = some ip6) :
    handle_ipv6 cfg k w ctx secctx false =
      if nodeport_lb_called k w ctx = true ∧ (w.nodeport_lb6 ctx secctx).1 < 0 then
        ⟨(w.nodeport_lb6 ctx secctx).1,
          [Event.nodeport_lb true secctx (w.nodeport_lb6 ctx secctx).1]⟩
      else if cfg.ENABLE_HOST_FIREWALL = false then
        ⟨k.CTX_ACT_OK, if nodeport_lb_called k w ctx = true
          then [Event.nodeport_lb true secctx (w.nodeport_lb6 ctx secctx).1] else []⟩
      else
        match (after_lb6 k w ctx secctx).ip6 with
        | none => ⟨k.DROP_INVALID, if nodeport_lb_called k w ctx = true
            then [Event.nodeport_lb true secctx (w.nodeport_lb6 ctx secctx).1] else []⟩
        | some _ =>
          ⟨if k.IS_ERR (ipv6_host_policy_ingress k w (after_lb6 k w ctx secctx) k.WORLD_ID).ret
              then (ipv6_host_policy_ingress k w (after_lb6 k w ctx secctx) k.WORLD_ID).ret
              else k.CTX_ACT_OK,
            (if nodeport_lb_called k w ctx = true
              then [Event.nodeport_lb true secctx (w.nodeport_lb6 ctx secctx).1] else []) ++
            (ipv6_host_policy_ingress k w (after_lb6 k w ctx secctx) k.WORLD_ID).trace⟩ := by
  unfold handle_ipv6 after_lb6 nodeport_lb_called
  simp only [hip, hNP, hSR, true_and, if_true]
  generalize (decide (w.ctx_get_xfer ctx ≠ k.XFER_PKT_NO_SVC) && !w.bpf_skip_nodeport ctx)
    = called
  generalize w.nodeport_lb6 ctx secctx = lb
  by_cases h1 : called = true ∧ lb.1 < 0
  · rw [if_pos h1, if_pos h1]
    simp [h1.1]
  · rw [if_neg h1, if_neg h1]
    cases hfw : cfg.ENABLE_HOST_FIREWALL with
    | false => simp
    | true =>
      simp only [Bool.not_true, Bool.and_false, Bool.false_eq_true, if_false, Bool.true_eq_false]
      cases hip1 : (if called = true then lb.2 else ctx).ip6 with
      | none => simp
      | some ip6x =>
        simp only [handle_ipv6_icmp, Bool.true_eq_false, handle_ipv6_dmac, Bool.false_eq_true,
          false_and, if_false, handle_ipv6_policy, hfw, if_true]
        split_ifs <;> rfl

theorem not_forwarding_of_lb (called : Bool) (v6 : Bool) (secctx : Nat) (r : Int) :
    ∀ x ∈ (if called = true then [Event.nodeport_lb v6 secctx r] else []),
      x.is_forwarding = false := by
  intro x hx
  split_ifs at hx
  · simp at hx; subst hx; rfl
  · simp at hx

/-- C26: with ENABLE_NODEPORT and (ENCAP_IFINDEX or NO_REDIRECT), for every
packet not originated by the host, a run of `handle_ipv4` / `handle_ipv6`
contains no local delivery, no tunnel encapsulation and no ipcache forwarding
lookup. For a packet with a readable header: a negative result of the load
balancer is returned as is; otherwise, without the host firewall the result is
CTX_ACT_OK right after the load-balancer step, and with the host firewall the
result is the result of the ingress host-policy stage if that is an error and
CTX_ACT_OK if not (DROP_INVALID if the header cannot be read again after the
load balancer). A packet whose header cannot be read at entry gets
DROP_INVALID. -/
theorem skip_redirect_mode (cfg : Config) (k : Consts) (w : World) (ctx : Pkt)
    (secctx : Nat) (hNP : cfg.ENABLE_NODEPORT = true)
    (hSR : (cfg.ENCAP_IFINDEX || cfg.NO_REDIRECT) = true) :
    ((∀ x ∈ (handle_ipv4 cfg k w ctx secctx false).trace, x.is_forwarding = false) ∧
      (ctx.ip4 = none → handle_ipv4 cfg k w ctx secctx false = ⟨k.DROP_INVALID, []⟩) ∧
      (∀ ip4, ctx.ip4 = some ip4 →
        (nodeport_lb_called k w ctx = true → (w.nodeport_lb4 ctx secctx).1 < 0 →
          (handle_ipv4 cfg k w ctx secctx false).ret = (w.nodeport_lb4 ctx secctx).1) ∧
        (¬(nodeport_lb_called k w ctx = true ∧ (w.nodeport_lb4 ctx secctx).1 < 0) →
          (cfg.ENABLE_HOST_FIREWALL = false →
            handle_ipv4 cfg k w ctx secctx false =
              ⟨k.CTX_ACT_OK, if nodeport_lb_called k w ctx = true
                then [Event.nodeport_lb false secctx (w.nodeport_lb4 ctx secctx).1] else []⟩) ∧
          (cfg.ENABLE_HOST_FIREWALL = true → (after_lb4 k w ctx secctx).ip4 = none →
            (handle_ipv4 cfg k w ctx secctx false).ret = k.DROP_INVALID) ∧
          (cfg.ENABLE_HOST_FIREWALL = true → (after_lb4 k w ctx secctx).ip4 ≠ none →
            (handle_ipv4 cfg k w ctx secctx false).ret =
              if k.IS_ERR (ipv4_host_policy_ingress cfg k w (after_lb4 k w ctx secctx) 0).ret
              then (ipv4_host_policy_ingress cfg k w (after_lb4 k w ctx secctx) 0).ret
              else k.CTX_ACT_OK)))) ∧
    ((∀ x ∈ (handle_ipv6 cfg k w ctx secctx false).trace, x.is_forwarding = false) ∧
      (ctx.ip6 = none → handle_ipv6 cfg k w ctx secctx false = ⟨k.DROP_INVALID, []⟩) ∧
      (∀ ip6, ctx.ip6 = some ip6 →
        (nodeport_lb_called k w ctx = true → (w.nodeport_lb6 ctx secctx).1 < 0 →
          (handle_ipv6 cfg k w ctx secctx false).ret = (w.nodeport_lb6 ctx secctx).1) ∧
        (¬(nodeport_lb_called k w ctx = true ∧ (w.nodeport_lb6 ctx secctx).1 < 0) →
          (cfg.ENABLE_HOST_FIREWALL = false →
            handle_ipv6 cfg k w ctx secctx false =
              ⟨k.CTX_ACT_OK, if nodeport_lb_called k w ctx = true
                then [Event.nodeport_lb true secctx (w.nodeport_lb6 ctx secctx).1] else []⟩) ∧
          (cfg.ENABLE_HOST_FIREWALL = true → (after_lb6 k w ctx secctx).ip6 = none →
            (handle_ipv6 cfg k w ctx secctx false).ret = k.DROP_INVALID) ∧
          (cfg.ENABLE_HOST_FIREWALL = true → (after_lb6 k w ctx secctx).ip6 ≠ none →
            (handle_ipv6 cfg k w ctx secctx false).ret =
              if k.IS_ERR
                (ipv6_host_policy_ingress k w (after_lb6 k w ctx secctx) k.WORLD_ID).ret
              then (ipv6_host_policy_ingress k w (after_lb6 k w ctx secctx) k.WORLD_ID).ret
              else k.CTX_ACT_OK)))) := by
  constructor
  · refine ⟨?_, ?_, ?_⟩
    · cases hip : ctx.ip4 with
      | none => simp [handle_ipv4, hip]
      | some ip4 =>
        rw [handle_ipv4_skip_eq cfg k w ctx secctx ip4 hNP hSR hip]
        have hlb := not_forwarding_of_lb (nodeport_lb_called k w ctx) false secctx
          (w.nodeport_lb4 ctx secctx).1
        have hst := not_forwarding_of_stage
          (ipv4_host_policy_ingress_shape cfg k w (after_lb4 k w ctx secctx) 0)
        intro x hx
        generalize (if nodeport_lb_called k w ctx = true
          then [Event.nodeport_lb false secctx (w.nodeport_lb4 ctx secctx).1] else []) = tr
          at hx hlb
        generalize ipv4_host_policy_ingress cfg k w (after_lb4 k w ctx secctx) 0 = st at hx hst
        by_cases h1 : nodeport_lb_called k w ctx = true ∧ (w.nodeport_lb4 ctx secctx).1 < 0
        · rw [if_pos h1] at hx
          simp at hx
          subst hx
          rfl
        · rw [if_neg h1] at hx
          by_cases h2 : cfg.ENABLE_HOST_FIREWALL = false
          · rw [if_pos h2] at hx
            exact hlb x hx
          · rw [if_neg h2] at hx
            cases hip1 : (after_lb4 k w ctx secctx).ip4 with
            | none =>
              simp only [hip1] at hx
              exact hlb x hx
            | some ip4x =>
              simp only [hip1] at hx
              rcases List.mem_append.mp hx with hx | hx
              · exact hlb x hx
              · exact hst x hx
    · intro hip
      simp [handle_ipv4, hip]
    · intro ip4 hip
      rw [handle_ipv4_skip_eq cfg k w ctx secctx ip4 hNP hSR hip]
      refine ⟨?_, ?_⟩
      · intro h1 h2
        rw [if_pos ⟨h1, h2⟩]
      · intro h
        rw [if_neg h]
        refine ⟨?_, ?_, ?_⟩
        · intro hfw
          rw [if_pos hfw]
        · intro hfw hnone
          simp [hfw, hnone]
        · intro hfw hsome
          cases hip1 : (after_lb4 k w ctx secctx).ip4 with
          | none => exact absurd hip1 hsome
          | some ip4x => simp [hfw]
  · refine ⟨?_, ?_, ?_⟩
    · cases hip : ctx.ip6 with
      | none => simp [handle_ipv6, hip]
      | some ip6 =>
        rw [handle_ipv6_skip_eq cfg k w ctx secctx ip6 hNP hSR hip]
        have hlb := not_forwarding_of_lb (nodeport_lb_called k w ctx) true secctx
          (w.nodeport_lb6 ctx secctx).1
        have hst := not_forwarding_of_stage
          (ipv6_host_policy_ingress_shape k w (after_lb6 k w ctx secctx) k.WORLD_ID)
        intro x hx
        generalize (if nodeport_lb_called k w ctx = true
          then [Event.nodeport_lb true secctx (w.nodeport_lb6 ctx secctx).1] else []) = tr
          at hx hlb
        generalize ipv6_host_policy_ingress k w (after_lb6 k w ctx secctx) k.WORLD_ID = st at hx hst
        by_cases h1 : nodeport_lb_called k w ctx = true ∧ (w.nodeport_lb6 ctx secctx).1 < 0
        · rw [if_pos h1] at hx
          simp at hx
          subst hx
          rfl
        · rw [if_neg h1] at hx
          by_cases h2 : cfg.ENABLE_HOST_FIREWALL = false
          · rw [if_pos h2] at hx
            exact hlb x hx
          · rw [if_neg h2] at hx
            cases hip1 : (after_lb6 k w ctx secctx).ip6 with
            | none =>
              simp only [hip1] at hx
              exact hlb x hx
            | some ip6x =>
              simp only [hip1] at hx
              rcases List.mem_append.mp hx with hx | hx
              · exact hlb x hx
              · exact hst x hx
    · intro hip
      simp [handle_ipv6, hip]
    · intro ip6 hip
      rw [handle_ipv6_skip_eq cfg k w ctx secctx ip6 hNP hSR hip]
      refine ⟨?_, ?_⟩
      · intro h1 h2
        rw [if_pos ⟨h1, h2⟩]
      · intro h
        rw [if_neg h]
        refine ⟨?_, ?_, ?_⟩
        · intro hfw
          rw [if_pos hfw]
        · intro hfw hnone
          simp [hfw, hnone]
        · intro hfw hsome
          cases hip1 : (after_lb6 k w ctx secctx).ip6 with
          | none => exact absurd hip1 hsome
          | some ip6x => simp [hfw]

/-- Example for C26: in skip-redirect mode a packet from the network to a
local endpoint is passed to the stack after the load balancer, without local
delivery; with the host firewall and a denying policy the ingress error -133
is returned. -/
theorem skip_redirect_mode_witness :
    world_dmac_fail.lookup_ip4_endpoint
      { saddr := addr_10_0_0_5, daddr := addr_10_0_0_1, protocol := 6 } =
      some { flags := 0, lxc_id := 5 } ∧
    handle_ipv4 { ENABLE_NODEPORT := true, NO_REDIRECT := true } consts0 world_dmac_fail
      pkt_scn 200 false = ⟨consts0.CTX_ACT_OK, [Event.nodeport_lb false 200 0]⟩ ∧
    (handle_ipv4 { ENABLE_NODEPORT := true, ENCAP_IFINDEX := true, ENABLE_HOST_FIREWALL := true }
      consts0 (world_scn 0) pkt_scn 200 false).ret = -133 := by
  have h1 := ((((skip_redirect_mode { ENABLE_NODEPORT := true, NO_REDIRECT := true } consts0
    world_dmac_fail pkt_scn 200 rfl rfl).1.2.2
    { saddr := addr_10_0_0_5, daddr := addr_10_0_0_1, protocol := 6 } rfl).2 (by decide)).1 rfl)
  have h2 := ((((skip_redirect_mode
    { ENABLE_NODEPORT := true, ENCAP_IFINDEX := true, ENABLE_HOST_FIREWALL := true } consts0
    (world_scn 0) pkt_scn 200 rfl rfl).1.2.2
    { saddr := addr_10_0_0_5, daddr := addr_10_0_0_1, protocol := 6 } rfl).2
    (by decide)).2.2 rfl (by decide))
  refine ⟨by decide, ?_, ?_⟩
  · rw [h1]
    decide
  · rw [h2]
    decide

/-! ## Frames of unknown type -/

theorem l3_enabled_false (cfg : Config) (k : Consts) (proto : Nat)
    (h : l3_enabled cfg k proto = false) :
    ¬((cfg.ENABLE_ARP_PASSTHROUGH || cfg.ENABLE_ARP_RESPONDER) = true ∧ proto = k.ETH_P_ARP) ∧
    ¬(cfg.ENABLE_IPV6 = true ∧ proto = k.ETH_P_IPV6) ∧
    ¬(cfg.ENABLE_IPV4 = true ∧ proto = k.ETH_P_IP) := by
  unfold l3_enabled at h
  simp only [Bool.or_eq_false_iff, Bool.and_eq_false_imp, decide_eq_false_iff_not] at h
  obtain ⟨⟨h1, h2⟩, h3⟩ := h
  exact ⟨fun ⟨a, b⟩ => h1 a b, fun ⟨a, b⟩ => h2 a b, fun ⟨a, b⟩ => h3 a b⟩

theorem do_netdev_switch_unknown (cfg : Config) (k : Consts) (w : World) (ctx : Pkt)
    (proto identity : Nat) (from_host : Bool) (h : l3_enabled cfg k proto = false) :
    do_netdev_switch cfg k w ctx proto identity from_host =
      if cfg.ENABLE_HOST_FIREWALL = true then
        ⟨w.send_drop_notify_error identity k.DROP_UNKNOWN_L3 k.CTX_ACT_DROP Dir.ingress,
          [Event.drop_notify_error identity k.DROP_UNKNOWN_L3 k.CTX_ACT_DROP Dir.ingress]⟩
      else ⟨k.CTX_ACT_OK, []⟩ := by
  obtain ⟨h1, h2, h3⟩ := l3_enabled_false cfg k proto h
  unfold do_netdev_switch
  rw [if_neg h1, if_neg h2, if_neg h3]

theorem do_netdev_unknown (cfg : Config) (k : Consts) (w : World) (ctx : Pkt)
    (proto : Nat) (from_host : Bool) (h : l3_enabled cfg k proto = false)
    (hsd : ∀ s e c d, w.send_drop_notify_error s e c d = c)
    (hsec : ¬(cfg.ENABLE_IPSEC = true ∧
      ctx.mark &&& k.MARK_MAGIC_HOST_MASK = k.MARK_MAGIC_ENCRYPT))
    (harp : ¬(from_host = true ∧ cfg.HOST_REDIRECT_TO_INGRESS = true ∧ proto = k.ETH_P_ARP)) :
    (do_netdev cfg k w ctx proto from_host).ret =
      (if cfg.ENABLE_HOST_FIREWALL = true then k.CTX_ACT_DROP else k.CTX_ACT_OK) ∧
    (cfg.ENABLE_HOST_FIREWALL = true → ∃ identity,
      Event.drop_notify_error identity k.DROP_UNKNOWN_L3 k.CTX_ACT_DROP Dir.ingress ∈
        (do_netdev cfg k w ctx proto from_host).trace) ∧
    (cfg.ENABLE_HOST_FIREWALL = false → ∀ x ∈ (do_netdev cfg k w ctx proto from_host).trace,
      ∃ p s, x = Event.trace_notify p s) := by
  unfold do_netdev
  rw [if_neg hsec]
  cases from_host with
  | true =>
    have harp2 : ¬(cfg.HOST_REDIRECT_TO_INGRESS = true ∧ proto = k.ETH_P_ARP) :=
      fun hh => harp ⟨rfl, hh⟩
    simp only [if_true]
    rw [if_neg harp2]
    simp only [do_netdev_switch_unknown cfg k w _ proto _ true h]
    by_cases hfw : cfg.ENABLE_HOST_FIREWALL = true
    · simp [hfw, hsd]
    · simp [hfw]
  | false =>
    simp only [Bool.false_eq_true, if_false]
    simp only [do_netdev_switch_unknown cfg k w _ proto _ false h]
    by_cases hfw : cfg.ENABLE_HOST_FIREWALL = true
    · simp [hfw, hsd]
    · simp [hfw]

/-- C27 (amended): taking the drop notifications to yield the exit code they
are given and `IS_ERR` to hold for DROP_UNSUPPORTED_L2 and DROP_UNKNOWN_L3.
A frame whose ethertype fails validation is dropped with DROP_UNSUPPORTED_L2
at from-netdev, from-host, to-netdev and to-host when the host firewall is
enabled, and passed (CTX_ACT_OK) at from-netdev, from-host and to-host when it
is disabled. A frame whose protocol is none of those handled by the
`switch (proto)` is dropped with DROP_UNKNOWN_L3 at to-netdev and to-host when
the host firewall is enabled and passed at to-host when it is disabled; at
from-netdev and from-host the same holds provided the frame is not taken
before the switch by the IPsec path (ENABLE_IPSEC and the encryption mark) or,
at from-host with HOST_REDIRECT_TO_INGRESS, by the ARP handling. -/
theorem unknown_l2_l3 (cfg : Config) (k : Consts) (w : World) (ctx : Pkt)
    (hsd : ∀ s e c d, w.send_drop_notify_error s e c d = c)
    (hsn : ∀ s d i e c dir, w.send_drop_notify s d i e c dir = c)
    (hL2 : k.IS_ERR k.DROP_UNSUPPORTED_L2 = true)
    (hL3 : k.IS_ERR k.DROP_UNKNOWN_L3 = true) :
    (∀ from_host, (w.validate_ethertype ctx).1 = false →
      handle_netdev cfg k w ctx from_host =
        if cfg.ENABLE_HOST_FIREWALL = true then
          ⟨k.CTX_ACT_DROP, [Event.drop_notify k.SECLABEL k.WORLD_ID 0 k.DROP_UNSUPPORTED_L2
            k.CTX_ACT_DROP Dir.egress]⟩
        else ⟨k.CTX_ACT_OK, [Event.trace_notify k.TRACE_TO_STACK k.HOST_ID]⟩) ∧
    (∀ from_host, (w.validate_ethertype ctx).1 = true →
      l3_enabled cfg k (w.validate_ethertype ctx).2 = false →
      ¬(cfg.ENABLE_IPSEC = true ∧
        ctx.mark &&& k.MARK_MAGIC_HOST_MASK = k.MARK_MAGIC_ENCRYPT) →
      ¬(from_host = true ∧ cfg.HOST_REDIRECT_TO_INGRESS = true ∧
        (w.validate_ethertype ctx).2 = k.ETH_P_ARP) →
      (handle_netdev cfg k w ctx from_host).ret =
        (if cfg.ENABLE_HOST_FIREWALL = true then k.CTX_ACT_DROP else k.CTX_ACT_OK) ∧
      (cfg.ENABLE_HOST_FIREWALL = true → ∃ identity,
        Event.drop_notify_error identity k.DROP_UNKNOWN_L3 k.CTX_ACT_DROP Dir.ingress ∈
          (handle_netdev cfg k w ctx from_host).trace)) ∧
    (cfg.ENABLE_HOST_FIREWALL = true → (w.validate_ethertype ctx).1 = false →
      to_netdev cfg k w ctx =
        ⟨k.CTX_ACT_DROP,
          [Event.drop_notify_error 0 k.DROP_UNSUPPORTED_L2 k.CTX_ACT_DROP Dir.egress]⟩) ∧
    (cfg.ENABLE_HOST_FIREWALL = true → (w.validate_ethertype ctx).1 = true →
      l3_enabled cfg k (w.validate_ethertype ctx).2 = false →
      to_netdev cfg k w ctx =
        ⟨k.CTX_ACT_DROP,
          [Event.drop_notify_error 0 k.DROP_UNKNOWN_L3 k.CTX_ACT_DROP Dir.egress]⟩) ∧
    (cfg.ENABLE_HOST_FIREWALL = true →
      (w.validate_ethertype (to_host_mark k w ctx).2.1).1 = false →
      to_host cfg k w ctx =
        ⟨k.CTX_ACT_DROP, (to_host_mark k w ctx).2.2 ++
          [Event.drop_notify_error (to_host_mark k w ctx).1 k.DROP_UNSUPPORTED_L2 k.CTX_ACT_DROP
            Dir.ingress]⟩) ∧
    (cfg.ENABLE_HOST_FIREWALL = true →
      (w.validate_ethertype (to_host_mark k w ctx).2.1).1 = true →
      l3_enabled cfg k (w.validate_ethertype (to_host_mark k w ctx).2.1).2 = false →
      to_host cfg k w ctx =
        ⟨k.CTX_ACT_DROP, (to_host_mark k w ctx).2.2 ++
          [Event.drop_notify_error (to_host_mark k w ctx).1 k.DROP_UNKNOWN_L3 k.CTX_ACT_DROP
            Dir.ingress]⟩) ∧
    (cfg.ENABLE_HOST_FIREWALL = false →
      to_host cfg k w ctx = ⟨k.CTX_ACT_OK, (to_host_mark k w ctx).2.2⟩) := by
  refine ⟨?_, ?_, ?_, ?_, ?_, ?_, ?_⟩
  · intro fh hv
    unfold handle_netdev
    simp only [hv, if_true]
    split_ifs
    · rw [hsn]
    · rfl
  · intro fh hv hl hsec harp
    have hd := do_netdev_unknown cfg k w ctx (w.validate_ethertype ctx).2 fh hl hsd hsec harp
    unfold handle_netdev
    simp only [hv, Bool.true_eq_false, if_false]
    exact ⟨hd.1, hd.2.1⟩
  · intro hfw hv
    unfold to_netdev to_netdev_policy
    simp [hfw, hv, hL2, hsd]
  · intro hfw hv hl
    obtain ⟨h1, h2, h3⟩ := l3_enabled_false cfg k _ hl
    unfold to_netdev to_netdev_policy
    simp only [hfw, hv, if_true, Bool.true_eq_false, if_false]
    rw [if_neg h1, if_neg h2, if_neg h3]
    simp [hL3, hsd]
  · intro hfw hv
    unfold to_host to_host_policy
    simp [hfw, hv, hL2, hsd]
  · intro hfw hv hl
    obtain ⟨h1, h2, h3⟩ := l3_enabled_false cfg k _ hl
    unfold to_host to_host_policy
    simp only [hfw, hv, if_true, Bool.true_eq_false, if_false]
    rw [if_neg h1, if_neg h2, if_neg h3]
    simp [hL3, hsd]
  · intro hfw
    unfold to_host
    simp [hfw]

/-- Example for C27: with the host firewall, a frame of unknown protocol is
dropped at from-netdev and a frame of invalid ethertype is dropped at
to-netdev. -/
theorem unknown_l2_l3_witness :
    consts0.IS_ERR consts0.DROP_UNSUPPORTED_L2 = true ∧
    consts0.IS_ERR consts0.DROP_UNKNOWN_L3 = true ∧
    (handle_netdev { ENABLE_HOST_FIREWALL := true } consts0 world0 pkt_unknown false).ret =
      consts0.CTX_ACT_DROP ∧
    to_netdev { ENABLE_HOST_FIREWALL := true } consts0 world_bad_l2 pkt_unknown =
      ⟨consts0.CTX_ACT_DROP,
        [Event.drop_notify_error 0 consts0.DROP_UNSUPPORTED_L2 consts0.CTX_ACT_DROP
          Dir.egress]⟩ :=
  ⟨by decide, by decide,
    ((unknown_l2_l3 { ENABLE_HOST_FIREWALL := true } consts0 world0 pkt_unknown
      (fun _ _ _ _ => rfl) (fun _ _ _ _ _ _ => rfl) (by decide) (by decide)).2.1 false
      (by decide) (by decide) (by decide) (by decide)).1,
    (unknown_l2_l3 { ENABLE_HOST_FIREWALL := true } consts0 world_bad_l2 pkt_unknown
      (fun _ _ _ _ => rfl) (fun _ _ _ _ _ _ => rfl) (by decide) (by decide)).2.2.1 rfl
      (by decide)⟩

/-- Counterexample to C27 as stated: with the host firewall and
HOST_REDIRECT_TO_INGRESS, but neither ARP passthrough nor the ARP responder,
an ARP frame at from-host is none of the protocols of the switch, yet it is
not dropped: `do_netdev` passes it to the stack (CTX_ACT_OK) before the switch
is reached. Likewise, with ENABLE_IPSEC a frame of unknown protocol that
carries the encryption mark is handed to `do_netdev_encrypt` at from-netdev. -/
theorem arp_from_host_not_dropped :
    l3_enabled { ENABLE_HOST_FIREWALL := true, HOST_REDIRECT_TO_INGRESS := true } consts0
      consts0.ETH_P_ARP = false ∧
    world0.validate_ethertype pkt_arp = (true, consts0.ETH_P_ARP) ∧
    from_host { ENABLE_HOST_FIREWALL := true, HOST_REDIRECT_TO_INGRESS := true } consts0 world0
      pkt_arp = ⟨consts0.CTX_ACT_OK, [Event.arp false consts0.CTX_ACT_OK]⟩ ∧
    consts0.CTX_ACT_OK ≠ consts0.CTX_ACT_DROP ∧
    l3_enabled { ENABLE_HOST_FIREWALL := true, ENABLE_IPSEC := true } consts0 4660 = false ∧
    from_netdev { ENABLE_HOST_FIREWALL := true, ENABLE_IPSEC := true } consts0 world0
      pkt_unknown_encrypt = ⟨0, [Event.netdev_encrypt 4660 0]⟩ := by
  decide

end BpfHost
